import Mathlib

/-!
# gloox: stream negotiation and stanza dispatch

A shallow embedding of `Client` (client.cpp) and `ClientBase` (clientbase.cpp,
clientbase.h) of the gloox XMPP client library.

* An XML element (`Tag`) is a tree of name, attributes, character data and
  children. A `Stanza` is a `Tag` together with the values of its `type()`,
  `subtype()`, `id()` and `from()` accessors.
* The client object is the record `Client`. Member functions take the client
  and return the updated client.
* Calls that leave the two classes (the transport `Connection`, listeners and
  handlers, `RosterManager`, `NonSaslAuth`, and the `ClientBase` members whose
  bodies are not in the sources) are appended, in call order, to
  `Client.events`. Log output is not recorded.
* A member function that dereferences a pointer without testing it returns
  `Option`: `none` stands for the dereference of a null pointer.
* `#ifdef HAVE_TLS` and `#ifdef HAVE_ZLIB` are the two flags of `Build`.
-/

namespace gloox

/-! ## Constants of gloox.h -/

def XMLNS_CLIENT : String := "jabber:client"

def XMLNS_XMPP_STANZAS : String := "urn:ietf:params:xml:ns:xmpp-stanzas"

def XMLNS_STREAM_TLS : String := "urn:ietf:params:xml:ns:xmpp-tls"

def XMLNS_STREAM_SASL : String := "urn:ietf:params:xml:ns:xmpp-sasl"

def XMLNS_STREAM_BIND : String := "urn:ietf:params:xml:ns:xmpp-bind"

def XMLNS_STREAM_SESSION : String := "urn:ietf:params:xml:ns:xmpp-session"

def XMLNS_STREAM_IQAUTH : String := "http://jabber.org/features/iq-auth"

def XMLNS_STREAM_IQREGISTER : String := "http://jabber.org/features/iq-register"

/-- Modelled from the spec: gloox.h as given defines no XMLNS_STREAM_ACK; the
namespace of the `ack` stream feature. -/
def XMLNS_STREAM_ACK : String := "http://jabber.org/features/ack"

/-- Modelled from the spec: gloox.h as given defines no XMLNS_STREAM_COMPRESS; the
namespace of the `compression` stream feature. -/
def XMLNS_STREAM_COMPRESS : String := "http://jabber.org/features/compress"

/-- Modelled from the spec: gloox.h as given defines no XMLNS_COMPRESSION; the
compression namespace of `compress`, `compressed` and `failure`. -/
def XMLNS_COMPRESSION : String := "http://jabber.org/protocol/compress"

/-- Modelled from the spec: gloox.h as given defines no XMLNS_OFFLINE; the namespace of
flexible offline message retrieval. -/
def XMLNS_OFFLINE : String := "http://jabber.org/protocol/offline"

/-! ### The stream feature bit mask

Modelled from the spec: the STREAM_FEATURE_* constants are used by client.cpp but
defined in no source file. The spec describes a bit-set over StartTLS,
SaslDigestMd5, SaslPlain, SaslAnonymous, SaslExternal, Bind, Session, IqAuth,
IqRegister, Ack, CompressZlib, CompressDclz: twelve distinct single bits, here in
that order. -/

/-- Modelled from the spec: the StartTLS bit of the feature bit-set. -/
def STREAM_FEATURE_STARTTLS : Nat := 1

/-- Modelled from the spec: the SaslDigestMd5 bit of the feature bit-set. -/
def STREAM_FEATURE_SASL_DIGESTMD5 : Nat := 2

/-- Modelled from the spec: the SaslPlain bit of the feature bit-set. -/
def STREAM_FEATURE_SASL_PLAIN : Nat := 4

/-- Modelled from the spec: the SaslAnonymous bit of the feature bit-set. -/
def STREAM_FEATURE_SASL_ANONYMOUS : Nat := 8

/-- Modelled from the spec: the SaslExternal bit of the feature bit-set. -/
def STREAM_FEATURE_SASL_EXTERNAL : Nat := 16

/-- Modelled from the spec: the Bind bit of the feature bit-set. -/
def STREAM_FEATURE_BIND : Nat := 32

/-- Modelled from the spec: the Session bit of the feature bit-set. -/
def STREAM_FEATURE_SESSION : Nat := 64

/-- Modelled from the spec: the IqAuth bit of the feature bit-set. -/
def STREAM_FEATURE_IQAUTH : Nat := 128

/-- Modelled from the spec: the IqRegister bit of the feature bit-set. -/
def STREAM_FEATURE_IQREGISTER : Nat := 256

/-- Modelled from the spec: the Ack bit of the feature bit-set. -/
def STREAM_FEATURE_ACK : Nat := 512

/-- Modelled from the spec: the CompressZlib bit of the feature bit-set. -/
def STREAM_FEATURE_COMPRESS_ZLIB : Nat := 1024

/-- Modelled from the spec: the CompressDclz bit of the feature bit-set. -/
def STREAM_FEATURE_COMPRESS_DCLZ : Nat := 2048

/-- The C++ test `features & bit` used as a condition. -/
def hasFeature (features bit : Nat) : Bool := (features &&& bit) != 0

/-! ## Enumerations -/

/-- The enum ConnectionError of gloox.h, its enumerators spelled as client.cpp
spells them (ConnNoSupportedAuth for CONN_NO_SUPPORTED_AUTH, and so on). -/
inductive ConnectionError where
  | ConnNoError
  | ConnStreamError
  | ConnStreamClosed
  | ConnIoError
  | ConnOutOfMemory
  | ConnNoSupportedAuth
  | ConnTlsFailed
  | ConnAuthenticationFailed
  | ConnUserDisconnected
  deriving DecidableEq, Repr

/-- The enum ConnectionState of gloox.h. -/
inductive ConnectionState where
  | STATE_DISCONNECTED
  | STATE_CONNECTING
  | STATE_CONNECTED
  deriving DecidableEq, Repr

/-- The enum NodeType of clientbase.h, the kinds of node the parser hands to
`ClientBase::filter` (clientbase.cpp writes IKS_NODE_START, IKS_NODE_NORMAL,
IKS_NODE_ERROR and IKS_NODE_STOP for them). -/
inductive NodeType where
  | NODE_STREAM_START
  | NODE_STREAM_ERROR
  | NODE_STREAM_CLOSE
  | NODE_STREAM_CHILD
  deriving DecidableEq, Repr

/-- The enum StanzaType of gloox.h. -/
inductive StanzaType where
  | STANZA_UNDEFINED
  | STANZA_IQ
  | STANZA_MESSAGE
  | STANZA_S10N
  | STANZA_PRESENCE
  deriving DecidableEq, Repr

/-- The enum StanzaSubType of gloox.h. client.cpp writes StanzaIqResult and
StanzaIqError for STANZA_IQ_RESULT and STANZA_IQ_ERROR. -/
inductive StanzaSubType where
  | STANZA_SUB_UNDEFINED
  | STANZA_IQ_GET
  | STANZA_IQ_SET
  | STANZA_IQ_RESULT
  | STANZA_IQ_ERROR
  | STANZA_PRES_UNAVAILABLE
  | STANZA_PRES_AVAILABLE
  | STANZA_PRES_PROBE
  | STANZA_PRES_ERROR
  | STANZA_S10N_SUBSCRIBE
  | STANZA_S10N_SUBSCRIBED
  | STANZA_S10N_UNSUBSCRIBE
  | STANZA_S10N_UNSUBSCRIBED
  | STANZA_MESSAGE_CHAT
  | STANZA_MESSAGE_ERROR
  | STANZA_MESSAGE_GROUPCHAT
  | STANZA_MESSAGE_HEADLINE
  | STANZA_MESSAGE_NORMAL
  deriving DecidableEq, Repr

/-- The SASL mechanisms client.cpp passes to startSASL. -/
inductive SaslMechanisms where
  | SaslDigestMd5
  | SaslPlain
  | SaslAnonymous
  | SaslExternal
  deriving DecidableEq, Repr

/-- The values of ConnectionListener::ResourceBindError used by client.cpp. -/
inductive ResourceBindError where
  | RbErrorUnknownError
  | RbErrorBadRequest
  | RbErrorNotAllowed
  | RbErrorConflict
  deriving DecidableEq, Repr

/-- The values of ConnectionListener::SessionCreateError used by client.cpp. -/
inductive SessionCreateError where
  | ScErrorUnknownError
  | ScErrorInternalServerError
  | ScErrorForbidden
  | ScErrorConflict
  deriving DecidableEq, Repr

/-- The struct CertInfo of gloox.h. -/
structure CertInfo where
  status : Int := 0
  chain : Bool := false
  issuer : String := ""
  server : String := ""
  date_from : Int := 0
  date_to : Int := 0
  protocol : String := ""
  cipher : String := ""
  mac : String := ""
  compression : String := ""

/-! ## XML elements -/

/-- Modelled from the spec: class Tag (tag.h is not among the sources). A
structured element: name, attributes in the order they were added, child elements
in document order, character data. -/
structure Tag where
  m_name : String
  m_attribs : List (String × String)
  m_children : List Tag
  m_cdata : String

namespace Tag

/-- Modelled from the spec: the constructor `Tag( name, cdata )`, an element without
attributes and children. -/
def new (name : String) (cdata : String) : Tag :=
  { m_name := name, m_attribs := [], m_children := [], m_cdata := cdata }

/-- Modelled from the spec: `empty()` (tag.h is not among the sources), the element
has no name. -/
def empty (t : Tag) : Bool := t.m_name == ""

/-- Modelled from the spec: `name()`. -/
def name (t : Tag) : String := t.m_name

/-- Modelled from the spec: `cdata()`. -/
def cdata (t : Tag) : String := t.m_cdata

/-- Modelled from the spec: `addAttribute( name, value )`, spelled `addAttrib` in
clientbase.cpp. -/
def addAttribute (t : Tag) (name value : String) : Tag :=
  { t with m_attribs := t.m_attribs ++ [(name, value)] }

/-- Modelled from the spec: attaching a child, as `new Tag( parent, ... )` and
`addChild` do. -/
def addChild (t : Tag) (child : Tag) : Tag :=
  { t with m_children := t.m_children ++ [child] }

/-- Modelled from the spec: `hasAttribute( name, value )`, the element carries the
attribute with that value. -/
def hasAttribute (t : Tag) (name value : String) : Bool :=
  t.m_attribs.any (fun a => a.1 == name && a.2 == value)

/-- Modelled from the spec: `findAttribute( name )`, the value of the attribute, or
the empty string. -/
def findAttribute (t : Tag) (name : String) : String :=
  match t.m_attribs.find? (fun a => a.1 == name) with
  | some a => a.2
  | none => ""

/-- Modelled from the spec: `hasChild( name, attr, value )`, some direct child is
called `name` and carries the attribute with that value. -/
def hasChild (t : Tag) (name attr value : String) : Bool :=
  t.m_children.any (fun ch => ch.m_name == name && ch.hasAttribute attr value)

/-- Modelled from the spec: `findChild( name )`, the first direct child called
`name`, or the null pointer. -/
def findChild (t : Tag) (name : String) : Option Tag :=
  t.m_children.find? (fun ch => ch.m_name == name)

/-- Modelled from the spec: `hasChildWithCData( name, cdata )`, some direct child
is called `name` and has exactly that character data. -/
def hasChildWithCData (t : Tag) (name cdata : String) : Bool :=
  t.m_children.any (fun ch => ch.m_name == name && ch.m_cdata == cdata)

/-- Modelled from the spec: `hasChildWithAttrib( attr, value )` (tag.h is not among
the sources). The dispatcher calls it to tell whether a namespace appears on the
stanza or on a child thereof: the element itself or some direct child carries the
attribute with that value. -/
def hasChildWithAttrib (t : Tag) (attr value : String) : Bool :=
  t.hasAttribute attr value || t.m_children.any (fun ch => ch.hasAttribute attr value)

/-- Attribute names are unique within the element, as in every XML element. -/
def uniqueAttribs (t : Tag) : Prop := (t.m_attribs.map Prod.fst).Nodup

/-- The element has at most one direct child called `name`. -/
def atMostOneChild (t : Tag) (name : String) : Prop :=
  (t.m_children.filter (fun ch => ch.m_name == name)).length ≤ 1

end Tag

/-- Modelled from the spec: class JID (jid.h is not among the sources). The
address, composed of node, domain and resource parts; an empty part is unset. -/
structure JID where
  m_username : String := ""
  m_server : String := ""
  m_resource : String := ""

namespace JID

def username (j : JID) : String := j.m_username

def server (j : JID) : String := j.m_server

def resource (j : JID) : String := j.m_resource

/-- Modelled from the spec: `setJID( jid )` adopts the address written
node@domain/resource: the resource is what follows the first slash, the node what
precedes the first at-sign before it. No string preparation is applied. An empty
argument changes nothing. -/
def setJID (j : JID) (jid : String) : JID :=
  if jid = "" then j
  else
    let cs := jid.data
    let bare := cs.takeWhile (fun ch => ch != '/')
    let res := (cs.dropWhile (fun ch => ch != '/')).drop 1
    if bare.contains '@' then
      { m_username := String.mk (bare.takeWhile (fun ch => ch != '@')),
        m_server := String.mk ((bare.dropWhile (fun ch => ch != '@')).drop 1),
        m_resource := String.mk res }
    else
      { m_username := "", m_server := String.mk bare, m_resource := String.mk res }

/-- Modelled from the spec: `full()`, the address as node@domain/resource, unset
parts left out together with their separator. -/
def full (j : JID) : String :=
  (if j.m_username = "" then "" else j.m_username ++ "@") ++ j.m_server ++
    (if j.m_resource = "" then "" else "/" ++ j.m_resource)

/-- The text is written node@domain/resource with no empty node before an at-sign and
no empty resource after a slash. -/
def isAddress (jid : String) : Bool :=
  let cs := jid.data
  let bare := cs.takeWhile (fun ch => ch != '/')
  let rest := cs.dropWhile (fun ch => ch != '/')
  jid != "" && bare.head? != some '@' && rest.length != 1

end JID

/-- Modelled from the spec: class Stanza (stanza.h is not among the sources). A
Stanza is a Tag; `m_type`, `m_subtype`, `m_id` and `m_from` are what `type()`,
`subtype()`, `id()` and `from()` return. -/
structure Stanza extends Tag where
  m_type : StanzaType := StanzaType.STANZA_UNDEFINED
  m_subtype : StanzaSubType := StanzaSubType.STANZA_SUB_UNDEFINED
  m_id : String := ""
  m_from : JID := {}

/-! ## Handlers, listeners and the transport -/

/-- An `IqHandler*`: the identity of the registered object and what its two
virtual functions return. -/
structure IqHandler where
  ptr : Nat
  handleIq : Stanza → Bool := fun _ => false
  handleIqID : Stanza → Int → Bool := fun _ _ => false

/-- A `ConnectionListener*`: the identity of the registered object and what its
certificate callback returns. -/
structure ConnectionListener where
  ptr : Nat
  onTLSConnect : CertInfo → Bool := fun _ => true

/-- A `MessageHandler*`: the identity of the registered object. -/
structure MessageHandler where
  ptr : Nat

/-- A `PresenceHandler*`: the identity of the registered object. -/
structure PresenceHandler where
  ptr : Nat

/-- A `SubscriptionHandler*`: the identity of the registered object. -/
structure SubscriptionHandler where
  ptr : Nat

/-- The struct TrackStruct of clientbase.h. -/
structure TrackStruct where
  ih : IqHandler
  context : Int

/-- Every call that leaves Client and ClientBase, in the order it is made. -/
inductive Event where
  | send (tag : Tag)
  | sendXml (xml : String)
  | setState (reason : ConnectionError)
  | disconnect
  | initCompression (init : Bool)
  | setCompression (compression : Bool)
  | tlsHandshake
  | startTls
  | startSASL (type : SaslMechanisms)
  | processSASLChallenge (challenge : String)
  | processSASLError (stanza : Stanza)
  | nonSaslLogin
  | rosterFill
  | onConnect (cl : Nat)
  | onTLSConnect (cl : Nat)
  | onResourceBindError (cl : Nat) (error : ResourceBindError)
  | onSessionCreateError (cl : Nat) (error : SessionCreateError)
  | handleIq (ih : Nat) (stanza : Stanza)
  | handleIqID (ih : Nat) (stanza : Stanza) (context : Int)
  | onDisconnect (cl : Nat)
  | handleMessage (mh : Nat) (stanza : Stanza)
  | handlePresence (ph : Nat) (stanza : Stanza)
  | handleSubscription (sh : Nat) (stanza : Stanza)
  | handleStartNode
  | connect
  | receive

/-- The calls that start an authentication: a SASL mechanism or the legacy IQ
login. -/
def Event.isAuthStart : Event → Bool
  | Event.startSASL _ => true
  | Event.nonSaslLogin => true
  | _ => false

/-- Modelled from the spec: class Connection (connection.h is not among the
sources), the transport collaborator. `isSecure` is what `isSecure()` returns;
`initCompressionResult` and `tlsHandshakeResult` are what `initCompression( true )`
and `tlsHandshake()` will return; `m_certInfo` is what `fetchTLSInfo()` returns;
`connectResult` is what `connect()` will return;
`m_state` is what `state()` returns when a member function of the client is entered
(the calls `setState` and `disconnect` made on the transport are recorded, what the
transport does with them is its own). -/
structure Connection where
  isSecure : Bool := false
  initCompressionResult : Bool := false
  tlsHandshakeResult : Bool := false
  m_compression : Bool := false
  m_certInfo : CertInfo := {}
  m_state : ConnectionState := ConnectionState.STATE_CONNECTED
  connectResult : ConnectionState := ConnectionState.STATE_CONNECTED

/-- The compile-time configuration (config.h). -/
structure Build where
  HAVE_TLS : Bool
  HAVE_ZLIB : Bool

/-! ## std::map -/

namespace StdMap

/-- The entry `std::map::find( key )` points to. -/
def find {V : Type} (m : List (String × V)) (key : String) : Option V :=
  match m.find? (fun e => e.1 == key) with
  | some e => some e.2
  | none => none

/-- Removal of the entry `find( key )` points to, as `erase( iterator )` does. -/
def erase {V : Type} (m : List (String × V)) (key : String) : List (String × V) :=
  m.eraseP (fun e => e.1 == key)

/-- Insertion of a new key at its place in key order. -/
def insertNew {V : Type} : List (String × V) → String → V → List (String × V)
  | [], key, v => [(key, v)]
  | e :: rest, key, v => if key < e.1 then (key, v) :: e :: rest else e :: insertNew rest key v

/-- The assignment `m[key] = v`: the value of an existing key is replaced, a new key
is inserted. -/
def insert {V : Type} (m : List (String × V)) (key : String) (v : V) : List (String × V) :=
  if m.any (fun e => e.1 == key) then
    m.map (fun e => if e.1 == key then (key, v) else e)
  else insertNew m key v

/-- Keys are unique, as in every std::map. -/
def WF {V : Type} (m : List (String × V)) : Prop := (m.map Prod.fst).Nodup

end StdMap

/-! ## The client -/

/-- The data members of Client and ClientBase that client.cpp and clientbase.cpp
read or write, with `events` added. `m_connection` is `none` for a null pointer.
`streamTo` is what the virtual `streamTo()` returns; `hasParser` tells whether the
pointer to the parser is set. The defaults are those of the constructor
`Client( server )`. -/
structure Client where
  m_jid : JID := {}
  m_connection : Option Connection := none
  m_password : String := ""
  m_namespace : String := XMLNS_CLIENT
  m_sid : String := ""
  streamTo : String := ""
  m_sasl : Bool := true
  m_tls : Bool := true
  m_authed : Bool := false
  m_clientCerts : List String := []
  m_clientKey : String := ""
  m_connectionListeners : List ConnectionListener := []
  m_iqNSHandlers : List (String × IqHandler) := []
  m_iqIDHandlers : List (String × TrackStruct) := []
  m_messageHandlers : List MessageHandler := []
  m_presenceHandlers : List PresenceHandler := []
  m_subscriptionHandlers : List SubscriptionHandler := []
  m_resourceBound : Bool := false
  m_autoPresence : Bool := false
  m_forceNonSasl : Bool := false
  m_manageRoster : Bool := true
  m_handleDisco : Bool := true
  m_doAuth : Bool := false
  m_streamFeatures : Nat := 0
  m_priority : Int := -1
  m_idCount : Nat := 0
  hasParser : Bool := false
  events : List Event := []

namespace Client

/-- Appends one call to the record of calls. -/
def emit (c : Client) (e : Event) : Client := { c with events := c.events ++ [e] }

def tls (c : Client) : Bool := c.m_tls

def sasl (c : Client) : Bool := c.m_sasl

def password (c : Client) : String := c.m_password

/-- Modelled from the spec: `Client::username()` (client.h is not among the
sources), the node part of the client's address. -/
def username (c : Client) : String := c.m_jid.username

/-- Modelled from the spec: `Client::resource()` (client.h is not among the
sources), the resource part of the client's address. -/
def resource (c : Client) : String := c.m_jid.resource

/-- Modelled from the spec: `ClientBase::hasTls()` is declared in clientbase.h, its
body is not among the sources. TLS is available when the library is built with
it. -/
def hasTls (b : Build) : Bool := b.HAVE_TLS

/-- Modelled from the spec: `setAuthed( authed )`, not among the sources. -/
def setAuthed (authed : Bool) (c : Client) : Client := { c with m_authed := authed }

/-! ### ClientBase (clientbase.cpp) -/

/-- The member `ClientBase::send( const Tag& )`. -/
def send (tag : Tag) (c : Client) : Client :=
  match c.m_connection with
  | some _ => c.emit (Event.send tag)
  | none => c

/-- The member `ClientBase::send( const std::string& )`. -/
def sendXml (xml : String) (c : Client) : Client :=
  match c.m_connection with
  | some _ => c.emit (Event.sendXml xml)
  | none => c

/-- The member `ClientBase::disconnect( reason )`. -/
def disconnect (reason : ConnectionError) (c : Client) : Client :=
  match c.m_connection with
  | some _ => (c.emit (Event.setState reason)).emit Event.disconnect
  | none => c

/-- The single quote character of the stream header. -/
def apos : String := String.singleton (Char.ofNat 39)

/-- The member `ClientBase::header()`. -/
def header (c : Client) : Client :=
  let xml := "<?xml version=" ++ apos ++ "1.0" ++ apos ++ "?>"
  let xml := xml ++ ("<stream:stream to=" ++ apos ++ c.streamTo ++ apos ++ " xmlns=" ++ apos
    ++ c.m_namespace ++ apos ++ " ")
  let xml := xml ++ ("xmlns:stream=" ++ apos ++ "http://etherx.jabber.org/streams" ++ apos ++ " ")
  let xml := xml ++ ("version=" ++ apos ++ "1.0" ++ apos ++ ">")
  sendXml xml c

/-- The text `ClientBase::header()` sends. -/
def streamHeader (c : Client) : String :=
  "<?xml version=" ++ apos ++ "1.0" ++ apos ++ "?>"
    ++ ("<stream:stream to=" ++ apos ++ c.streamTo ++ apos ++ " xmlns=" ++ apos
      ++ c.m_namespace ++ apos ++ " ")
    ++ ("xmlns:stream=" ++ apos ++ "http://etherx.jabber.org/streams" ++ apos ++ " ")
    ++ ("version=" ++ apos ++ "1.0" ++ apos ++ ">")

/-- The member `ClientBase::connect`. `fresh` is the object `new Connection( ... )`
yields when the client has no connection yet. -/
def connect (fresh : Connection) (c : Client) : Bool × Client :=
  if c.m_jid.server == "" then (false, c)
  else
    let c := if !c.hasParser then { c with hasParser := true } else c
    let conn := c.m_connection.getD fresh
    let c := { c with m_connection := some conn }
    let c := c.emit Event.connect
    if conn.connectResult == ConnectionState.STATE_CONNECTED then
      (true, (header c).emit Event.receive)
    else (true, c)

/-- Modelled from the spec: `ClientBase::getID()` is declared in clientbase.h, its body
is not among the sources. It creates a string which is unique in the current
instance: the counter `m_idCount` is advanced and written after a fixed text. -/
def getID (c : Client) : String × Client :=
  let c := { c with m_idCount := c.m_idCount + 1 }
  ("uid" ++ toString c.m_idCount, c)

/-- The member `ClientBase::registerIqHandler`. -/
def registerIqHandler (ih : IqHandler) (xmlns : String) (c : Client) : Client :=
  { c with m_iqNSHandlers := StdMap.insert c.m_iqNSHandlers xmlns ih }

/-- The member `ClientBase::trackID`. -/
def trackID (ih : IqHandler) (id : String) (context : Int) (c : Client) : Client :=
  let track : TrackStruct := { ih := ih, context := context }
  { c with m_iqIDHandlers := StdMap.insert c.m_iqIDHandlers id track }

/-- The member `ClientBase::removeIqHandler`. -/
def removeIqHandler (xmlns : String) (c : Client) : Client :=
  { c with m_iqNSHandlers := StdMap.erase c.m_iqNSHandlers xmlns }

/-- The member `ClientBase::registerConnectionListener`. -/
def registerConnectionListener (cl : ConnectionListener) (c : Client) : Client :=
  { c with m_connectionListeners := c.m_connectionListeners ++ [cl] }

/-- The member `ClientBase::removeConnectionListener`: `std::list::remove` takes out
every occurrence of the pointer. -/
def removeConnectionListener (cl : ConnectionListener) (c : Client) : Client :=
  { c with m_connectionListeners := c.m_connectionListeners.filter (fun h => h.ptr != cl.ptr) }

/-- The member `ClientBase::notifyOnConnect`. -/
def notifyOnConnect (c : Client) : Client :=
  c.m_connectionListeners.foldl (fun acc cl => acc.emit (Event.onConnect cl.ptr)) c

/-- The member `ClientBase::notifyOnResourceBindError`. -/
def notifyOnResourceBindError (error : ResourceBindError) (c : Client) : Client :=
  c.m_connectionListeners.foldl (fun acc cl => acc.emit (Event.onResourceBindError cl.ptr error)) c

/-- The member `ClientBase::notifyOnSessionCreateError`. -/
def notifyOnSessionCreateError (error : SessionCreateError) (c : Client) : Client :=
  c.m_connectionListeners.foldl
    (fun acc cl => acc.emit (Event.onSessionCreateError cl.ptr error)) c

/-- Modelled from the spec: `ClientBase::notifyOnTLSConnect( info )` is declared in
clientbase.h, its body is not among the sources. Every connection listener is
handed the peer certificate, in registration order like the other notifications;
the certificate is accepted when none of them rejects it. -/
def notifyOnTLSConnect (info : CertInfo) (c : Client) : Bool × Client :=
  c.m_connectionListeners.foldl
    (fun acc cl => (acc.1 && cl.onTLSConnect info, acc.2.emit (Event.onTLSConnect cl.ptr)))
    (true, c)

/-- One round of the loop over `m_iqNSHandlers` in `ClientBase::notifyIqHandlers`. -/
def notifyIqNSHandler (stanza : Stanza) (acc : Bool × Client) (e : String × IqHandler) :
    Bool × Client :=
  if stanza.hasChildWithAttrib "xmlns" e.1 then
    (if e.2.handleIq stanza then true else acc.1, acc.2.emit (Event.handleIq e.2.ptr stanza))
  else acc

/-- The member `ClientBase::notifyIqHandlers`. -/
def notifyIqHandlers (stanza : Stanza) (c : Client) : Client :=
  let r1 := c.m_iqNSHandlers.foldl (notifyIqNSHandler stanza) (false, c)
  let r2 : Bool × Client :=
    match StdMap.find r1.2.m_iqIDHandlers stanza.m_id with
    | some track =>
      (if track.ih.handleIqID stanza track.context then true else r1.1,
        { r1.2.emit (Event.handleIqID track.ih.ptr stanza track.context) with
          m_iqIDHandlers := StdMap.erase r1.2.m_iqIDHandlers stanza.m_id })
    | none => r1
  if !r2.1 && stanza.m_type == StanzaType.STANZA_IQ &&
      (stanza.m_subtype == StanzaSubType.STANZA_IQ_GET ||
        stanza.m_subtype == StanzaSubType.STANZA_IQ_SET) then
    let iq := Tag.new "iq" ""
    let iq := iq.addAttribute "type" "error"
    let iq := iq.addAttribute "id" stanza.m_id
    let iq := iq.addAttribute "to" stanza.m_from.full
    send iq r2.2
  else r2.2

/-- The member `ClientBase::state`. -/
def state (c : Client) : ConnectionState :=
  match c.m_connection with
  | some conn => conn.m_state
  | none => ConnectionState.STATE_DISCONNECTED

/-- The member `ClientBase::registerPresenceHandler`. -/
def registerPresenceHandler (ph : PresenceHandler) (c : Client) : Client :=
  { c with m_presenceHandlers := c.m_presenceHandlers ++ [ph] }

/-- The member `ClientBase::removePresenceHandler`: `std::list::remove` takes out
every occurrence of the pointer. -/
def removePresenceHandler (ph : PresenceHandler) (c : Client) : Client :=
  { c with m_presenceHandlers := c.m_presenceHandlers.filter (fun h => h.ptr != ph.ptr) }

/-- The member `ClientBase::registerMessageHandler`. -/
def registerMessageHandler (mh : MessageHandler) (c : Client) : Client :=
  { c with m_messageHandlers := c.m_messageHandlers ++ [mh] }

/-- The member `ClientBase::removeMessageHandler`. -/
def removeMessageHandler (mh : MessageHandler) (c : Client) : Client :=
  { c with m_messageHandlers := c.m_messageHandlers.filter (fun h => h.ptr != mh.ptr) }

/-- The member `ClientBase::registerSubscriptionHandler`. -/
def registerSubscriptionHandler (sh : SubscriptionHandler) (c : Client) : Client :=
  { c with m_subscriptionHandlers := c.m_subscriptionHandlers ++ [sh] }

/-- The member `ClientBase::removeSubscriptionHandler`. -/
def removeSubscriptionHandler (sh : SubscriptionHandler) (c : Client) : Client :=
  { c with
    m_subscriptionHandlers := c.m_subscriptionHandlers.filter (fun h => h.ptr != sh.ptr) }

/-- The member `ClientBase::notifyOnDisconnect`. -/
def notifyOnDisconnect (c : Client) : Client :=
  c.m_connectionListeners.foldl (fun acc cl => acc.emit (Event.onDisconnect cl.ptr)) c

/-- The member `ClientBase::notifyPresenceHandlers`. -/
def notifyPresenceHandlers (stanza : Stanza) (c : Client) : Client :=
  c.m_presenceHandlers.foldl (fun acc ph => acc.emit (Event.handlePresence ph.ptr stanza)) c

/-- The member `ClientBase::notifySubscriptionHandlers`. -/
def notifySubscriptionHandlers (stanza : Stanza) (c : Client) : Client :=
  c.m_subscriptionHandlers.foldl
    (fun acc sh => acc.emit (Event.handleSubscription sh.ptr stanza)) c

/-- The member `ClientBase::notifyMessageHandlers`. -/
def notifyMessageHandlers (stanza : Stanza) (c : Client) : Client :=
  c.m_messageHandlers.foldl (fun acc mh => acc.emit (Event.handleMessage mh.ptr stanza)) c

/-- The statement `switch( stanza.type() )` of `ClientBase::filter`: it has no
default case. -/
def dispatch (stanza : Stanza) (c : Client) : Client :=
  match stanza.m_type with
  | StanzaType.STANZA_IQ => notifyIqHandlers stanza c
  | StanzaType.STANZA_PRESENCE => notifyPresenceHandlers stanza c
  | StanzaType.STANZA_S10N => notifySubscriptionHandlers stanza c
  | StanzaType.STANZA_MESSAGE => notifyMessageHandlers stanza c
  | StanzaType.STANZA_UNDEFINED => c

/-! ### Members of ClientBase and of collaborators whose bodies are not in the sources

Each is one recorded call. -/

/-- Modelled from the spec: `ClientBase::startTls()`, the STARTTLS request. -/
def startTls (c : Client) : Client := c.emit Event.startTls

/-- Modelled from the spec: `ClientBase::startSASL( type )`, the selection of a SASL
mechanism. -/
def startSASL (type : SaslMechanisms) (c : Client) : Client := c.emit (Event.startSASL type)

/-- Modelled from the spec: `ClientBase::processSASLChallenge( challenge )`. -/
def processSASLChallenge (challenge : String) (c : Client) : Client :=
  c.emit (Event.processSASLChallenge challenge)

/-- Modelled from the spec: `ClientBase::processSASLError( stanza )`. -/
def processSASLError (stanza : Stanza) (c : Client) : Client :=
  c.emit (Event.processSASLError stanza)

/-- Modelled from the spec: `RosterManager::fill()` on `m_rosterManager`. -/
def rosterFill (c : Client) : Client := c.emit Event.rosterFill

/-- Modelled from the spec: the pure virtual `ClientBase::handleStartNode()`; no class
among the sources defines it. -/
def handleStartNode (c : Client) : Client := c.emit Event.handleStartNode

/-! ### Client (client.cpp) -/

/-- The statement `if( cond ) features |= bits;`. -/
def orIf (cond : Bool) (features bits : Nat) : Nat :=
  if cond then features ||| bits else features

/-- The statement `if( cond ) features |= get( stanza->findChild( name ) );`, where
`get` dereferences its argument. -/
def orChild (stanza : Tag) (cond : Bool) (name : String) (get : Tag → Nat) (features : Nat) :
    Option Nat :=
  if cond then
    match stanza.findChild name with
    | some tag => some (features ||| get tag)
    | none => none
  else some features

/-- The member `Client::getSaslMechs`. -/
def getSaslMechs (tag : Tag) : Nat :=
  let mechs := 0
  let mechs := orIf (tag.hasChildWithCData "mechanism" "DIGEST-MD5") mechs
    STREAM_FEATURE_SASL_DIGESTMD5
  let mechs := orIf (tag.hasChildWithCData "mechanism" "PLAIN") mechs STREAM_FEATURE_SASL_PLAIN
  let mechs := orIf (tag.hasChildWithCData "mechanism" "ANONYMOUS") mechs
    STREAM_FEATURE_SASL_ANONYMOUS
  let mechs := orIf (tag.hasChildWithCData "mechanism" "EXTERNAL") mechs
    STREAM_FEATURE_SASL_EXTERNAL
  mechs

/-- The member `Client::getCompressionMethods`. -/
def getCompressionMethods (tag : Tag) : Nat :=
  let meths := 0
  let meths := orIf (tag.hasChildWithCData "method" "zlib") meths STREAM_FEATURE_COMPRESS_ZLIB
  let meths := orIf (tag.hasChildWithCData "method" "lzw") meths STREAM_FEATURE_COMPRESS_DCLZ
  meths

/-- The member `Client::getStreamFeatures`. -/
def getStreamFeatures (stanza : Tag) : Option Nat :=
  if stanza.name != "stream:features" then some 0
  else
    let features := 0
    let features := orIf (stanza.hasChild "starttls" "xmlns" XMLNS_STREAM_TLS) features
      STREAM_FEATURE_STARTTLS
    (orChild stanza (stanza.hasChild "mechanisms" "xmlns" XMLNS_STREAM_SASL) "mechanisms"
      getSaslMechs features).bind fun features =>
    let features := orIf (stanza.hasChild "bind" "xmlns" XMLNS_STREAM_BIND) features
      STREAM_FEATURE_BIND
    let features := orIf (stanza.hasChild "session" "xmlns" XMLNS_STREAM_SESSION) features
      STREAM_FEATURE_SESSION
    let features := orIf (stanza.hasChild "auth" "xmlns" XMLNS_STREAM_IQAUTH) features
      STREAM_FEATURE_IQAUTH
    let features := orIf (stanza.hasChild "register" "xmlns" XMLNS_STREAM_IQREGISTER) features
      STREAM_FEATURE_IQREGISTER
    let features := orIf (stanza.hasChild "ack" "xmlns" XMLNS_STREAM_ACK) features
      STREAM_FEATURE_ACK
    (orChild stanza (stanza.hasChild "compression" "xmlns" XMLNS_STREAM_COMPRESS) "compression"
      getCompressionMethods features).bind fun features =>
    let features := if features == 0 then STREAM_FEATURE_IQAUTH else features
    some features

/-- The member `Client::bindResource`. -/
def bindResource (c : Client) : Client :=
  if !c.m_resourceBound then
    let iq := Tag.new "iq" ""
    let iq := iq.addAttribute "type" "set"
    let iq := iq.addAttribute "id" "bind"
    let b := Tag.new "bind" ""
    let b := b.addAttribute "xmlns" XMLNS_STREAM_BIND
    let b := if c.resource ≠ "" then b.addChild (Tag.new "resource" c.resource) else b
    send (iq.addChild b) c
  else c

/-- The member `Client::createSession`. -/
def createSession (c : Client) : Client :=
  let iq := Tag.new "iq" ""
  let iq := iq.addAttribute "type" "set"
  let iq := iq.addAttribute "id" "session"
  let s := Tag.new "session" ""
  let s := s.addAttribute "xmlns" XMLNS_STREAM_SESSION
  send (iq.addChild s) c

/-- The member `Client::negotiateCompression`. -/
def negotiateCompression (method : Nat) (c : Client) : Client :=
  let t := Tag.new "compress" ""
  let t := t.addAttribute "xmlns" XMLNS_COMPRESSION
  let t := if method == STREAM_FEATURE_COMPRESS_ZLIB then t.addChild (Tag.new "method" "zlib")
    else t
  let t := if method == STREAM_FEATURE_COMPRESS_DCLZ then t.addChild (Tag.new "method" "lzw")
    else t
  send t c

/-- The member `Client::nonSaslLogin`: a NonSaslAuth is created and its `doAuth()`
called. -/
def nonSaslLogin (c : Client) : Client := c.emit Event.nonSaslLogin

/-- The member `Client::sendInitialPresence`. -/
def sendInitialPresence (c : Client) : Client :=
  let p := Tag.new "presence" ""
  let p := p.addChild (Tag.new "priority" (toString c.m_priority))
  send p c

/-- The member `Client::setInitialPriority`. -/
def setInitialPriority (priority : Int) (c : Client) : Client :=
  let priority := if priority < -128 then -128 else priority
  let priority := if priority > 127 then 127 else priority
  { c with m_priority := priority }

/-- The member `Client::connected`. -/
def connected (c : Client) : Client :=
  let c :=
    if c.m_authed then
      let c := if c.m_manageRoster then rosterFill c else c
      if c.m_autoPresence then sendInitialPresence c else c
    else c
  notifyOnConnect c

/-- The chain of `Client::processResourceBind` from `else if( type cancel )` on. The
pointer `error` is dereferenced where the condition is evaluated. -/
def processResourceBindCancel (stanza : Stanza) (error : Option Tag) (c : Client) :
    Option Client :=
  if stanza.hasChild "error" "type" "cancel" then
    match error with
    | none => none
    | some error =>
      if error.hasChild "not-allowed" "xmlns" XMLNS_XMPP_STANZAS then
        some (notifyOnResourceBindError ResourceBindError.RbErrorNotAllowed c)
      else if error.hasChild "conflict" "xmlns" XMLNS_XMPP_STANZAS then
        some (notifyOnResourceBindError ResourceBindError.RbErrorConflict c)
      else
        some (notifyOnResourceBindError ResourceBindError.RbErrorUnknownError c)
  else
    some (notifyOnResourceBindError ResourceBindError.RbErrorUnknownError c)

/-- The member `Client::processResourceBind`. -/
def processResourceBind (stanza : Stanza) (c : Client) : Option Client :=
  match stanza.m_subtype with
  | StanzaSubType.STANZA_IQ_RESULT =>
    match stanza.findChild "bind" with
    | none => none
    | some bind =>
      match bind.findChild "jid" with
      | none => none
      | some jid =>
        let c := { c with m_jid := c.m_jid.setJID jid.cdata }
        let c := { c with m_resourceBound := true }
        if hasFeature c.m_streamFeatures STREAM_FEATURE_SESSION then
          some (createSession c)
        else
          some (connected c)
  | StanzaSubType.STANZA_IQ_ERROR =>
    let error := stanza.findChild "error"
    if stanza.hasChild "error" "type" "modify" then
      match error with
      | none => none
      | some err =>
        if err.hasChild "bad-request" "xmlns" XMLNS_XMPP_STANZAS then
          some (notifyOnResourceBindError ResourceBindError.RbErrorBadRequest c)
        else processResourceBindCancel stanza error c
    else processResourceBindCancel stanza error c
  | _ => some c

/-- The chain of `Client::processCreateSession` from `else if( type cancel )` on. -/
def processCreateSessionCancel (stanza : Stanza) (error : Option Tag) (c : Client) :
    Option Client :=
  if stanza.hasChild "error" "type" "cancel" then
    match error with
    | none => none
    | some err =>
      if err.hasChild "conflict" "xmlns" XMLNS_XMPP_STANZAS then
        some (notifyOnSessionCreateError SessionCreateError.ScErrorConflict c)
      else some (notifyOnSessionCreateError SessionCreateError.ScErrorUnknownError c)
  else some (notifyOnSessionCreateError SessionCreateError.ScErrorUnknownError c)

/-- The chain of `Client::processCreateSession` from `else if( type auth )` on. -/
def processCreateSessionAuth (stanza : Stanza) (error : Option Tag) (c : Client) :
    Option Client :=
  if stanza.hasChild "error" "type" "auth" then
    match error with
    | none => none
    | some err =>
      if err.hasChild "forbidden" "xmlns" XMLNS_XMPP_STANZAS then
        some (notifyOnSessionCreateError SessionCreateError.ScErrorForbidden c)
      else processCreateSessionCancel stanza error c
  else processCreateSessionCancel stanza error c

/-- The member `Client::processCreateSession`. -/
def processCreateSession (stanza : Stanza) (c : Client) : Option Client :=
  match stanza.m_subtype with
  | StanzaSubType.STANZA_IQ_RESULT => some (connected c)
  | StanzaSubType.STANZA_IQ_ERROR =>
    let error := stanza.findChild "error"
    if stanza.hasChild "error" "type" "wait" then
      match error with
      | none => none
      | some err =>
        if err.hasChild "internal-server-error" "xmlns" XMLNS_XMPP_STANZAS then
          some (notifyOnSessionCreateError SessionCreateError.ScErrorInternalServerError c)
        else processCreateSessionAuth stanza error c
    else processCreateSessionAuth stanza error c
  | _ => some c

/-- The authentication step of `Client::handleNormalNode`: the statement
`if( sasl() ) ... else ...` that follows the STARTTLS and compression steps. -/
def authStep (c : Client) : Client :=
  if c.sasl then
    if c.m_authed then
      if hasFeature c.m_streamFeatures STREAM_FEATURE_BIND then bindResource c else c
    else if c.m_doAuth && c.username ≠ "" && c.password ≠ "" then
      if hasFeature c.m_streamFeatures STREAM_FEATURE_SASL_DIGESTMD5 && !c.m_forceNonSasl then
        startSASL SaslMechanisms.SaslDigestMd5 c
      else if hasFeature c.m_streamFeatures STREAM_FEATURE_SASL_PLAIN && !c.m_forceNonSasl then
        startSASL SaslMechanisms.SaslPlain c
      else if hasFeature c.m_streamFeatures STREAM_FEATURE_IQAUTH || c.m_forceNonSasl then
        nonSaslLogin c
      else
        disconnect ConnectionError.ConnNoSupportedAuth c
    else if c.m_doAuth && !c.m_clientCerts.isEmpty && c.m_clientKey ≠ ""
        && hasFeature c.m_streamFeatures STREAM_FEATURE_SASL_EXTERNAL then
      startSASL SaslMechanisms.SaslExternal c
    else if c.m_doAuth && hasFeature c.m_streamFeatures STREAM_FEATURE_SASL_ANONYMOUS then
      startSASL SaslMechanisms.SaslAnonymous c
    else
      connected c
  else if hasFeature c.m_streamFeatures STREAM_FEATURE_IQAUTH then
    nonSaslLogin c
  else
    disconnect ConnectionError.ConnNoSupportedAuth c

/-- The compression step of `Client::handleNormalNode` (compiled under HAVE_ZLIB)
and what follows it. `initCompression( true )` is called on `m_connection` only when
zlib is advertised. -/
def compressionStep (b : Build) (c : Client) : Option (Bool × Client) :=
  if b.HAVE_ZLIB && hasFeature c.m_streamFeatures STREAM_FEATURE_COMPRESS_ZLIB then
    match c.m_connection with
    | none => none
    | some conn =>
      let c := c.emit (Event.initCompression true)
      if conn.initCompressionResult then
        some (true, negotiateCompression STREAM_FEATURE_COMPRESS_ZLIB c)
      else some (true, authStep c)
  else some (true, authStep c)

/-- The STARTTLS step of `Client::handleNormalNode` (compiled under HAVE_TLS) and
what follows it. `isSecure()` is called on `m_connection` only when `tls()` and
`hasTls()` hold. -/
def startTlsStep (b : Build) (c : Client) : Option (Bool × Client) :=
  if b.HAVE_TLS && c.tls && hasTls b then
    match c.m_connection with
    | none => none
    | some conn =>
      if !conn.isSecure && hasFeature c.m_streamFeatures STREAM_FEATURE_STARTTLS then
        some (true, startTls c)
      else compressionStep b c
  else compressionStep b c

/-- The branch of `Client::handleNormalNode` for a `proceed` in the TLS
namespace. After the handshake the transport is secure when the handshake
succeeded. -/
def handleProceed (c : Client) : Option (Bool × Client) :=
  match c.m_connection with
  | none => none
  | some conn =>
    let c := { c.emit Event.tlsHandshake with
      m_connection := some { conn with isSecure := conn.isSecure || conn.tlsHandshakeResult } }
    if conn.tlsHandshakeResult then
      let r := notifyOnTLSConnect conn.m_certInfo c
      if !r.1 then some (true, disconnect ConnectionError.ConnTlsFailed r.2)
      else some (true, header r.2)
    else some (true, disconnect ConnectionError.ConnTlsFailed c)

/-- The branch of `Client::handleNormalNode` for a `compressed` in the compression
namespace. -/
def handleCompressed (c : Client) : Option (Bool × Client) :=
  match c.m_connection with
  | none => none
  | some conn =>
    let c := { c.emit (Event.setCompression true) with
      m_connection := some { conn with m_compression := true } }
    some (true, header c)

/-- The last branch of `Client::handleNormalNode`: the replies to the bind and
session requests. -/
def handleIqReplies (stanza : Stanza) (c : Client) : Option (Bool × Client) :=
  if stanza.name == "iq" && stanza.hasAttribute "id" "bind" then
    (processResourceBind stanza c).map (fun c => (true, c))
  else if stanza.name == "iq" && stanza.hasAttribute "id" "session" then
    (processCreateSession stanza c).map (fun c => (true, c))
  else some (false, c)

/-- The member `Client::handleNormalNode`. -/
def handleNormalNode (b : Build) (stanza : Stanza) (c : Client) : Option (Bool × Client) :=
  if stanza.name == "stream:features" then
    match getStreamFeatures stanza.toTag with
    | none => none
    | some features => startTlsStep b { c with m_streamFeatures := features }
  else if b.HAVE_TLS && stanza.name == "proceed"
      && stanza.hasAttribute "xmlns" XMLNS_STREAM_TLS then
    handleProceed c
  else if b.HAVE_TLS && stanza.name == "failure"
      && stanza.hasAttribute "xmlns" XMLNS_STREAM_TLS then
    some (true, disconnect ConnectionError.ConnTlsFailed c)
  else if b.HAVE_ZLIB && stanza.name == "failure"
      && stanza.hasAttribute "xmlns" XMLNS_COMPRESSION then
    some (true, disconnect ConnectionError.ConnTlsFailed c)
  else if b.HAVE_ZLIB && stanza.name == "compressed"
      && stanza.hasAttribute "xmlns" XMLNS_COMPRESSION then
    handleCompressed c
  else if stanza.name == "challenge" && stanza.hasAttribute "xmlns" XMLNS_STREAM_SASL then
    some (true, processSASLChallenge stanza.cdata c)
  else if stanza.name == "failure" && stanza.hasAttribute "xmlns" XMLNS_STREAM_SASL then
    some (true, disconnect ConnectionError.ConnAuthenticationFailed (processSASLError stanza c))
  else if stanza.name == "success" && stanza.hasAttribute "xmlns" XMLNS_STREAM_SASL then
    some (true, header (setAuthed true c))
  else handleIqReplies stanza c

/-- The member `ClientBase::filter`. The stanza stands for the element and for the
`Stanza` built from it. clientbase.cpp names the reasons of the two disconnects
STATE_ERROR and STATE_DISCONNECTED; with the reason type of client.cpp they are the
stream error and the closed stream. -/
def filter (b : Build) (type : NodeType) (stanza : Stanza) (c : Client) : Option Client :=
  if stanza.empty then some c
  else
    match type with
    | NodeType.NODE_STREAM_START =>
      some (handleStartNode { c with m_sid := stanza.findAttribute "id" })
    | NodeType.NODE_STREAM_CHILD =>
      match handleNormalNode b stanza c with
      | none => none
      | some (true, c) => some c
      | some (false, c) => some (dispatch stanza c)
    | NodeType.NODE_STREAM_ERROR => some (disconnect ConnectionError.ConnStreamError c)
    | NodeType.NODE_STREAM_CLOSE => some (disconnect ConnectionError.ConnStreamClosed c)

/-! ### Conditions of the negotiation steps -/

/-- The condition of the STARTTLS step of `Client::handleNormalNode`, for a client
whose connection is `conn` and whose feature set is `features`. -/
def startTlsApplies (b : Build) (c : Client) (conn : Connection) (features : Nat) : Bool :=
  b.HAVE_TLS && c.tls && hasTls b && !conn.isSecure
    && hasFeature features STREAM_FEATURE_STARTTLS

/-- The condition of the compression step of `Client::handleNormalNode`. -/
def compressionApplies (b : Build) (conn : Connection) (features : Nat) : Bool :=
  b.HAVE_ZLIB && hasFeature features STREAM_FEATURE_COMPRESS_ZLIB && conn.initCompressionResult

/-- An advertisement reaches the authentication step when neither the STARTTLS
request nor the compression request is issued for it. -/
def reachesAuthStep (b : Build) (c : Client) (conn : Connection) (features : Nat) : Bool :=
  !startTlsApplies b c conn features && !compressionApplies b conn features

/-- The call made while the compression step is evaluated: `initCompression( true )`,
when zlib is advertised. -/
def compressionProbe (b : Build) (features : Nat) : List Event :=
  if b.HAVE_ZLIB && hasFeature features STREAM_FEATURE_COMPRESS_ZLIB then
    [Event.initCompression true]
  else []

/-- The bits a child element contributes to the feature set. -/
def childBits (stanza : Tag) (name attr value : String) (get : Tag → Nat) : Nat :=
  if stanza.hasChild name attr value then
    match stanza.findChild name with
    | some tag => get tag
    | none => 0
  else 0

/-- The feature bits `Client::getStreamFeatures` collects before its fallback to
IqAuth. -/
def rawFeatures (stanza : Tag) : Nat :=
  orIf (stanza.hasChild "ack" "xmlns" XMLNS_STREAM_ACK)
    (orIf (stanza.hasChild "register" "xmlns" XMLNS_STREAM_IQREGISTER)
      (orIf (stanza.hasChild "auth" "xmlns" XMLNS_STREAM_IQAUTH)
        (orIf (stanza.hasChild "session" "xmlns" XMLNS_STREAM_SESSION)
          (orIf (stanza.hasChild "bind" "xmlns" XMLNS_STREAM_BIND)
            (orIf (stanza.hasChild "starttls" "xmlns" XMLNS_STREAM_TLS) 0 STREAM_FEATURE_STARTTLS
              ||| childBits stanza "mechanisms" "xmlns" XMLNS_STREAM_SASL getSaslMechs)
            STREAM_FEATURE_BIND) STREAM_FEATURE_SESSION) STREAM_FEATURE_IQAUTH)
      STREAM_FEATURE_IQREGISTER) STREAM_FEATURE_ACK
    ||| childBits stanza "compression" "xmlns" XMLNS_STREAM_COMPRESS getCompressionMethods

end Client

/-! ## Data forms (dataformfieldcontainer.cpp) -/

/-- Modelled from the spec: class DataFormField (dataformfield.h is not among the
sources): the identity of the object, and what `name()` and `value()` return. -/
structure DataFormField where
  ptr : Nat
  m_name : String
  m_value : String := ""

/-- Modelled from the spec: `DataFormField::name()`. -/
def DataFormField.name (f : DataFormField) : String := f.m_name

/-- The data member of DataFormFieldContainer: the list of pointers to fields. -/
structure DataFormFieldContainer where
  m_fields : List DataFormField := []

namespace DataFormFieldContainer

/-- The loop of `DataFormFieldContainer::field`: the iterator advances while it is not
at the end and the name of the field it points to differs from the argument. -/
def fieldLoop (field : String) : List DataFormField → List DataFormField
  | [] => []
  | f :: rest => if f.name != field then fieldLoop field rest else f :: rest

/-- The member `DataFormFieldContainer::field`: the field the iterator stopped at, or
the null pointer when it reached the end. -/
def field (d : DataFormFieldContainer) (field : String) : Option DataFormField :=
  match fieldLoop field d.m_fields with
  | [] => none
  | f :: _ => some f

end DataFormFieldContainer

/-! ## Flexible offline message retrieval (flexoff.cpp) -/

/-- Modelled from the spec: flexoff.h is not among the sources. The context values
FO_CHECK_SUPPORT, FO_REQUEST_NUM, FO_REQUEST_HEADERS, FO_REQUEST_MSGS and
FO_REMOVE_MSGS are distinct; they are numbered in this order. -/
def FO_REQUEST_MSGS : Int := 3

/-- Modelled from the spec: the context value of `removeMessages`, see
FO_REQUEST_MSGS. -/
def FO_REMOVE_MSGS : Int := 4

namespace FlexibleOffline

/-- The element `o` that `FlexibleOffline::fetchMessages` builds with
`new Tag( "offline" )`: a `fetch` child for an empty list, else one `item` child per
message node. -/
def offline (msgs : List String) : Tag :=
  let o := Tag.new "offline" ""
  let o := o.addAttribute "xmlns" XMLNS_OFFLINE
  if msgs.length == 0 then o.addChild (Tag.new "fetch" "")
  else
    msgs.foldl
      (fun o msg =>
        let i := Tag.new "item" ""
        let i := i.addAttribute "action" "view"
        let i := i.addAttribute "node" msg
        o.addChild i)
      o

/-- The member `FlexibleOffline::fetchMessages`, for the object `self` whose parent
is the client. The element `o` is built next to the IQ and attached to nothing; it is
returned with the client to keep it in view. -/
def fetchMessages (self : IqHandler) (msgs : List String) (c : Client) : Tag × Client :=
  let r := Client.getID c
  let id := r.1
  let c := r.2
  let iq := Tag.new "iq" ""
  let iq := iq.addAttribute "type" "get"
  let iq := iq.addAttribute "id" id
  let o := offline msgs
  let c := Client.trackID self id FO_REQUEST_MSGS c
  (o, Client.send iq c)

end FlexibleOffline

/-! ## Projections of the record of calls, and the dispatch of an IQ by parts -/

/-- The id-tracked handler invocations among the recorded calls. -/
def idCalls (events : List Event) : List (Nat × Stanza × Int) :=
  events.filterMap (fun e =>
    match e with
    | Event.handleIqID ih stanza context => some (ih, stanza, context)
    | _ => none)

/-- The namespace handler invocations among the recorded calls. -/
def iqCalls (events : List Event) : List (Nat × Stanza) :=
  events.filterMap (fun e =>
    match e with
    | Event.handleIq ih stanza => some (ih, stanza)
    | _ => none)

/-- The calls the loop over the namespace handlers makes for a stanza. -/
def nsCalls (stanza : Stanza) (handlers : List (String × IqHandler)) : List Event :=
  handlers.filterMap (fun e =>
    if stanza.hasChildWithAttrib "xmlns" e.1 then some (Event.handleIq e.2.ptr stanza) else none)

/-- Whether some namespace handler invoked for the stanza reports it handled. -/
def nsHandled (stanza : Stanza) (handlers : List (String × IqHandler)) : Bool :=
  handlers.any (fun e => stanza.hasChildWithAttrib "xmlns" e.1 && e.2.handleIq stanza)

/-- The call the id-tracking table yields for a stanza. -/
def idTrackCalls (stanza : Stanza) (table : List (String × TrackStruct)) : List Event :=
  match StdMap.find table stanza.m_id with
  | some track => [Event.handleIqID track.ih.ptr stanza track.context]
  | none => []

/-- Whether the id-tracked handler of the stanza reports it handled. -/
def idHandled (stanza : Stanza) (table : List (String × TrackStruct)) : Bool :=
  match StdMap.find table stanza.m_id with
  | some track => track.ih.handleIqID stanza track.context
  | none => false

/-- The error reply `ClientBase::notifyIqHandlers` builds for a stanza. -/
def errorReply (stanza : Stanza) : Tag :=
  { m_name := "iq",
    m_attribs := [("type", "error"), ("id", stanza.m_id), ("to", stanza.m_from.full)],
    m_children := [], m_cdata := "" }

/-- The condition under which `ClientBase::notifyIqHandlers` sends the error reply. -/
def errorReplyDue (stanza : Stanza) (c : Client) : Bool :=
  !(nsHandled stanza c.m_iqNSHandlers || idHandled stanza c.m_iqIDHandlers)
    && stanza.m_type == StanzaType.STANZA_IQ
    && (stanza.m_subtype == StanzaSubType.STANZA_IQ_GET
      || stanza.m_subtype == StanzaSubType.STANZA_IQ_SET)

/-- The listeners notified of the connection among the recorded calls. -/
def connectCalls (events : List Event) : List Nat :=
  events.filterMap (fun e =>
    match e with
    | Event.onConnect cl => some cl
    | _ => none)

/-- The elements sent among the recorded calls. -/
def sentTags (events : List Event) : List Tag :=
  events.filterMap (fun e =>
    match e with
    | Event.send tag => some tag
    | _ => none)

/-- The invocations of the IQ handler with the given identity among the recorded
calls, through either of its two functions. -/
def handlerCalls (ih : Nat) (events : List Event) : List Event :=
  events.filter (fun e =>
    match e with
    | Event.handleIq ptr _ => ptr == ih
    | Event.handleIqID ptr _ _ => ptr == ih
    | _ => false)

/-- The call invokes a stanza handler: an IQ, message, presence or subscription
handler. -/
def Event.isDispatch : Event → Bool
  | Event.handleIq _ _ => true
  | Event.handleIqID _ _ _ => true
  | Event.handleMessage _ _ => true
  | Event.handlePresence _ _ => true
  | Event.handleSubscription _ _ => true
  | _ => false

/-- The call notifies a connection listener of the connection or of its end. -/
def Event.isConnect : Event → Bool
  | Event.onConnect _ => true
  | Event.onDisconnect _ => true
  | _ => false

/-- The call sends an element of type error. -/
def Event.isErrorReply : Event → Bool
  | Event.send tag => tag.hasAttribute "type" "error"
  | _ => false

/-- None of the calls invokes a stanza handler, notifies a connection listener of the
connection or of its end, or sends an element of type error. -/
def quietCalls (added : List Event) : Prop :=
  ∀ e ∈ added, e.isDispatch = false ∧ e.isConnect = false ∧ e.isErrorReply = false

/-- The client `c2` results from `c` by calls none of which invokes a stanza handler,
notifies of the connection or sends an element of type error; the connection
listeners are the same. -/
def Client.negotiates (c c2 : Client) : Prop :=
  c2.m_connectionListeners = c.m_connectionListeners ∧
    ∃ added, c2.events = c.events ++ added ∧ quietCalls added

/-- The client `c2` results from `c` by calls that invoke no stanza handler and send
no element of type error, and that notify of the connection either nobody or every
connection listener, once for each of its registrations; the connection listeners
are the same. -/
def Client.connectsAtMostOnce (c c2 : Client) : Prop :=
  c2.m_connectionListeners = c.m_connectionListeners ∧
    ∃ added, c2.events = c.events ++ added ∧
      (∀ e ∈ added, e.isDispatch = false ∧ e.isErrorReply = false) ∧
      (connectCalls added = [] ∨
        connectCalls added = c.m_connectionListeners.map (fun cl => cl.ptr))

/-- The element is one of the negotiation control elements: stream:features, proceed
or failure in the TLS namespace, failure or compressed in the compression namespace,
challenge, failure or success in the SASL namespace, or an iq with id bind or
session. -/
def isControl (stanza : Stanza) : Bool :=
  stanza.name == "stream:features"
    || ((stanza.name == "proceed" || stanza.name == "failure")
      && stanza.hasAttribute "xmlns" XMLNS_STREAM_TLS)
    || ((stanza.name == "failure" || stanza.name == "compressed")
      && stanza.hasAttribute "xmlns" XMLNS_COMPRESSION)
    || ((stanza.name == "challenge" || stanza.name == "failure" || stanza.name == "success")
      && stanza.hasAttribute "xmlns" XMLNS_STREAM_SASL)
    || (stanza.name == "iq"
      && (stanza.hasAttribute "id" "bind" || stanza.hasAttribute "id" "session"))

/-- The calls that set the state of the transport or disconnect it, among the recorded
calls. -/
def disconnectCalls (events : List Event) : List Event :=
  events.filter (fun e =>
    match e with
    | Event.setState _ => true
    | Event.disconnect => true
    | _ => false)

/-! ## The feature set in the words of the specification -/

/-- A mechanisms child in the SASL namespace lists the mechanism. -/
def listsMechanism (stanza : Tag) (mechanism : String) : Bool :=
  stanza.m_children.any (fun ch =>
    ch.m_name == "mechanisms"
      && (ch.hasAttribute "xmlns" XMLNS_STREAM_SASL
        && ch.hasChildWithCData "mechanism" mechanism))

/-- A compression child in the compression feature namespace lists the method. -/
def listsMethod (stanza : Tag) (method : String) : Bool :=
  stanza.m_children.any (fun ch =>
    ch.m_name == "compression"
      && (ch.hasAttribute "xmlns" XMLNS_STREAM_COMPRESS
        && ch.hasChildWithCData "method" method))

/-- No recognised feature at all is present in the element. -/
def recognisesNothing (stanza : Tag) : Bool :=
  !stanza.hasChild "starttls" "xmlns" XMLNS_STREAM_TLS
    && !listsMechanism stanza "DIGEST-MD5" && !listsMechanism stanza "PLAIN"
    && !listsMechanism stanza "ANONYMOUS" && !listsMechanism stanza "EXTERNAL"
    && !stanza.hasChild "bind" "xmlns" XMLNS_STREAM_BIND
    && !stanza.hasChild "session" "xmlns" XMLNS_STREAM_SESSION
    && !stanza.hasChild "auth" "xmlns" XMLNS_STREAM_IQAUTH
    && !stanza.hasChild "register" "xmlns" XMLNS_STREAM_IQREGISTER
    && !stanza.hasChild "ack" "xmlns" XMLNS_STREAM_ACK
    && !listsMethod stanza "zlib" && !listsMethod stanza "lzw"

/-! ## Sample elements and clients -/

namespace Sample

/-- An element without children. -/
def leaf (name : String) (attribs : List (String × String)) (cdata : String) : Tag :=
  { m_name := name, m_attribs := attribs, m_children := [], m_cdata := cdata }

/-- A `mechanisms` element in the SASL namespace listing the given mechanisms. -/
def mechanisms (names : List String) : Tag :=
  { m_name := "mechanisms", m_attribs := [("xmlns", XMLNS_STREAM_SASL)],
    m_children := names.map (fun n => leaf "mechanism" [] n), m_cdata := "" }

/-- A `stream:features` element with the given children. -/
def features (children : List Tag) : Stanza :=
  { m_name := "stream:features", m_attribs := [], m_children := children, m_cdata := "" }

/-- The `starttls` feature. -/
def starttls : Tag := leaf "starttls" [("xmlns", XMLNS_STREAM_TLS)] ""

/-- The `bind` feature. -/
def bind : Tag := leaf "bind" [("xmlns", XMLNS_STREAM_BIND)] ""

/-- The `session` feature. -/
def session : Tag := leaf "session" [("xmlns", XMLNS_STREAM_SESSION)] ""

/-- The legacy `auth` feature. -/
def iqauth : Tag := leaf "auth" [("xmlns", XMLNS_STREAM_IQAUTH)] ""

/-- A build with TLS and zlib. -/
def build : Build := { HAVE_TLS := true, HAVE_ZLIB := true }

/-- An insecure transport that refuses compression. -/
def conn : Connection := {}

/-- A connected client of user u@d with password p, as `Client( jid, password )`
constructs it, with one connection listener. -/
def client : Client :=
  { m_jid := { m_username := "u", m_server := "d" }, m_password := "p", m_doAuth := true,
    m_connection := some conn, m_connectionListeners := [{ ptr := 1 }] }

/-- An IQ of the given kind, id and sender, with the given children. -/
def iq (subtype : StanzaSubType) (kind id : String) (sender : JID) (children : List Tag) :
    Stanza :=
  { m_name := "iq", m_attribs := [("type", kind), ("id", id)], m_children := children,
    m_cdata := "", m_type := StanzaType.STANZA_IQ, m_subtype := subtype, m_id := id,
    m_from := sender }

/-- An IQ handler that reports every stanza handled. -/
def handler : IqHandler := { ptr := 7, handleIq := fun _ => true, handleIqID := fun _ _ => true }

/-- The sample client with a client certificate and key configured as well. -/
def certClient : Client := { client with m_clientCerts := ["cert.pem"], m_clientKey := "key.pem" }

/-- The sample client after SASL authentication. -/
def authedClient : Client := { client with m_authed := true }

/-- A result IQ with id bind that carries the address u@d/r. -/
def bindResult : Stanza :=
  iq StanzaSubType.STANZA_IQ_RESULT "result" "bind" {}
    [{ m_name := "bind", m_attribs := [("xmlns", XMLNS_STREAM_BIND)],
       m_children := [leaf "jid" [] "u@d/r"], m_cdata := "" }]

/-- A result IQ with id session. -/
def sessionResult : Stanza := iq StanzaSubType.STANZA_IQ_RESULT "result" "session" {} []

/-- The bind request of a client that asks for no resource. -/
def bindRequest : Tag :=
  { m_name := "iq", m_attribs := [("type", "set"), ("id", "bind")],
    m_children := [leaf "bind" [("xmlns", XMLNS_STREAM_BIND)] ""], m_cdata := "" }

/-- The session request. -/
def sessionRequest : Tag :=
  { m_name := "iq", m_attribs := [("type", "set"), ("id", "session")],
    m_children := [leaf "session" [("xmlns", XMLNS_STREAM_SESSION)] ""], m_cdata := "" }
/-- An error child of the given type that holds the given condition. -/
def errorChild (type condition : String) : Tag :=
  { m_name := "error", m_attribs := [("type", type)],
    m_children := [leaf condition [("xmlns", XMLNS_XMPP_STANZAS)] ""], m_cdata := "" }

/-- An error IQ with the given id whose error child has the given type and holds
the given condition. -/
def errorReplyTo (id type condition : String) : Stanza :=
  iq StanzaSubType.STANZA_IQ_ERROR "error" id {} [errorChild type condition]

/-- A negotiation element of the given name in the given namespace. -/
def control (name xmlns : String) : Stanza :=
  { m_name := name, m_attribs := [("xmlns", xmlns)], m_children := [], m_cdata := "" }

/-- A `compression` feature with the given attributes listing the given methods. -/
def compression (attribs : List (String × String)) (methods : List String) : Tag :=
  { m_name := "compression", m_attribs := attribs,
    m_children := methods.map (fun n => leaf "method" [] n), m_cdata := "" }

/-- A `mechanisms` element outside the SASL namespace listing the given mechanisms. -/
def foreignMechanisms (names : List String) : Tag :=
  { m_name := "mechanisms", m_attribs := [("xmlns", "urn:example")],
    m_children := names.map (fun n => leaf "mechanism" [] n), m_cdata := "" }

/-- A transport whose TLS handshake succeeds. -/
def tlsConn : Connection := { tlsHandshakeResult := true }

/-- The sample client on the transport whose TLS handshake succeeds. -/
def tlsClient : Client := { client with m_connection := some tlsConn }

/-- A transport that accepts compression. -/
def zlibConn : Connection := { initCompressionResult := true }

/-- The sample client on the transport that accepts compression. -/
def zlibClient : Client := { client with m_connection := some zlibConn }

/-- The compression request for zlib. -/
def compressRequest : Tag :=
  { m_name := "compress", m_attribs := [("xmlns", XMLNS_COMPRESSION)],
    m_children := [leaf "method" [] "zlib"], m_cdata := "" }

/-- The authenticated sample client that asks for the resource home. -/
def homeClient : Client :=
  { authedClient with m_jid := { m_username := "u", m_server := "d", m_resource := "home" } }

/-- The namespace handler with the given identity. -/
def nsHandler (ptr : Nat) : IqHandler :=
  { ptr := ptr, handleIq := fun _ => true, handleIqID := fun _ _ => true }

/-- A client with handlers for three namespaces. -/
def nsClient : Client :=
  { client with
      m_iqNSHandlers := [("jabber:iq:roster", nsHandler 7), ("jabber:iq:version", nsHandler 8),
        ("urn:example", nsHandler 9)] }

/-- A get IQ with one query child in each of two namespaces. -/
def twoQueries : Stanza :=
  iq StanzaSubType.STANZA_IQ_GET "get" "q1" {}
    [leaf "query" [("xmlns", "jabber:iq:roster")] "",
     leaf "query" [("xmlns", "jabber:iq:version")] ""]

/-- An IQ handler that reports no stanza handled. -/
def idleHandler (ptr : Nat) : IqHandler := { ptr := ptr }

/-- A get IQ with id q1 from v@d/home with a query in the roster namespace. -/
def rosterGet : Stanza :=
  iq StanzaSubType.STANZA_IQ_GET "get" "q1"
    { m_username := "v", m_server := "d", m_resource := "home" }
    [leaf "query" [("xmlns", "jabber:iq:roster")] ""]

/-- The sample client with the sample handler registered for the roster namespace and
tracking the id q1 with context 3. -/
def rosterClient : Client :=
  Client.trackID handler "q1" 3 (Client.registerIqHandler handler "jabber:iq:roster" client)

/-- The sample client with an idle handler registered for the roster namespace. -/
def idleClient : Client := Client.registerIqHandler (idleHandler 9) "jabber:iq:roster" client

/-- The error reply to the sample roster query. -/
def rosterError : Tag :=
  { m_name := "iq", m_attribs := [("type", "error"), ("id", "q1"), ("to", "v@d/home")],
    m_children := [], m_cdata := "" }

/-- A message stanza. -/
def message : Stanza :=
  { m_name := "message", m_attribs := [], m_children := [leaf "body" [] "hello"], m_cdata := "",
    m_type := StanzaType.STANZA_MESSAGE, m_subtype := StanzaSubType.STANZA_MESSAGE_CHAT }

/-- The sample client after the message handler 4, the message handler 5 and again the
message handler 4 were registered, with a presence handler as well. -/
def chatClient : Client :=
  Client.registerPresenceHandler { ptr := 6 }
    (Client.registerMessageHandler { ptr := 4 }
      (Client.registerMessageHandler { ptr := 5 }
        (Client.registerMessageHandler { ptr := 4 } client)))

/-- The sample client whose transport reports the state Disconnected. -/
def closedClient : Client :=
  { client with m_connection := some { m_state := ConnectionState.STATE_DISCONNECTED } }

/-- An element that is neither a control element nor a stanza. -/
def unknown : Stanza :=
  { m_name := "ping", m_attribs := [("xmlns", "urn:example")], m_children := [], m_cdata := "" }

/-- The client with message and presence handlers that also has a handler for the
namespace of the unknown element. -/
def busyClient : Client := Client.registerIqHandler handler "urn:example" chatClient

/-- The authenticated sample client after a first session result. -/
def readyClient : Client :=
  { authedClient with events := [Event.rosterFill, Event.onConnect 1] }

/-- A client as `Client( server )` constructs it, for which no authentication is
requested, with a connection and one connection listener. -/
def serverClient : Client :=
  { m_jid := { m_server := "d" }, m_connection := some conn,
    m_connectionListeners := [{ ptr := 1 }] }

/-- A transport whose connect does not reach the connected state. -/
def deadConn : Connection := { connectResult := ConnectionState.STATE_DISCONNECTED }

/-- A result IQ with id bind that has no child. -/
def emptyBindResult : Stanza := iq StanzaSubType.STANZA_IQ_RESULT "result" "bind" {} []

/-- A result IQ with id bind whose bind child has no jid child. -/
def bindResultNoJid : Stanza :=
  iq StanzaSubType.STANZA_IQ_RESULT "result" "bind" {} [leaf "bind" [("xmlns", XMLNS_STREAM_BIND)] ""]

/-- A container of three fields, two of them called b. -/
def form : DataFormFieldContainer :=
  { m_fields := [{ ptr := 1, m_name := "a" }, { ptr := 2, m_name := "b" },
      { ptr := 3, m_name := "b" }] }

/-- The IQ fetchMessages sends as the first query of the sample client. -/
def fetchRequest : Tag :=
  { m_name := "iq", m_attribs := [("type", "get"), ("id", "uid1")], m_children := [],
    m_cdata := "" }


end Sample

/-! ## Lemmas -/

theorem ne_zero_iff_testBit (x : Nat) : x ≠ 0 ↔ ∃ i, x.testBit i = true := by
  constructor
  · intro h
    by_contra hne
    push_neg at hne
    apply h
    apply Nat.eq_of_testBit_eq
    intro i
    simpa using hne i
  · rintro ⟨i, hi⟩ rfl
    simp at hi

theorem hasFeature_iff (f bit : Nat) :
    hasFeature f bit = true ↔ ∃ i, f.testBit i = true ∧ bit.testBit i = true := by
  simp [hasFeature, ne_zero_iff_testBit]

theorem hasFeature_zero (bit : Nat) : hasFeature 0 bit = false := by
  simp [hasFeature]

theorem hasFeature_or (a b bit : Nat) :
    hasFeature (a ||| b) bit = (hasFeature a bit || hasFeature b bit) := by
  rw [Bool.eq_iff_iff]
  simp only [Bool.or_eq_true, hasFeature_iff, Nat.testBit_or]
  constructor
  · rintro ⟨i, h1, h2⟩
    rcases h1 with h1 | h1
    · exact Or.inl ⟨i, h1, h2⟩
    · exact Or.inr ⟨i, h1, h2⟩
  · rintro (⟨i, h1, h2⟩ | ⟨i, h1, h2⟩)
    · exact ⟨i, Or.inl h1, h2⟩
    · exact ⟨i, Or.inr h1, h2⟩

theorem hasFeature_fallback (f bit x : Nat) (h : hasFeature f bit = true) :
    hasFeature (if f == 0 then x else f) bit = true := by
  have : f ≠ 0 := by
    rintro rfl
    simp [hasFeature] at h
  simp [this, h]

theorem hasFeature_orIf (cond : Bool) (a b bit : Nat) :
    hasFeature (Client.orIf cond a b) bit = (hasFeature a bit || (cond && hasFeature b bit)) := by
  cases cond <;> simp [Client.orIf, hasFeature_or]

theorem findChild_of_hasChild (t : Tag) (name attr value : String)
    (h : t.hasChild name attr value = true) : ∃ ch, t.findChild name = some ch := by
  simp only [Tag.hasChild, List.any_eq_true] at h
  obtain ⟨ch, hmem, hch⟩ := h
  simp only [Bool.and_eq_true] at hch
  have : (t.m_children.find? (fun ch => ch.m_name == name)).isSome = true := by
    rw [List.find?_isSome]
    exact ⟨ch, hmem, hch.1⟩
  exact Option.isSome_iff_exists.mp this

namespace Client

theorem orChild_eq (stanza : Tag) (name attr value : String) (get : Tag → Nat) (features : Nat) :
    orChild stanza (stanza.hasChild name attr value) name get features
      = some (features ||| childBits stanza name attr value get) := by
  unfold orChild childBits
  cases h : stanza.hasChild name attr value
  · simp
  · obtain ⟨t, ht⟩ := findChild_of_hasChild _ _ _ _ h
    simp [ht]

/-- The member getStreamFeatures never dereferences a null pointer: on a
stream:features element it returns the collected bits, or IqAuth when there are
none. -/
theorem getStreamFeatures_eq (stanza : Tag) (hn : stanza.name = "stream:features") :
    getStreamFeatures stanza
      = some (if rawFeatures stanza == 0 then STREAM_FEATURE_IQAUTH else rawFeatures stanza) := by
  unfold getStreamFeatures
  simp only [hn, bne_self_eq_false, Bool.false_eq_true, if_false, orChild_eq, Option.some_bind]
  rfl

theorem getStreamFeatures_starttls (stanza : Tag) (hn : stanza.name = "stream:features")
    (h : stanza.hasChild "starttls" "xmlns" XMLNS_STREAM_TLS = true) :
    ∃ f, getStreamFeatures stanza = some f ∧ hasFeature f STREAM_FEATURE_STARTTLS = true := by
  refine ⟨_, getStreamFeatures_eq stanza hn, ?_⟩
  apply hasFeature_fallback
  simp only [rawFeatures, hasFeature_orIf, hasFeature_or, h]
  simp [hasFeature, STREAM_FEATURE_STARTTLS]

/-- What handleNormalNode does with a feature advertisement, by step. -/
theorem handleNormalNode_features (b : Build) (stanza : Stanza) (c : Client) (conn : Connection)
    (features : Nat) (hname : stanza.name = "stream:features")
    (hf : getStreamFeatures stanza.toTag = some features) (hconn : c.m_connection = some conn) :
    handleNormalNode b stanza c = some (true,
      if startTlsApplies b c conn features then
        startTls { c with m_streamFeatures := features }
      else if compressionApplies b conn features then
        negotiateCompression STREAM_FEATURE_COMPRESS_ZLIB
          { c with m_streamFeatures := features,
                   events := c.events ++ compressionProbe b features }
      else
        authStep { c with m_streamFeatures := features,
                          events := c.events ++ compressionProbe b features }) := by
  unfold handleNormalNode
  simp only [hname, hf, beq_self_eq_true, if_true]
  unfold startTlsStep compressionStep startTlsApplies compressionApplies compressionProbe
  simp only [hconn, tls, hasTls, emit]
  cases b.HAVE_TLS <;> cases c.m_tls <;> cases conn.isSecure <;>
    cases hasFeature features STREAM_FEATURE_STARTTLS <;> cases b.HAVE_ZLIB <;>
    cases hasFeature features STREAM_FEATURE_COMPRESS_ZLIB <;>
    cases conn.initCompressionResult <;> simp

/-- An advertisement that reaches the authentication step is answered by the
authentication step alone. -/
theorem handleNormalNode_authStep (b : Build) (stanza : Stanza) (c : Client) (conn : Connection)
    (features : Nat) (hname : stanza.name = "stream:features")
    (hf : getStreamFeatures stanza.toTag = some features) (hconn : c.m_connection = some conn)
    (hreach : reachesAuthStep b c conn features = true) :
    handleNormalNode b stanza c = some (true,
      authStep { c with m_streamFeatures := features,
                        events := c.events ++ compressionProbe b features }) := by
  rw [handleNormalNode_features b stanza c conn features hname hf hconn]
  simp only [reachesAuthStep, Bool.and_eq_true, Bool.not_eq_true'] at hreach
  simp [hreach.1, hreach.2]

end Client

namespace StdMap

theorem find_cons {V : Type} (e : String × V) (m : List (String × V)) (key : String) :
    find (e :: m) key = if e.1 == key then some e.2 else find m key := by
  unfold find
  by_cases h : e.1 == key <;> simp [List.find?_cons, h]

theorem erase_of_find_none {V : Type} (m : List (String × V)) (key : String)
    (h : find m key = none) : erase m key = m := by
  induction m with
  | nil => rfl
  | cons e rest ih =>
    rw [find_cons] at h
    by_cases he : e.1 == key
    · simp [he] at h
    · rw [if_neg he] at h
      have ih2 := ih h
      unfold erase at ih2 ⊢
      simp only [List.eraseP_cons, he, cond_false, ih2]

theorem find_eq_none_of_not_mem {V : Type} (m : List (String × V)) (key : String)
    (h : key ∉ m.map Prod.fst) : find m key = none := by
  induction m with
  | nil => rfl
  | cons e rest ih =>
    simp only [List.map_cons, List.mem_cons, not_or] at h
    rw [find_cons]
    have : (e.1 == key) = false := by
      simp only [beq_eq_false_iff_ne, ne_eq]
      exact fun h2 => h.1 h2.symm
    simp [this, ih h.2]

theorem find_erase_self {V : Type} (m : List (String × V)) (key : String) (hwf : WF m) :
    find (erase m key) key = none := by
  induction m with
  | nil => rfl
  | cons e rest ih =>
    have hnd : (e.1 :: rest.map Prod.fst).Nodup := hwf
    rw [List.nodup_cons] at hnd
    have ih2 := ih hnd.2
    unfold erase at ih2 ⊢
    by_cases h : e.1 == key
    · simp only [List.eraseP_cons, h, cond_true]
      apply find_eq_none_of_not_mem
      have : e.1 = key := by simpa using h
      rw [← this]
      exact hnd.1
    · simp only [List.eraseP_cons, h, cond_false]
      rw [find_cons, if_neg h]
      exact ih2

theorem find_insertNew_self {V : Type} (m : List (String × V)) (key : String) (v : V)
    (h : key ∉ m.map Prod.fst) : find (insertNew m key v) key = some v := by
  induction m with
  | nil => simp [insertNew, find]
  | cons e rest ih =>
    simp only [List.map_cons, List.mem_cons, not_or] at h
    unfold insertNew
    by_cases hlt : key < e.1
    · simp [hlt, find]
    · have hne : (e.1 == key) = false := by
        simp only [beq_eq_false_iff_ne, ne_eq]
        exact fun h2 => h.1 h2.symm
      simp only [hlt, if_false]
      rw [find_cons]
      simp [hne, ih h.2]

theorem find_insert_self {V : Type} (m : List (String × V)) (key : String) (v : V) :
    find (insert m key v) key = some v := by
  unfold insert
  by_cases h : m.any (fun e => e.1 == key) = true
  · simp only [h, if_true]
    induction m with
    | nil => simp at h
    | cons e rest ih =>
      rw [List.map_cons, find_cons]
      by_cases he : e.1 == key
      · rw [if_pos he]
        simp
      · have hrest : rest.any (fun e => e.1 == key) = true := by
          simpa [List.any_cons, he] using h
        rw [if_neg he, if_neg he]
        exact ih hrest
  · simp only [h, Bool.false_eq_true, if_false]
    apply find_insertNew_self
    intro hmem
    apply h
    rw [List.any_eq_true]
    obtain ⟨e, he, hk⟩ := List.mem_map.mp hmem
    exact ⟨e, he, by simp [hk]⟩

theorem keys_insertNew_perm {V : Type} (m : List (String × V)) (key : String) (v : V) :
    ((insertNew m key v).map Prod.fst).Perm (key :: m.map Prod.fst) := by
  induction m with
  | nil => simp [insertNew]
  | cons e rest ih =>
    unfold insertNew
    by_cases hlt : key < e.1
    · simp [hlt]
    · simp only [hlt, if_false, List.map_cons]
      exact (List.Perm.cons e.1 ih).trans (List.Perm.swap key e.1 _)

theorem WF_insert {V : Type} (m : List (String × V)) (key : String) (v : V) (hwf : WF m) :
    WF (insert m key v) := by
  unfold insert
  by_cases h : m.any (fun e => e.1 == key) = true
  · simp only [h, if_true]
    have : (m.map (fun e => if e.1 == key then (key, v) else e)).map Prod.fst
        = m.map Prod.fst := by
      rw [List.map_map]
      apply List.map_congr_left
      intro e _
      by_cases he : e.1 == key
      · have : e.1 = key := by simpa using he
        simp [this]
      · have : e.1 ≠ key := by simpa using he
        simp [this]
    unfold WF
    rw [this]
    exact hwf
  · simp only [h, Bool.false_eq_true, if_false]
    unfold WF
    rw [(keys_insertNew_perm m key v).nodup_iff, List.nodup_cons]
    refine ⟨?_, hwf⟩
    intro hmem
    apply h
    rw [List.any_eq_true]
    obtain ⟨e, he, hk⟩ := List.mem_map.mp hmem
    exact ⟨e, he, by simp [hk]⟩

end StdMap

namespace Client

theorem nsLoop_eq (stanza : Stanza) (handlers : List (String × IqHandler)) (res : Bool)
    (c : Client) :
    handlers.foldl (notifyIqNSHandler stanza) (res, c)
      = (res || nsHandled stanza handlers,
          { c with events := c.events ++ nsCalls stanza handlers }) := by
  induction handlers generalizing res c with
  | nil => simp [nsHandled, nsCalls]
  | cons e rest ih =>
    rw [List.foldl_cons]
    by_cases hm : stanza.hasChildWithAttrib "xmlns" e.1 = true
    · have hstep : notifyIqNSHandler stanza (res, c) e
          = (if e.2.handleIq stanza then true else res,
              c.emit (Event.handleIq e.2.ptr stanza)) := by
        simp [notifyIqNSHandler, hm]
      rw [hstep, ih]
      by_cases hh : e.2.handleIq stanza = true
      · simp [nsHandled, nsCalls, hm, hh, emit]
      · simp [nsHandled, nsCalls, hm, hh, emit]
    · have hstep : notifyIqNSHandler stanza (res, c) e = (res, c) := by
        simp [notifyIqNSHandler, hm]
      rw [hstep, ih]
      simp [nsHandled, nsCalls, hm]

theorem idCalls_nsCalls (stanza : Stanza) (handlers : List (String × IqHandler)) :
    idCalls (nsCalls stanza handlers) = [] := by
  induction handlers with
  | nil => rfl
  | cons e rest ih =>
    unfold nsCalls idCalls at *
    by_cases hm : stanza.hasChildWithAttrib "xmlns" e.1 = true
    · simp [List.filterMap_cons, hm, ih]
    · simp [List.filterMap_cons, hm, ih]

theorem notifyIqHandlers_eq (stanza : Stanza) (c : Client) :
    notifyIqHandlers stanza c =
      { c with
          events := c.events ++ nsCalls stanza c.m_iqNSHandlers
            ++ idTrackCalls stanza c.m_iqIDHandlers
            ++ (if errorReplyDue stanza c && c.m_connection.isSome then
                  [Event.send (errorReply stanza)] else []),
          m_iqIDHandlers := StdMap.erase c.m_iqIDHandlers stanza.m_id } := by
  unfold notifyIqHandlers
  simp only [nsLoop_eq, Bool.false_or]
  unfold errorReplyDue idTrackCalls idHandled
  cases hfind : StdMap.find c.m_iqIDHandlers stanza.m_id with
  | none =>
    simp only [StdMap.erase_of_find_none _ _ hfind]
    cases hconn : c.m_connection <;> cases nsHandled stanza c.m_iqNSHandlers <;>
      cases (stanza.m_type == StanzaType.STANZA_IQ) <;>
      cases (stanza.m_subtype == StanzaSubType.STANZA_IQ_GET) <;>
      cases (stanza.m_subtype == StanzaSubType.STANZA_IQ_SET) <;>
      simp [send, emit, hconn, errorReply, Tag.new, Tag.addAttribute]
  | some track =>
    cases hconn : c.m_connection <;> cases hns : nsHandled stanza c.m_iqNSHandlers <;>
      cases hh : track.ih.handleIqID stanza track.context <;>
      cases ht : (stanza.m_type == StanzaType.STANZA_IQ) <;>
      cases hg : (stanza.m_subtype == StanzaSubType.STANZA_IQ_GET) <;>
      cases hs : (stanza.m_subtype == StanzaSubType.STANZA_IQ_SET) <;>
      simp [send, emit, hconn, errorReply, Tag.new, Tag.addAttribute, hh]

theorem nsCalls_eq_nil (stanza : Stanza) (handlers : List (String × IqHandler))
    (h : ∀ e ∈ handlers, stanza.hasChildWithAttrib "xmlns" e.1 = false) :
    nsCalls stanza handlers = [] ∧ nsHandled stanza handlers = false := by
  induction handlers with
  | nil => exact ⟨rfl, rfl⟩
  | cons e rest ih =>
    have he := h e (List.mem_cons_self _ _)
    have hr := ih (fun x hx => h x (List.mem_cons_of_mem _ hx))
    unfold nsCalls nsHandled at *
    simp [List.filterMap_cons, he, hr.1, hr.2]

theorem idCalls_append (xs ys : List Event) : idCalls (xs ++ ys) = idCalls xs ++ idCalls ys := by
  simp [idCalls, List.filterMap_append]

theorem idCalls_reply (p : Bool) (t : Tag) :
    idCalls (if p then [Event.send t] else []) = [] := by
  cases p <;> rfl

/-- The id-tracked invocations a dispatch adds are those of the id-tracking table. -/
theorem idCalls_notifyIqHandlers (stanza : Stanza) (c : Client) :
    idCalls (notifyIqHandlers stanza c).events
      = idCalls c.events ++ idCalls (idTrackCalls stanza c.m_iqIDHandlers) := by
  rw [notifyIqHandlers_eq]
  simp only [idCalls_append, idCalls_nsCalls, idCalls_reply, List.append_nil]

end Client


namespace Client

theorem foldl_emit {α : Type} (f : α → Event) (l : List α) (c : Client) :
    l.foldl (fun acc x => acc.emit (f x)) c = { c with events := c.events ++ l.map f } := by
  induction l generalizing c with
  | nil => simp
  | cons x rest ih =>
    rw [List.foldl_cons, ih]
    simp [emit]

theorem notifyOnConnect_eq (c : Client) :
    notifyOnConnect c = { c with events := c.events ++
      c.m_connectionListeners.map (fun cl => Event.onConnect cl.ptr) } :=
  foldl_emit _ _ _

/-- The calls connected() makes: the roster request and the initial presence of an
authenticated client, then onConnect on every connection listener. -/
theorem connected_eq (c : Client) (conn : Connection) (hconn : c.m_connection = some conn) :
    connected c = { c with events := c.events ++
      (if c.m_authed && c.m_manageRoster then [Event.rosterFill] else []) ++
      (if c.m_authed && c.m_autoPresence then
        [Event.send { m_name := "presence", m_attribs := [],
                      m_children := [{ m_name := "priority", m_attribs := [], m_children := [],
                                       m_cdata := toString c.m_priority }],
                      m_cdata := "" }]
       else []) ++
      c.m_connectionListeners.map (fun cl => Event.onConnect cl.ptr) } := by
  unfold connected
  rw [notifyOnConnect_eq]
  cases ha : c.m_authed <;> cases hm : c.m_manageRoster <;> cases hp : c.m_autoPresence <;>
    simp [rosterFill, sendInitialPresence, send, emit, hconn, Tag.new, Tag.addChild, ha, hm, hp]

/-- An iq element is none of the negotiation control elements: handleNormalNode hands
it to the bind and session reply handling. -/
theorem handleNormalNode_iq (b : Build) (stanza : Stanza) (c : Client)
    (hname : stanza.name = "iq") : handleNormalNode b stanza c = handleIqReplies stanza c := by
  unfold handleNormalNode
  simp [hname]

/-- What processResourceBind does with a successful bind result. -/
theorem processResourceBind_result (stanza : Stanza) (c : Client) (conn : Connection) (bind jid : Tag)
    (hconn : c.m_connection = some conn)
    (hkind : stanza.m_subtype = StanzaSubType.STANZA_IQ_RESULT)
    (hbind : stanza.findChild "bind" = some bind) (hjid : bind.findChild "jid" = some jid) :
    processResourceBind stanza c = some
      { c with
          m_jid := c.m_jid.setJID jid.cdata,
          m_resourceBound := true,
          events := c.events ++
            (if hasFeature c.m_streamFeatures STREAM_FEATURE_SESSION then
              [Event.send
                { m_name := "iq", m_attribs := [("type", "set"), ("id", "session")],
                  m_children := [{ m_name := "session",
                                   m_attribs := [("xmlns", XMLNS_STREAM_SESSION)],
                                   m_children := [], m_cdata := "" }],
                  m_cdata := "" }]
             else
              (if c.m_authed && c.m_manageRoster then [Event.rosterFill] else []) ++
              (if c.m_authed && c.m_autoPresence then
                [Event.send
                  { m_name := "presence", m_attribs := [],
                    m_children := [{ m_name := "priority", m_attribs := [], m_children := [],
                                     m_cdata := toString c.m_priority }],
                    m_cdata := "" }]
               else []) ++
              c.m_connectionListeners.map (fun cl => Event.onConnect cl.ptr)) } := by
  unfold Client.processResourceBind
  simp only [hkind, hbind, hjid]
  cases hs : hasFeature c.m_streamFeatures STREAM_FEATURE_SESSION
  · simp only [Bool.false_eq_true, if_false]
    have hc := Client.connected_eq
      { c with m_jid := c.m_jid.setJID jid.cdata, m_resourceBound := true } conn hconn
    simp only [hc, List.append_assoc]
  · simp [Client.createSession, Client.send, Client.emit, hconn, Tag.new, Tag.addAttribute,
      Tag.addChild]

end Client


namespace Tag

/-- Under unique attribute names an attribute has one value. -/
theorem hasAttribute_unique (t : Tag) (name v w : String) (hu : t.uniqueAttribs)
    (hv : t.hasAttribute name v = true) (hw : t.hasAttribute name w = true) : v = w := by
  unfold uniqueAttribs at hu
  unfold hasAttribute at hv hw
  generalize t.m_attribs = attribs at hu hv hw
  induction attribs with
  | nil => simp at hv
  | cons a rest ih =>
    rw [List.map_cons, List.nodup_cons] at hu
    have key : ∀ x : String, rest.any (fun a => a.1 == name && a.2 == x) = true →
        name ∈ rest.map Prod.fst := by
      intro x hx
      rw [List.any_eq_true] at hx
      obtain ⟨e, he, hp⟩ := hx
      simp only [Bool.and_eq_true, beq_iff_eq] at hp
      exact List.mem_map.mpr ⟨e, he, hp.1⟩
    simp only [List.any_cons, Bool.or_eq_true, Bool.and_eq_true, beq_iff_eq] at hv hw
    rcases hv with ⟨h1, h2⟩ | hv
    · rcases hw with ⟨h3, h4⟩ | hw
      · rw [← h2, ← h4]
      · exact absurd (key w (by simpa using hw)) (h1 ▸ hu.1)
    · rcases hw with ⟨h3, h4⟩ | hw
      · exact absurd (key v (by simpa using hv)) (h3 ▸ hu.1)
      · exact ih hu.2 (by simpa using hv) (by simpa using hw)

/-- With at most one child of a name, a test over the children of that name is the
test of the child findChild returns. -/
theorem any_child_eq (t : Tag) (name : String) (p : Tag → Bool) (h : t.atMostOneChild name) :
    t.m_children.any (fun ch => ch.m_name == name && p ch)
      = match t.findChild name with
        | some ch => p ch
        | none => false := by
  unfold atMostOneChild at h
  unfold findChild
  generalize t.m_children = children at h
  induction children with
  | nil => rfl
  | cons ch rest ih =>
    by_cases hn : (ch.m_name == name) = true
    · have hrest : rest.filter (fun ch => ch.m_name == name) = [] := by
        simp only [List.filter_cons, hn, if_true, List.length_cons] at h
        exact List.length_eq_zero.mp (by omega)
      have hnone : rest.any (fun ch => ch.m_name == name && p ch) = false := by
        rw [List.any_eq_false]
        intro x hx hpx
        have : x ∈ rest.filter (fun ch => ch.m_name == name) := by
          rw [List.mem_filter]
          simp only [Bool.and_eq_true] at hpx
          exact ⟨hx, hpx.1⟩
        rw [hrest] at this
        exact absurd this (List.not_mem_nil _)
      simp [List.any_cons, List.find?_cons, hn, hnone]
    · have h2 : (rest.filter (fun ch => ch.m_name == name)).length ≤ 1 := by
        simpa [List.filter_cons, hn] using h
      simp only [Bool.not_eq_true] at hn
      simp [List.any_cons, List.find?_cons, hn, ih h2]

theorem hasChild_eq (t : Tag) (name attr value : String) (h : t.atMostOneChild name) :
    t.hasChild name attr value
      = match t.findChild name with
        | some ch => ch.hasAttribute attr value
        | none => false :=
  any_child_eq t name (fun ch => ch.hasAttribute attr value) h

end Tag


namespace Client

theorem notifyOnResourceBindError_eq (error : ResourceBindError) (c : Client) :
    notifyOnResourceBindError error c =
      { c with events := c.events ++
          c.m_connectionListeners.map (fun cl => Event.onResourceBindError cl.ptr error) } :=
  foldl_emit _ _ _

theorem notifyOnSessionCreateError_eq (error : SessionCreateError) (c : Client) :
    notifyOnSessionCreateError error c =
      { c with events := c.events ++
          c.m_connectionListeners.map (fun cl => Event.onSessionCreateError cl.ptr error) } :=
  foldl_emit _ _ _

end Client


namespace Client

/-- The calls connected() makes, whether or not a connection exists: the initial
presence goes out only over an existing connection. -/
theorem connected_events (c : Client) :
    connected c =
      { c with events := c.events ++
          (if c.m_authed && c.m_manageRoster then [Event.rosterFill] else []) ++
          (if c.m_authed && c.m_autoPresence && c.m_connection.isSome then
            [Event.send { m_name := "presence", m_attribs := [],
                          m_children := [{ m_name := "priority", m_attribs := [],
                                           m_children := [],
                                           m_cdata := toString c.m_priority }],
                          m_cdata := "" }]
           else []) ++
          c.m_connectionListeners.map (fun cl => Event.onConnect cl.ptr) } := by
  unfold connected
  rw [notifyOnConnect_eq]
  cases ha : c.m_authed <;> cases hm : c.m_manageRoster <;> cases hp : c.m_autoPresence <;>
    cases hconn : c.m_connection <;>
    simp [rosterFill, sendInitialPresence, send, emit, hconn, Tag.new, Tag.addChild, ha, hm, hp]

end Client


namespace JID

theorem mk_append (a b : List Char) : String.mk a ++ String.mk b = String.mk (a ++ b) := rfl

theorem mk_eq_empty (a : List Char) : String.mk a = "" ↔ a = [] := by
  constructor
  · intro h
    have := congrArg String.data h
    simpa using this
  · rintro rfl
    rfl

theorem dropWhile_head (p : Char → Bool) (l : List Char) :
    l.dropWhile p = [] ∨ ∃ x r, l.dropWhile p = x :: r ∧ p x = false := by
  induction l with
  | nil => left; rfl
  | cons a l ih =>
    by_cases h : p a = true
    · simpa [List.dropWhile_cons, h] using ih
    · right
      exact ⟨a, l, by simp [List.dropWhile_cons, h], by simpa using h⟩

theorem split_at (c : Char) (l : List Char) (h : l.contains c = true) :
    l.takeWhile (fun ch => ch != c) ++ c :: (l.dropWhile (fun ch => ch != c)).drop 1 = l := by
  induction l with
  | nil => simp at h
  | cons a l ih =>
    by_cases hac : a = c
    · subst hac
      simp [List.takeWhile_cons, List.dropWhile_cons]
    · have hne : (a != c) = true := by simpa using hac
      have hl : l.contains c = true := by
        simp only [List.contains_cons, Bool.or_eq_true, beq_iff_eq] at h
        rcases h with h | h
        · exact absurd h.symm hac
        · exact h
      simpa [List.takeWhile_cons, List.dropWhile_cons, hne] using ih hl

theorem takeWhile_ne_nil (c : Char) (l : List Char) (hc : l.contains c = true)
    (hh : l.head? ≠ some c) : l.takeWhile (fun ch => ch != c) ≠ [] := by
  cases l with
  | nil => simp at hc
  | cons a l =>
    have hac : a ≠ c := by
      intro h
      apply hh
      simp [h]
    have hne : (a != c) = true := by simpa using hac
    simp [List.takeWhile_cons, hne]

theorem full_setJID (j : JID) (jid : String) (h : isAddress jid = true) :
    (setJID j jid).full = jid := by
  unfold isAddress at h
  simp only [Bool.and_eq_true, bne_iff_ne, ne_eq] at h
  obtain ⟨⟨hne, hhead⟩, hrest⟩ := h
  have hsplit := List.takeWhile_append_dropWhile (fun ch => ch != '/') jid.data
  -- the part after the bare address
  have hres : (if String.mk ((jid.data.dropWhile (fun ch => ch != '/')).drop 1) = "" then ""
      else "/" ++ String.mk ((jid.data.dropWhile (fun ch => ch != '/')).drop 1))
      = String.mk (jid.data.dropWhile (fun ch => ch != '/')) := by
    rcases dropWhile_head (fun ch => ch != '/') jid.data with h0 | ⟨x, r, hx, hp⟩
    · simp [h0]
    · have hx2 : x = '/' := by simpa using hp
      subst hx2
      have hr : r ≠ [] := by
        rintro rfl
        apply hrest
        simp [hx]
      have : ¬ String.mk r = "" := fun h => hr ((mk_eq_empty r).mp h)
      simp only [hx, List.drop_succ_cons, List.drop_zero, this, if_false]
      rfl
  -- the bare address
  have hbare : ∀ bare : List Char, bare.head? ≠ some '@' →
      (if bare.contains '@' then
        ((if String.mk (bare.takeWhile (fun ch => ch != '@')) = "" then ""
          else String.mk (bare.takeWhile (fun ch => ch != '@')) ++ "@")
          ++ String.mk ((bare.dropWhile (fun ch => ch != '@')).drop 1))
       else ("" ++ String.mk bare)) = String.mk bare := by
    intro bare hb
    by_cases hc : bare.contains '@' = true
    · have hu := takeWhile_ne_nil '@' bare hc hb
      have : ¬ String.mk (bare.takeWhile (fun ch => ch != '@')) = "" :=
        fun h => hu ((mk_eq_empty _).mp h)
      simp only [hc, if_true, this, if_false]
      have h2 := split_at '@' bare hc
      calc String.mk (bare.takeWhile (fun ch => ch != '@')) ++ "@"
            ++ String.mk ((bare.dropWhile (fun ch => ch != '@')).drop 1)
          = String.mk (bare.takeWhile (fun ch => ch != '@') ++ '@'
              :: (bare.dropWhile (fun ch => ch != '@')).drop 1) := by
            show String.mk _ = String.mk _
            simp
        _ = String.mk bare := by rw [h2]
    · simp only [hc, Bool.false_eq_true, if_false]
      show String.mk ([] ++ bare) = String.mk bare
      simp
  have hb := hbare (jid.data.takeWhile (fun ch => ch != '/')) hhead
  unfold setJID full
  simp only [hne, if_false]
  by_cases hc : (jid.data.takeWhile (fun ch => ch != '/')).contains '@' = true
  · simp only [hc, if_true] at hb ⊢
    rw [hres, hb, mk_append, hsplit]
  · simp only [hc, Bool.false_eq_true, if_false] at hb ⊢
    simp only [if_true]
    rw [hres, hb, mk_append, hsplit]

end JID


namespace Client

theorem setJID_fresh (j : JID) (jid : String) (h : jid ≠ "") :
    j.setJID jid = JID.setJID {} jid := by
  simp [JID.setJID, h]

/-- The identity and the flag after a successful bind result, with or without a
connection. -/
theorem processResourceBind_identity (stanza : Stanza) (c : Client) (bind jid : Tag)
    (hkind : stanza.m_subtype = StanzaSubType.STANZA_IQ_RESULT)
    (hbind : stanza.findChild "bind" = some bind) (hjid : bind.findChild "jid" = some jid) :
    ∃ c2, processResourceBind stanza c = some c2 ∧ c2.m_jid = c.m_jid.setJID jid.cdata ∧
      c2.m_resourceBound = true := by
  unfold processResourceBind
  simp only [hkind, hbind, hjid]
  cases hs : hasFeature c.m_streamFeatures STREAM_FEATURE_SESSION
  · simp only [Bool.false_eq_true, if_false]
    rw [connected_events]
    exact ⟨_, rfl, rfl, rfl⟩
  · simp only [if_true]
    cases hconn : c.m_connection <;>
      simp [createSession, send, emit, hconn]

end Client

theorem lor_eq_zero (a b : Nat) : a ||| b = 0 ↔ a = 0 ∧ b = 0 := by
  constructor
  · intro h
    constructor
    · apply Nat.eq_of_testBit_eq
      intro i
      have := congrArg (fun n => n.testBit i) h
      simp only [Nat.testBit_or, Nat.zero_testBit, Bool.or_eq_false_iff] at this
      simp [this.1]
    · apply Nat.eq_of_testBit_eq
      intro i
      have := congrArg (fun n => n.testBit i) h
      simp only [Nat.testBit_or, Nat.zero_testBit, Bool.or_eq_false_iff] at this
      simp [this.2]
  · rintro ⟨rfl, rfl⟩
    rfl

/-- Two of the twelve feature bits meet exactly when they are the same bit. -/
theorem hasFeature_bits (a b : Nat)
    (ha : a ∈ [1, 2, 4, 8, 16, 32, 64, 128, 256, 512, 1024, 2048])
    (hb : b ∈ [1, 2, 4, 8, 16, 32, 64, 128, 256, 512, 1024, 2048]) :
    hasFeature a b = decide (a = b) := by
  have table : ∀ x ∈ [1, 2, 4, 8, 16, 32, 64, 128, 256, 512, 1024, 2048],
      ∀ y ∈ [1, 2, 4, 8, 16, 32, 64, 128, 256, 512, 1024, 2048],
        hasFeature x y = decide (x = y) := by decide
  exact table a ha b hb

namespace Client

theorem orIf_eq_zero (cond : Bool) (a b : Nat) :
    orIf cond a b = 0 ↔ a = 0 ∧ (cond = false ∨ b = 0) := by
  cases cond <;> simp [orIf, lor_eq_zero]

theorem hasFeature_getSaslMechs (tag : Tag) (bit : Nat) :
    hasFeature (getSaslMechs tag) bit
      = ((tag.hasChildWithCData "mechanism" "DIGEST-MD5"
            && hasFeature STREAM_FEATURE_SASL_DIGESTMD5 bit)
        || (tag.hasChildWithCData "mechanism" "PLAIN"
            && hasFeature STREAM_FEATURE_SASL_PLAIN bit)
        || (tag.hasChildWithCData "mechanism" "ANONYMOUS"
            && hasFeature STREAM_FEATURE_SASL_ANONYMOUS bit)
        || (tag.hasChildWithCData "mechanism" "EXTERNAL"
            && hasFeature STREAM_FEATURE_SASL_EXTERNAL bit)) := by
  simp [getSaslMechs, hasFeature_orIf, hasFeature_zero]

theorem hasFeature_getCompressionMethods (tag : Tag) (bit : Nat) :
    hasFeature (getCompressionMethods tag) bit
      = ((tag.hasChildWithCData "method" "zlib"
            && hasFeature STREAM_FEATURE_COMPRESS_ZLIB bit)
        || (tag.hasChildWithCData "method" "lzw"
            && hasFeature STREAM_FEATURE_COMPRESS_DCLZ bit)) := by
  simp [getCompressionMethods, hasFeature_orIf, hasFeature_zero]

theorem hasFeature_childBits (stanza : Tag) (name attr value : String) (get : Tag → Nat)
    (bit : Nat) (h : stanza.atMostOneChild name) :
    hasFeature (childBits stanza name attr value get) bit
      = match stanza.findChild name with
        | some tag => tag.hasAttribute attr value && hasFeature (get tag) bit
        | none => false := by
  unfold childBits
  rw [Tag.hasChild_eq stanza name attr value h]
  obtain hf | ⟨tag, hf⟩ :
      stanza.findChild name = none ∨ ∃ e, stanza.findChild name = some e := by
    cases stanza.findChild name <;> simp
  · simp [hf, hasFeature_zero]
  · simp only [hf]
    cases tag.hasAttribute attr value <;> simp [hasFeature_zero]

theorem listsMechanism_eq (stanza : Tag) (mechanism : String)
    (h : stanza.atMostOneChild "mechanisms") :
    listsMechanism stanza mechanism
      = match stanza.findChild "mechanisms" with
        | some tag => tag.hasAttribute "xmlns" XMLNS_STREAM_SASL
            && tag.hasChildWithCData "mechanism" mechanism
        | none => false :=
  Tag.any_child_eq stanza "mechanisms" _ h

theorem listsMethod_eq (stanza : Tag) (method : String)
    (h : stanza.atMostOneChild "compression") :
    listsMethod stanza method
      = match stanza.findChild "compression" with
        | some tag => tag.hasAttribute "xmlns" XMLNS_STREAM_COMPRESS
            && tag.hasChildWithCData "method" method
        | none => false :=
  Tag.any_child_eq stanza "compression" _ h

theorem hasFeature_childBits_any (stanza : Tag) (name attr value : String) (get : Tag → Nat)
    (bit : Nat) :
    hasFeature (childBits stanza name attr value get) bit
      = (stanza.hasChild name attr value
          && match stanza.findChild name with
             | some tag => hasFeature (get tag) bit
             | none => false) := by
  unfold childBits
  cases stanza.hasChild name attr value
  · simp [hasFeature_zero]
  · cases stanza.findChild name <;> simp [hasFeature_zero]

/-- The bits StartTLS, Bind, Session, IqAuth, IqRegister and Ack of the collected
feature set. -/
theorem rawFeatures_child_bits (stanza : Tag) :
    hasFeature (rawFeatures stanza) STREAM_FEATURE_STARTTLS
        = stanza.hasChild "starttls" "xmlns" XMLNS_STREAM_TLS ∧
    hasFeature (rawFeatures stanza) STREAM_FEATURE_BIND
        = stanza.hasChild "bind" "xmlns" XMLNS_STREAM_BIND ∧
    hasFeature (rawFeatures stanza) STREAM_FEATURE_SESSION
        = stanza.hasChild "session" "xmlns" XMLNS_STREAM_SESSION ∧
    hasFeature (rawFeatures stanza) STREAM_FEATURE_IQAUTH
        = stanza.hasChild "auth" "xmlns" XMLNS_STREAM_IQAUTH ∧
    hasFeature (rawFeatures stanza) STREAM_FEATURE_IQREGISTER
        = stanza.hasChild "register" "xmlns" XMLNS_STREAM_IQREGISTER ∧
    hasFeature (rawFeatures stanza) STREAM_FEATURE_ACK
        = stanza.hasChild "ack" "xmlns" XMLNS_STREAM_ACK := by
  simp only [rawFeatures, hasFeature_orIf, hasFeature_or, hasFeature_zero,
    hasFeature_childBits_any, hasFeature_getSaslMechs, hasFeature_getCompressionMethods]
  cases stanza.findChild "mechanisms" <;> cases stanza.findChild "compression" <;>
    simp [hasFeature_bits, STREAM_FEATURE_STARTTLS, STREAM_FEATURE_SASL_DIGESTMD5,
      STREAM_FEATURE_SASL_PLAIN, STREAM_FEATURE_SASL_ANONYMOUS, STREAM_FEATURE_SASL_EXTERNAL,
      STREAM_FEATURE_BIND, STREAM_FEATURE_SESSION, STREAM_FEATURE_IQAUTH,
      STREAM_FEATURE_IQREGISTER, STREAM_FEATURE_ACK, STREAM_FEATURE_COMPRESS_ZLIB,
      STREAM_FEATURE_COMPRESS_DCLZ]

/-- The SASL mechanism bits of the collected feature set, for an element with at most
one mechanisms child. -/
theorem rawFeatures_mechanism_bits (stanza : Tag) (hm : stanza.atMostOneChild "mechanisms") :
    hasFeature (rawFeatures stanza) STREAM_FEATURE_SASL_DIGESTMD5
        = listsMechanism stanza "DIGEST-MD5" ∧
    hasFeature (rawFeatures stanza) STREAM_FEATURE_SASL_PLAIN
        = listsMechanism stanza "PLAIN" ∧
    hasFeature (rawFeatures stanza) STREAM_FEATURE_SASL_ANONYMOUS
        = listsMechanism stanza "ANONYMOUS" ∧
    hasFeature (rawFeatures stanza) STREAM_FEATURE_SASL_EXTERNAL
        = listsMechanism stanza "EXTERNAL" := by
  simp only [rawFeatures, hasFeature_orIf, hasFeature_or, hasFeature_zero,
    hasFeature_childBits _ _ _ _ _ _ hm, hasFeature_childBits_any stanza "compression",
    listsMechanism_eq _ _ hm, hasFeature_getSaslMechs, hasFeature_getCompressionMethods]
  obtain hf | ⟨tag, hf⟩ :
      stanza.findChild "mechanisms" = none ∨ ∃ e, stanza.findChild "mechanisms" = some e := by
    cases stanza.findChild "mechanisms" <;> simp
  all_goals
    simp only [hf]
    cases stanza.findChild "compression" <;>
    simp [hasFeature_bits, STREAM_FEATURE_STARTTLS, STREAM_FEATURE_SASL_DIGESTMD5,
      STREAM_FEATURE_SASL_PLAIN, STREAM_FEATURE_SASL_ANONYMOUS, STREAM_FEATURE_SASL_EXTERNAL,
      STREAM_FEATURE_BIND, STREAM_FEATURE_SESSION, STREAM_FEATURE_IQAUTH,
      STREAM_FEATURE_IQREGISTER, STREAM_FEATURE_ACK, STREAM_FEATURE_COMPRESS_ZLIB,
      STREAM_FEATURE_COMPRESS_DCLZ]

/-- The compression bits of the collected feature set, for an element with at most one
compression child. -/
theorem rawFeatures_method_bits (stanza : Tag) (hc : stanza.atMostOneChild "compression") :
    hasFeature (rawFeatures stanza) STREAM_FEATURE_COMPRESS_ZLIB
        = listsMethod stanza "zlib" ∧
    hasFeature (rawFeatures stanza) STREAM_FEATURE_COMPRESS_DCLZ
        = listsMethod stanza "lzw" := by
  simp only [rawFeatures, hasFeature_orIf, hasFeature_or, hasFeature_zero,
    hasFeature_childBits _ _ _ _ _ _ hc, hasFeature_childBits_any stanza "mechanisms",
    listsMethod_eq _ _ hc, hasFeature_getSaslMechs, hasFeature_getCompressionMethods]
  obtain hg | ⟨tag2, hg⟩ :
      stanza.findChild "compression" = none
        ∨ ∃ e, stanza.findChild "compression" = some e := by
    cases stanza.findChild "compression" <;> simp
  all_goals
    simp only [hg]
    cases stanza.findChild "mechanisms" <;>
    simp [hasFeature_bits, STREAM_FEATURE_STARTTLS, STREAM_FEATURE_SASL_DIGESTMD5,
      STREAM_FEATURE_SASL_PLAIN, STREAM_FEATURE_SASL_ANONYMOUS, STREAM_FEATURE_SASL_EXTERNAL,
      STREAM_FEATURE_BIND, STREAM_FEATURE_SESSION, STREAM_FEATURE_IQAUTH,
      STREAM_FEATURE_IQREGISTER, STREAM_FEATURE_ACK, STREAM_FEATURE_COMPRESS_ZLIB,
      STREAM_FEATURE_COMPRESS_DCLZ]

theorem getSaslMechs_eq_zero (tag : Tag) :
    getSaslMechs tag = 0 ↔
      (tag.hasChildWithCData "mechanism" "DIGEST-MD5" = false
        ∧ tag.hasChildWithCData "mechanism" "PLAIN" = false
        ∧ tag.hasChildWithCData "mechanism" "ANONYMOUS" = false
        ∧ tag.hasChildWithCData "mechanism" "EXTERNAL" = false) := by
  simp [getSaslMechs, orIf_eq_zero, STREAM_FEATURE_SASL_DIGESTMD5, STREAM_FEATURE_SASL_PLAIN,
    STREAM_FEATURE_SASL_ANONYMOUS, STREAM_FEATURE_SASL_EXTERNAL]
  tauto

theorem getCompressionMethods_eq_zero (tag : Tag) :
    getCompressionMethods tag = 0 ↔
      (tag.hasChildWithCData "method" "zlib" = false
        ∧ tag.hasChildWithCData "method" "lzw" = false) := by
  simp [getCompressionMethods, orIf_eq_zero, STREAM_FEATURE_COMPRESS_ZLIB,
    STREAM_FEATURE_COMPRESS_DCLZ]

theorem childBits_eq_zero (stanza : Tag) (name attr value : String) (get : Tag → Nat)
    (h : stanza.atMostOneChild name) :
    childBits stanza name attr value get = 0 ↔
      match stanza.findChild name with
      | some tag => tag.hasAttribute attr value = false ∨ get tag = 0
      | none => True := by
  unfold childBits
  rw [Tag.hasChild_eq stanza name attr value h]
  obtain hf | ⟨tag, hf⟩ :
      stanza.findChild name = none ∨ ∃ e, stanza.findChild name = some e := by
    cases stanza.findChild name <;> simp
  · simp [hf]
  · simp only [hf]
    cases tag.hasAttribute attr value <;> simp

/-- Nothing is collected exactly when no recognised feature is present. -/
theorem rawFeatures_eq_zero (stanza : Tag)
    (hm : stanza.atMostOneChild "mechanisms") (hc : stanza.atMostOneChild "compression") :
    (rawFeatures stanza == 0) = recognisesNothing stanza := by
  rw [Bool.eq_iff_iff, beq_iff_eq]
  simp only [rawFeatures, lor_eq_zero, orIf_eq_zero, childBits_eq_zero _ _ _ _ _ hm,
    childBits_eq_zero _ _ _ _ _ hc, recognisesNothing, listsMechanism_eq _ _ hm,
    listsMethod_eq _ _ hc, getSaslMechs_eq_zero, getCompressionMethods_eq_zero]
  have k1 : STREAM_FEATURE_STARTTLS ≠ 0 := by decide
  have k2 : STREAM_FEATURE_BIND ≠ 0 := by decide
  have k3 : STREAM_FEATURE_SESSION ≠ 0 := by decide
  have k4 : STREAM_FEATURE_IQAUTH ≠ 0 := by decide
  have k5 : STREAM_FEATURE_IQREGISTER ≠ 0 := by decide
  have k6 : STREAM_FEATURE_ACK ≠ 0 := by decide
  simp only [k1, k2, k3, k4, k5, k6, or_false, true_and, Bool.and_eq_true,
    Bool.not_eq_true']
  obtain hf | ⟨tag, hf⟩ :
      stanza.findChild "mechanisms" = none ∨ ∃ e, stanza.findChild "mechanisms" = some e := by
    cases stanza.findChild "mechanisms" <;> simp
  all_goals
    obtain hg | ⟨tag2, hg⟩ :
        stanza.findChild "compression" = none
          ∨ ∃ e, stanza.findChild "compression" = some e := by
      cases stanza.findChild "compression" <;> simp
  · simp only [hf, hg]
    simp [and_assoc]
  · simp only [hf, hg]
    cases tag2.hasAttribute "xmlns" XMLNS_STREAM_COMPRESS <;> simp [and_assoc]
  · simp only [hf, hg]
    cases tag.hasAttribute "xmlns" XMLNS_STREAM_SASL <;> simp [and_assoc]
  · simp only [hf, hg]
    cases tag.hasAttribute "xmlns" XMLNS_STREAM_SASL <;>
      cases tag2.hasAttribute "xmlns" XMLNS_STREAM_COMPRESS <;> simp [and_assoc]

theorem send_streamFeatures (tag : Tag) (c : Client) :
    (send tag c).m_streamFeatures = c.m_streamFeatures := by
  unfold send
  cases c.m_connection <;> rfl

theorem disconnect_streamFeatures (reason : ConnectionError) (c : Client) :
    (disconnect reason c).m_streamFeatures = c.m_streamFeatures := by
  unfold disconnect
  cases c.m_connection <;> rfl

theorem bindResource_streamFeatures (c : Client) :
    (bindResource c).m_streamFeatures = c.m_streamFeatures := by
  unfold bindResource
  split_ifs <;> simp [send_streamFeatures]

/-- The authentication step leaves the stored feature set alone. -/
theorem authStep_streamFeatures (c : Client) :
    (authStep c).m_streamFeatures = c.m_streamFeatures := by
  unfold authStep
  split_ifs <;>
    simp [bindResource_streamFeatures, disconnect_streamFeatures, connected_events, startSASL,
      nonSaslLogin, emit]

/-- After handleNormalNode the stored feature set is the one computed from the
element. -/
theorem handleNormalNode_stores (b : Build) (stanza : Stanza) (c : Client) (conn : Connection)
    (features : Nat) (hname : stanza.name = "stream:features")
    (hf : getStreamFeatures stanza.toTag = some features)
    (hconn : c.m_connection = some conn) :
    ∃ c2, handleNormalNode b stanza c = some (true, c2) ∧ c2.m_streamFeatures = features := by
  rw [handleNormalNode_features b stanza c conn features hname hf hconn]
  refine ⟨_, rfl, ?_⟩
  split_ifs
  · rfl
  · simp [negotiateCompression, send_streamFeatures]
  · simp [authStep_streamFeatures]

/-- A bit other than IqAuth is in the result of getStreamFeatures exactly when it was
collected; IqAuth is in it when it was collected or nothing was. -/
theorem hasFeature_fallback_eq (raw bit : Nat)
    (hbit : bit ∈ [1, 2, 4, 8, 16, 32, 64, 128, 256, 512, 1024, 2048]) :
    hasFeature (if raw == 0 then STREAM_FEATURE_IQAUTH else raw) bit
      = (hasFeature raw bit || (raw == 0 && decide (bit = STREAM_FEATURE_IQAUTH))) := by
  by_cases h0 : raw = 0
  · subst h0
    have hiq : STREAM_FEATURE_IQAUTH ∈ [1, 2, 4, 8, 16, 32, 64, 128, 256, 512, 1024, 2048] := by
      decide
    simp only [beq_self_eq_true, if_true, hasFeature_zero, Bool.false_or, Bool.true_and,
      hasFeature_bits _ _ hiq hbit]
    by_cases hb : bit = STREAM_FEATURE_IQAUTH
    · simp [hb]
    · have hb2 : ¬ STREAM_FEATURE_IQAUTH = bit := fun h => hb h.symm
      simp [hb, hb2]
  · simp [h0]

theorem fallback_ne_zero (raw : Nat) :
    (if raw == 0 then STREAM_FEATURE_IQAUTH else raw) ≠ 0 := by
  by_cases h0 : raw = 0
  · simp [h0, STREAM_FEATURE_IQAUTH]
  · simp [h0]

theorem header_eq (c : Client) : header c = sendXml (streamHeader c) c := rfl

theorem foldl_verdict {α : Type} (f : α → Bool) (g : α → Event) (l : List α) (r : Bool)
    (c : Client) :
    l.foldl (fun acc x => (acc.1 && f x, acc.2.emit (g x))) (r, c)
      = (r && l.all f, { c with events := c.events ++ l.map g }) := by
  induction l generalizing r c with
  | nil => simp
  | cons x rest ih =>
    rw [List.foldl_cons, ih]
    simp [emit, Bool.and_assoc]

/-- The verdict and the calls of notifyOnTLSConnect. -/
theorem notifyOnTLSConnect_eq (info : CertInfo) (c : Client) :
    notifyOnTLSConnect info c
      = (c.m_connectionListeners.all (fun cl => cl.onTLSConnect info),
          { c with events := c.events ++
              c.m_connectionListeners.map (fun cl => Event.onTLSConnect cl.ptr) }) := by
  unfold notifyOnTLSConnect
  rw [foldl_verdict]
  simp

/-- What handleProceed does, in full. -/
theorem handleProceed_eq (c : Client) (conn : Connection)
    (hconn : c.m_connection = some conn) :
    handleProceed c = some (true,
      { c with
          m_connection := some { conn with isSecure := conn.isSecure || conn.tlsHandshakeResult },
          events := c.events ++ [Event.tlsHandshake] ++
            (if conn.tlsHandshakeResult then
              c.m_connectionListeners.map (fun cl => Event.onTLSConnect cl.ptr) ++
                (if (notifyOnTLSConnect conn.m_certInfo c).1 then
                  [Event.sendXml (streamHeader c)]
                 else [Event.setState ConnectionError.ConnTlsFailed, Event.disconnect])
             else [Event.setState ConnectionError.ConnTlsFailed, Event.disconnect]) }) := by
  unfold handleProceed
  simp only [hconn, notifyOnTLSConnect_eq, header_eq]
  cases hh : conn.tlsHandshakeResult
  · simp [disconnect, emit]
  · cases hv : c.m_connectionListeners.all (fun cl => cl.onTLSConnect conn.m_certInfo)
    · simp [disconnect, emit, hv]
    · simp [sendXml, emit, streamHeader, hv]

/-- The calls handleProceed records. -/
theorem handleProceed_events (c : Client) (conn : Connection)
    (hconn : c.m_connection = some conn) :
    ∃ c2, handleProceed c = some (true, c2) ∧
      c2.events = c.events ++ [Event.tlsHandshake] ++
        (if conn.tlsHandshakeResult then
          c.m_connectionListeners.map (fun cl => Event.onTLSConnect cl.ptr) ++
            (if (notifyOnTLSConnect conn.m_certInfo c).1 then
              [Event.sendXml (streamHeader c)]
             else [Event.setState ConnectionError.ConnTlsFailed, Event.disconnect])
         else [Event.setState ConnectionError.ConnTlsFailed, Event.disconnect]) :=
  ⟨_, handleProceed_eq c conn hconn, rfl⟩

theorem handleNormalNode_proceed (b : Build) (stanza : Stanza) (c : Client)
    (hb : b.HAVE_TLS = true) (hname : stanza.name = "proceed")
    (hns : stanza.hasAttribute "xmlns" XMLNS_STREAM_TLS = true) :
    handleNormalNode b stanza c = handleProceed c := by
  unfold handleNormalNode
  simp [hname, hns, hb]

theorem iqCalls_append (xs ys : List Event) : iqCalls (xs ++ ys) = iqCalls xs ++ iqCalls ys := by
  simp [iqCalls, List.filterMap_append]

theorem iqCalls_nsCalls (stanza : Stanza) (handlers : List (String × IqHandler)) :
    iqCalls (nsCalls stanza handlers)
      = (handlers.filter (fun e => stanza.hasChildWithAttrib "xmlns" e.1)).map
          (fun e => (e.2.ptr, stanza)) := by
  induction handlers with
  | nil => rfl
  | cons e rest ih =>
    unfold nsCalls iqCalls at *
    by_cases hm : stanza.hasChildWithAttrib "xmlns" e.1 = true
    · simp [List.filterMap_cons, List.filter_cons, hm, ih]
    · simp [List.filterMap_cons, List.filter_cons, hm, ih]

theorem iqCalls_idTrackCalls (stanza : Stanza) (table : List (String × TrackStruct)) :
    iqCalls (idTrackCalls stanza table) = [] := by
  unfold idTrackCalls
  cases StdMap.find table stanza.m_id <;> rfl

theorem iqCalls_reply (p : Bool) (t : Tag) :
    iqCalls (if p then [Event.send t] else []) = [] := by
  cases p <;> rfl

/-- The namespace handler invocations a dispatch adds. -/
theorem iqCalls_notifyIqHandlers (stanza : Stanza) (c : Client) :
    iqCalls (notifyIqHandlers stanza c).events
      = iqCalls c.events ++
        (c.m_iqNSHandlers.filter (fun e => stanza.hasChildWithAttrib "xmlns" e.1)).map
          (fun e => (e.2.ptr, stanza)) := by
  rw [notifyIqHandlers_eq]
  simp only [iqCalls_append, iqCalls_nsCalls, iqCalls_idTrackCalls, iqCalls_reply,
    List.append_nil]

end Client

namespace Client

theorem sentTags_append (xs ys : List Event) :
    sentTags (xs ++ ys) = sentTags xs ++ sentTags ys := by
  simp [sentTags, List.filterMap_append]

theorem sentTags_nsCalls (stanza : Stanza) (handlers : List (String × IqHandler)) :
    sentTags (nsCalls stanza handlers) = [] := by
  induction handlers with
  | nil => rfl
  | cons e rest ih =>
    unfold nsCalls sentTags at *
    by_cases hm : stanza.hasChildWithAttrib "xmlns" e.1 = true
    · simp [List.filterMap_cons, hm, ih]
    · simp [List.filterMap_cons, hm, ih]

theorem sentTags_idTrackCalls (stanza : Stanza) (table : List (String × TrackStruct)) :
    sentTags (idTrackCalls stanza table) = [] := by
  unfold idTrackCalls sentTags
  cases StdMap.find table stanza.m_id <;> simp

/-- The elements notifyIqHandlers sends: the error reply, when it is due and a
connection exists. -/
theorem sentTags_notifyIqHandlers (stanza : Stanza) (c : Client) :
    sentTags (notifyIqHandlers stanza c).events
      = sentTags c.events ++
          (if errorReplyDue stanza c && c.m_connection.isSome then [errorReply stanza]
           else []) := by
  rw [notifyIqHandlers_eq]
  simp only [sentTags_append, sentTags_nsCalls, sentTags_idTrackCalls, List.append_nil]
  cases errorReplyDue stanza c && c.m_connection.isSome <;> simp [sentTags]

theorem nsCalls_eq_map (stanza : Stanza) (handlers : List (String × IqHandler)) :
    nsCalls stanza handlers
      = (handlers.filter (fun e => stanza.hasChildWithAttrib "xmlns" e.1)).map
          (fun e => Event.handleIq e.2.ptr stanza) := by
  induction handlers with
  | nil => rfl
  | cons e rest ih =>
    unfold nsCalls at *
    by_cases hm : stanza.hasChildWithAttrib "xmlns" e.1 = true
    · simp [List.filterMap_cons, List.filter_cons, hm, ih]
    · simp [List.filterMap_cons, List.filter_cons, hm, ih]

theorem handlerCalls_append (ih : Nat) (xs ys : List Event) :
    handlerCalls ih (xs ++ ys) = handlerCalls ih xs ++ handlerCalls ih ys := by
  simp [handlerCalls, List.filter_append]

theorem handlerCalls_nsCalls (ih : Nat) (stanza : Stanza)
    (handlers : List (String × IqHandler)) :
    handlerCalls ih (nsCalls stanza handlers)
      = (handlers.filter
          (fun e => stanza.hasChildWithAttrib "xmlns" e.1 && e.2.ptr == ih)).map
          (fun _ => Event.handleIq ih stanza) := by
  induction handlers with
  | nil => rfl
  | cons e rest ih2 =>
    unfold nsCalls handlerCalls at *
    by_cases hm : stanza.hasChildWithAttrib "xmlns" e.1 = true
    · by_cases hp : e.2.ptr = ih
      · simp [List.filterMap_cons, List.filter_cons, hm, hp, ih2]
      · simp [List.filterMap_cons, List.filter_cons, hm, hp, ih2]
    · simp [List.filterMap_cons, List.filter_cons, hm, ih2]

theorem handlerCalls_reply (ih : Nat) (p : Bool) (t : Tag) :
    handlerCalls ih (if p then [Event.send t] else []) = [] := by
  cases p <;> simp [handlerCalls]

theorem notifyPresenceHandlers_eq (stanza : Stanza) (c : Client) :
    notifyPresenceHandlers stanza c =
      { c with
        events := c.events ++
          c.m_presenceHandlers.map (fun ph => Event.handlePresence ph.ptr stanza) } :=
  foldl_emit _ _ _

theorem notifySubscriptionHandlers_eq (stanza : Stanza) (c : Client) :
    notifySubscriptionHandlers stanza c =
      { c with
        events := c.events ++
          c.m_subscriptionHandlers.map (fun sh => Event.handleSubscription sh.ptr stanza) } :=
  foldl_emit _ _ _

theorem notifyMessageHandlers_eq (stanza : Stanza) (c : Client) :
    notifyMessageHandlers stanza c =
      { c with
        events := c.events ++
          c.m_messageHandlers.map (fun mh => Event.handleMessage mh.ptr stanza) } :=
  foldl_emit _ _ _

theorem sentTags_map_of_none {α : Type} (f : α → Event) (l : List α)
    (h : ∀ x, sentTags [f x] = []) : sentTags (l.map f) = [] := by
  induction l with
  | nil => rfl
  | cons x rest ih =>
    have hx := h x
    rw [List.map_cons, ← List.singleton_append, sentTags_append, hx, ih]
    rfl

theorem disconnect_eq (reason : ConnectionError) (c : Client) (conn : Connection)
    (hconn : c.m_connection = some conn) :
    disconnect reason c
      = { c with events := c.events ++ [Event.setState reason, Event.disconnect] } := by
  simp [disconnect, hconn, emit]

theorem disconnect_table (reason : ConnectionError) (c : Client) :
    (disconnect reason c).m_iqIDHandlers = c.m_iqIDHandlers := by
  unfold disconnect
  cases c.m_connection <;> rfl

theorem disconnect_idCalls (reason : ConnectionError) (c : Client) :
    idCalls (disconnect reason c).events = idCalls c.events := by
  unfold disconnect
  cases c.m_connection <;> simp [emit, idCalls, List.filterMap_append]

end Client

theorem connectCalls_append (xs ys : List Event) :
    connectCalls (xs ++ ys) = connectCalls xs ++ connectCalls ys := by
  simp [connectCalls, List.filterMap_append]

theorem connectCalls_of_quiet (added : List Event) (h : quietCalls added) :
    connectCalls added = [] := by
  induction added with
  | nil => rfl
  | cons e rest ih =>
    have he := (h e (List.mem_cons_self _ _)).2.1
    have hr := ih (fun x hx => h x (List.mem_cons_of_mem _ hx))
    rw [← List.singleton_append, connectCalls_append, hr]
    cases e <;> first | rfl | simp [Event.isConnect] at he

theorem connectCalls_onConnect (l : List ConnectionListener) :
    connectCalls (l.map (fun cl => Event.onConnect cl.ptr)) = l.map (fun cl => cl.ptr) := by
  induction l with
  | nil => rfl
  | cons x rest ih =>
    rw [List.map_cons, ← List.singleton_append, connectCalls_append, ih]
    rfl

namespace Client

theorem negotiates_refl (c : Client) : negotiates c c :=
  ⟨rfl, [], by simp, fun e he => absurd he (List.not_mem_nil e)⟩

theorem negotiates_trans {a b c : Client} (h1 : negotiates a b) (h2 : negotiates b c) :
    negotiates a c := by
  obtain ⟨l1, x, hx, qx⟩ := h1
  obtain ⟨l2, y, hy, qy⟩ := h2
  refine ⟨l2.trans l1, x ++ y, by rw [hy, hx, List.append_assoc], ?_⟩
  intro e he
  rcases List.mem_append.mp he with h | h
  · exact qx e h
  · exact qy e h

theorem negotiates_emit (c : Client) (e : Event)
    (h : e.isDispatch = false ∧ e.isConnect = false ∧ e.isErrorReply = false) :
    negotiates c (c.emit e) := by
  refine ⟨rfl, [e], rfl, ?_⟩
  intro x hx
  rw [List.mem_singleton] at hx
  subst hx
  exact h

theorem negotiates_update (c c2 : Client)
    (hl : c2.m_connectionListeners = c.m_connectionListeners) (he : c2.events = c.events) :
    negotiates c c2 :=
  ⟨hl, [], by simp [he], fun e h => absurd h (List.not_mem_nil e)⟩

theorem negotiates_send (tag : Tag) (c : Client)
    (h : tag.hasAttribute "type" "error" = false) : negotiates c (send tag c) := by
  unfold send
  cases c.m_connection
  · exact negotiates_refl c
  · exact negotiates_emit c _ ⟨rfl, rfl, h⟩

theorem negotiates_sendXml (xml : String) (c : Client) : negotiates c (sendXml xml c) := by
  unfold sendXml
  cases c.m_connection
  · exact negotiates_refl c
  · exact negotiates_emit c _ ⟨rfl, rfl, rfl⟩

theorem negotiates_header (c : Client) : negotiates c (header c) :=
  negotiates_sendXml _ c

theorem negotiates_disconnect (reason : ConnectionError) (c : Client) :
    negotiates c (disconnect reason c) := by
  unfold disconnect
  cases c.m_connection
  · exact negotiates_refl c
  · exact negotiates_trans (negotiates_emit c _ (by exact ⟨rfl, rfl, rfl⟩))
      (negotiates_emit _ _ (by exact ⟨rfl, rfl, rfl⟩))

theorem negotiates_map {α : Type} (f : α → Event) (l : List α) (c : Client)
    (h : ∀ x, (f x).isDispatch = false ∧ (f x).isConnect = false
      ∧ (f x).isErrorReply = false) :
    negotiates c (l.foldl (fun acc x => acc.emit (f x)) c) := by
  rw [foldl_emit]
  refine ⟨rfl, l.map f, rfl, ?_⟩
  intro e he
  obtain ⟨x, _, hx⟩ := List.mem_map.mp he
  rw [← hx]
  exact h x

theorem negotiates_bindResource (c : Client) : negotiates c (bindResource c) := by
  unfold bindResource
  split
  · apply negotiates_send
    split <;> simp [Tag.hasAttribute, Tag.addChild, Tag.addAttribute, Tag.new]
  · exact negotiates_refl c

theorem negotiates_createSession (c : Client) : negotiates c (createSession c) := by
  unfold createSession
  apply negotiates_send
  simp [Tag.hasAttribute, Tag.addChild, Tag.addAttribute, Tag.new]

theorem negotiates_negotiateCompression (method : Nat) (c : Client) :
    negotiates c (negotiateCompression method c) := by
  unfold negotiateCompression
  apply negotiates_send
  split <;> split <;> simp [Tag.hasAttribute, Tag.addChild, Tag.addAttribute, Tag.new]

theorem negotiates_sendInitialPresence (c : Client) :
    negotiates c (sendInitialPresence c) := by
  unfold sendInitialPresence
  apply negotiates_send
  simp [Tag.hasAttribute, Tag.addChild, Tag.new]

theorem negotiates_notifyOnResourceBindError (error : ResourceBindError) (c : Client) :
    negotiates c (notifyOnResourceBindError error c) :=
  negotiates_map _ _ c (fun _ => ⟨rfl, rfl, rfl⟩)

theorem negotiates_notifyOnSessionCreateError (error : SessionCreateError) (c : Client) :
    negotiates c (notifyOnSessionCreateError error c) :=
  negotiates_map _ _ c (fun _ => ⟨rfl, rfl, rfl⟩)

theorem negotiates_notifyOnTLSConnect (info : CertInfo) (c : Client) :
    negotiates c (notifyOnTLSConnect info c).2 := by
  rw [notifyOnTLSConnect_eq]
  refine ⟨rfl, _, rfl, ?_⟩
  intro e he
  obtain ⟨x, _, hx⟩ := List.mem_map.mp he
  rw [← hx]
  exact ⟨rfl, rfl, rfl⟩

theorem connectsAtMostOnce_of_negotiates {c c2 : Client} (h : negotiates c c2) :
    connectsAtMostOnce c c2 := by
  obtain ⟨hl, added, he, hq⟩ := h
  exact ⟨hl, added, he, fun e hm => ⟨(hq e hm).1, (hq e hm).2.2⟩,
    Or.inl (connectCalls_of_quiet added hq)⟩

theorem connectsAtMostOnce_notifyOnConnect {c c1 : Client} (h : negotiates c c1) :
    connectsAtMostOnce c (notifyOnConnect c1) := by
  obtain ⟨hl, added, he, hq⟩ := h
  rw [notifyOnConnect_eq]
  refine ⟨hl, added ++ c.m_connectionListeners.map (fun cl => Event.onConnect cl.ptr), ?_, ?_,
    ?_⟩
  · simp only [he, hl, List.append_assoc]
  · intro e hm
    rcases List.mem_append.mp hm with h1 | h1
    · exact ⟨(hq e h1).1, (hq e h1).2.2⟩
    · obtain ⟨x, _, hx⟩ := List.mem_map.mp h1
      rw [← hx]
      exact ⟨rfl, rfl⟩
  · right
    rw [connectCalls_append, connectCalls_of_quiet added hq, connectCalls_onConnect]
    rfl

/-- The calls of connected() after calls that notify nobody of the connection: every
connection listener is notified once for each of its registrations. -/
theorem connectsAtMostOnce_connected {c c1 : Client} (h : negotiates c c1) :
    connectsAtMostOnce c (connected c1) := by
  unfold connected
  simp only []
  split_ifs
  all_goals
    apply connectsAtMostOnce_notifyOnConnect
    first
      | exact h
      | exact negotiates_trans h (negotiates_emit c1 _ (by exact ⟨rfl, rfl, rfl⟩))
      | exact negotiates_trans h (negotiates_sendInitialPresence _)
      | exact negotiates_trans
          (negotiates_trans h (negotiates_emit c1 _ (by exact ⟨rfl, rfl, rfl⟩)))
          (negotiates_sendInitialPresence _)

theorem connectsAtMostOnce_authStep {c c1 : Client} (h : negotiates c c1) :
    connectsAtMostOnce c (authStep c1) := by
  unfold authStep
  split_ifs
  all_goals first
    | exact connectsAtMostOnce_connected h
    | exact connectsAtMostOnce_of_negotiates h
    | exact connectsAtMostOnce_of_negotiates (negotiates_trans h (negotiates_bindResource _))
    | exact connectsAtMostOnce_of_negotiates
        (negotiates_trans h (negotiates_emit _ _ (by exact ⟨rfl, rfl, rfl⟩)))
    | exact connectsAtMostOnce_of_negotiates (negotiates_trans h (negotiates_disconnect _ _))

theorem connectsAtMostOnce_compressionStep (b : Build) {c c1 c2 : Client} (r : Bool)
    (h : negotiates c c1) (hrun : compressionStep b c1 = some (r, c2)) :
    connectsAtMostOnce c c2 := by
  unfold compressionStep at hrun
  split at hrun
  · split at hrun
    · exact Option.noConfusion hrun
    · split at hrun
      · obtain ⟨-, rfl⟩ := Prod.mk.inj (Option.some.inj hrun)
        exact connectsAtMostOnce_of_negotiates
          (negotiates_trans (negotiates_trans h (negotiates_emit _ _ (by exact ⟨rfl, rfl, rfl⟩)))
            (negotiates_negotiateCompression _ _))
      · obtain ⟨-, rfl⟩ := Prod.mk.inj (Option.some.inj hrun)
        exact connectsAtMostOnce_authStep
          (negotiates_trans h (negotiates_emit _ _ (by exact ⟨rfl, rfl, rfl⟩)))
  · obtain ⟨-, rfl⟩ := Prod.mk.inj (Option.some.inj hrun)
    exact connectsAtMostOnce_authStep h

theorem connectsAtMostOnce_startTlsStep (b : Build) {c c1 c2 : Client} (r : Bool)
    (h : negotiates c c1) (hrun : startTlsStep b c1 = some (r, c2)) :
    connectsAtMostOnce c c2 := by
  unfold startTlsStep at hrun
  split at hrun
  · split at hrun
    · exact Option.noConfusion hrun
    · split at hrun
      · obtain ⟨-, rfl⟩ := Prod.mk.inj (Option.some.inj hrun)
        exact connectsAtMostOnce_of_negotiates
          (negotiates_trans h (negotiates_emit _ _ (by exact ⟨rfl, rfl, rfl⟩)))
      · exact connectsAtMostOnce_compressionStep b r h hrun
  · exact connectsAtMostOnce_compressionStep b r h hrun

theorem negotiates_handleProceed {c c2 : Client} (r : Bool)
    (hrun : handleProceed c = some (r, c2)) : negotiates c c2 := by
  unfold handleProceed at hrun
  split at hrun
  · exact Option.noConfusion hrun
  · rename_i conn hconn
    have h0 : negotiates c
        { c.emit Event.tlsHandshake with
          m_connection := some
            { conn with isSecure := conn.isSecure || conn.tlsHandshakeResult } } :=
      negotiates_trans (negotiates_emit c _ (by exact ⟨rfl, rfl, rfl⟩)) (negotiates_update _ _ rfl rfl)
    simp only [] at hrun
    split at hrun
    · split at hrun
      · obtain ⟨-, rfl⟩ := Prod.mk.inj (Option.some.inj hrun)
        exact negotiates_trans (negotiates_trans h0 (negotiates_notifyOnTLSConnect _ _))
          (negotiates_disconnect _ _)
      · obtain ⟨-, rfl⟩ := Prod.mk.inj (Option.some.inj hrun)
        exact negotiates_trans (negotiates_trans h0 (negotiates_notifyOnTLSConnect _ _))
          (negotiates_header _)
    · obtain ⟨-, rfl⟩ := Prod.mk.inj (Option.some.inj hrun)
      exact negotiates_trans h0 (negotiates_disconnect _ _)

theorem negotiates_handleCompressed {c c2 : Client} (r : Bool)
    (hrun : handleCompressed c = some (r, c2)) : negotiates c c2 := by
  unfold handleCompressed at hrun
  split at hrun
  · exact Option.noConfusion hrun
  · obtain ⟨-, rfl⟩ := Prod.mk.inj (Option.some.inj hrun)
    exact negotiates_trans
      (negotiates_trans (negotiates_emit c _ (by exact ⟨rfl, rfl, rfl⟩)) (negotiates_update _ _ rfl rfl))
      (negotiates_header _)

theorem negotiates_processResourceBindCancel (stanza : Stanza) (error : Option Tag)
    {c c2 : Client} (hrun : processResourceBindCancel stanza error c = some c2) :
    negotiates c c2 := by
  unfold processResourceBindCancel at hrun
  repeat' split at hrun
  all_goals first
    | exact Option.noConfusion hrun
    | (rw [← Option.some.inj hrun]; exact negotiates_notifyOnResourceBindError _ c)

theorem connectsAtMostOnce_processResourceBind (stanza : Stanza) {c c2 : Client}
    (hrun : processResourceBind stanza c = some c2) : connectsAtMostOnce c c2 := by
  unfold processResourceBind at hrun
  split at hrun
  · split at hrun
    · exact Option.noConfusion hrun
    · split at hrun
      · exact Option.noConfusion hrun
      · simp only [] at hrun
        split at hrun
        · rw [← Option.some.inj hrun]
          exact connectsAtMostOnce_of_negotiates
            (negotiates_trans (negotiates_update c _ rfl rfl) (negotiates_createSession _))
        · rw [← Option.some.inj hrun]
          exact connectsAtMostOnce_connected (negotiates_update c _ rfl rfl)
  · simp only [] at hrun
    split at hrun
    · split at hrun
      · exact Option.noConfusion hrun
      · split at hrun
        · rw [← Option.some.inj hrun]
          exact connectsAtMostOnce_of_negotiates (negotiates_notifyOnResourceBindError _ c)
        · exact connectsAtMostOnce_of_negotiates
            (negotiates_processResourceBindCancel stanza _ hrun)
    · exact connectsAtMostOnce_of_negotiates
        (negotiates_processResourceBindCancel stanza _ hrun)
  · rw [← Option.some.inj hrun]
    exact connectsAtMostOnce_of_negotiates (negotiates_refl c)

theorem negotiates_processCreateSessionCancel (stanza : Stanza) (error : Option Tag)
    {c c2 : Client} (hrun : processCreateSessionCancel stanza error c = some c2) :
    negotiates c c2 := by
  unfold processCreateSessionCancel at hrun
  repeat' split at hrun
  all_goals first
    | exact Option.noConfusion hrun
    | (rw [← Option.some.inj hrun]; exact negotiates_notifyOnSessionCreateError _ c)

theorem negotiates_processCreateSessionAuth (stanza : Stanza) (error : Option Tag)
    {c c2 : Client} (hrun : processCreateSessionAuth stanza error c = some c2) :
    negotiates c c2 := by
  unfold processCreateSessionAuth at hrun
  repeat' split at hrun
  all_goals first
    | exact Option.noConfusion hrun
    | (rw [← Option.some.inj hrun]; exact negotiates_notifyOnSessionCreateError _ c)
    | exact negotiates_processCreateSessionCancel stanza _ hrun

theorem connectsAtMostOnce_processCreateSession (stanza : Stanza) {c c2 : Client}
    (hrun : processCreateSession stanza c = some c2) : connectsAtMostOnce c c2 := by
  unfold processCreateSession at hrun
  split at hrun
  · rw [← Option.some.inj hrun]
    exact connectsAtMostOnce_connected (negotiates_refl c)
  · simp only [] at hrun
    repeat' split at hrun
    all_goals first
      | exact Option.noConfusion hrun
      | (rw [← Option.some.inj hrun]
         exact connectsAtMostOnce_of_negotiates (negotiates_notifyOnSessionCreateError _ c))
      | exact connectsAtMostOnce_of_negotiates
          (negotiates_processCreateSessionAuth stanza _ hrun)
  · rw [← Option.some.inj hrun]
    exact connectsAtMostOnce_of_negotiates (negotiates_refl c)

theorem connectsAtMostOnce_handleIqReplies (stanza : Stanza) {c c2 : Client} (r : Bool)
    (hrun : handleIqReplies stanza c = some (r, c2)) : connectsAtMostOnce c c2 := by
  unfold handleIqReplies at hrun
  split at hrun
  · cases hp : processResourceBind stanza c with
    | none => simp [hp] at hrun
    | some c3 =>
      simp only [hp, Option.map_some', Option.some.injEq, Prod.mk.injEq] at hrun
      rw [← hrun.2]
      exact connectsAtMostOnce_processResourceBind stanza hp
  · split at hrun
    · cases hp : processCreateSession stanza c with
      | none => simp [hp] at hrun
      | some c3 =>
        simp only [hp, Option.map_some', Option.some.injEq, Prod.mk.injEq] at hrun
        rw [← hrun.2]
        exact connectsAtMostOnce_processCreateSession stanza hp
    · obtain ⟨-, rfl⟩ := Prod.mk.inj (Option.some.inj hrun)
      exact connectsAtMostOnce_of_negotiates (negotiates_refl c)

/-- Whatever element handleNormalNode is handed, it invokes no stanza handler, sends no
element of type error and notifies of the connection either nobody or every connection
listener once for each of its registrations. -/
theorem connectsAtMostOnce_handleNormalNode (b : Build) (stanza : Stanza) {c c2 : Client}
    (r : Bool) (hrun : handleNormalNode b stanza c = some (r, c2)) :
    connectsAtMostOnce c c2 := by
  unfold handleNormalNode at hrun
  split at hrun
  · split at hrun
    · exact Option.noConfusion hrun
    · exact connectsAtMostOnce_startTlsStep b r (negotiates_update c _ (by exact rfl) (by exact rfl))
        hrun
  · split at hrun
    · exact connectsAtMostOnce_of_negotiates (negotiates_handleProceed r hrun)
    · split at hrun
      · obtain ⟨-, rfl⟩ := Prod.mk.inj (Option.some.inj hrun)
        exact connectsAtMostOnce_of_negotiates (negotiates_disconnect _ c)
      · split at hrun
        · obtain ⟨-, rfl⟩ := Prod.mk.inj (Option.some.inj hrun)
          exact connectsAtMostOnce_of_negotiates (negotiates_disconnect _ c)
        · split at hrun
          · exact connectsAtMostOnce_of_negotiates (negotiates_handleCompressed r hrun)
          · split at hrun
            · obtain ⟨-, rfl⟩ := Prod.mk.inj (Option.some.inj hrun)
              exact connectsAtMostOnce_of_negotiates (negotiates_emit c _ (by exact ⟨rfl, rfl, rfl⟩))
            · split at hrun
              · obtain ⟨-, rfl⟩ := Prod.mk.inj (Option.some.inj hrun)
                exact connectsAtMostOnce_of_negotiates
                  (negotiates_trans (negotiates_emit c _ (by exact ⟨rfl, rfl, rfl⟩))
                    (negotiates_disconnect _ _))
              · split at hrun
                · obtain ⟨-, rfl⟩ := Prod.mk.inj (Option.some.inj hrun)
                  exact connectsAtMostOnce_of_negotiates
                    (negotiates_trans (negotiates_update c (setAuthed true c) rfl rfl)
                      (negotiates_header _))
                · exact connectsAtMostOnce_handleIqReplies stanza r hrun

end Client

namespace Client

theorem compressionStep_flag (b : Build) {c c2 : Client} {r : Bool}
    (hrun : compressionStep b c = some (r, c2)) : r = true := by
  unfold compressionStep at hrun
  repeat' split at hrun
  all_goals first
    | exact Option.noConfusion hrun
    | exact (Prod.mk.inj (Option.some.inj hrun)).1.symm

theorem startTlsStep_flag (b : Build) {c c2 : Client} {r : Bool}
    (hrun : startTlsStep b c = some (r, c2)) : r = true := by
  unfold startTlsStep at hrun
  repeat' split at hrun
  all_goals first
    | exact Option.noConfusion hrun
    | exact (Prod.mk.inj (Option.some.inj hrun)).1.symm
    | exact compressionStep_flag b hrun

theorem handleProceed_flag {c c2 : Client} {r : Bool}
    (hrun : handleProceed c = some (r, c2)) : r = true := by
  unfold handleProceed at hrun
  split at hrun
  · exact Option.noConfusion hrun
  · simp only [] at hrun
    repeat' split at hrun
    all_goals exact (Prod.mk.inj (Option.some.inj hrun)).1.symm

theorem handleCompressed_flag {c c2 : Client} {r : Bool}
    (hrun : handleCompressed c = some (r, c2)) : r = true := by
  unfold handleCompressed at hrun
  split at hrun
  · exact Option.noConfusion hrun
  · exact (Prod.mk.inj (Option.some.inj hrun)).1.symm

/-- An element that is no control element is left alone: handleNormalNode returns
false and the client is unchanged. -/
theorem handleNormalNode_noncontrol (b : Build) (stanza : Stanza) (c : Client)
    (h : isControl stanza = false) : handleNormalNode b stanza c = some (false, c) := by
  unfold isControl at h
  simp only [Bool.or_eq_false_iff, Bool.and_eq_false_iff] at h
  obtain ⟨⟨⟨⟨h1, h2⟩, h3⟩, h4⟩, h5⟩ := h
  unfold handleNormalNode handleIqReplies
  cases hp : (stanza.name == "proceed") <;> cases hf : (stanza.name == "failure") <;>
    cases hc : (stanza.name == "compressed") <;> cases hg : (stanza.name == "challenge") <;>
    cases hs : (stanza.name == "success") <;> cases hi : (stanza.name == "iq") <;>
    simp_all

/-- In a build with TLS and zlib, the value handleNormalNode returns tells whether the
element is a control element. -/
theorem handleNormalNode_flag (b : Build) (stanza : Stanza) {c c2 : Client} {r : Bool}
    (htls : b.HAVE_TLS = true) (hzlib : b.HAVE_ZLIB = true)
    (hrun : handleNormalNode b stanza c = some (r, c2)) : r = isControl stanza := by
  cases hctl : isControl stanza
  · rw [handleNormalNode_noncontrol b stanza c hctl] at hrun
    exact (Prod.mk.inj (Option.some.inj hrun)).1.symm
  · unfold handleNormalNode at hrun
    simp only [htls, hzlib, Bool.true_and] at hrun
    split at hrun
    · split at hrun
      · exact Option.noConfusion hrun
      · exact startTlsStep_flag b hrun
    · split at hrun
      · exact handleProceed_flag hrun
      · split at hrun
        · exact (Prod.mk.inj (Option.some.inj hrun)).1.symm
        · split at hrun
          · exact (Prod.mk.inj (Option.some.inj hrun)).1.symm
          · split at hrun
            · exact handleCompressed_flag hrun
            · split at hrun
              · exact (Prod.mk.inj (Option.some.inj hrun)).1.symm
              · split at hrun
                · exact (Prod.mk.inj (Option.some.inj hrun)).1.symm
                · split at hrun
                  · exact (Prod.mk.inj (Option.some.inj hrun)).1.symm
                  · unfold handleIqReplies at hrun
                    split at hrun
                    · cases hp : processResourceBind stanza c with
                      | none => simp [hp] at hrun
                      | some c3 =>
                        simp only [hp, Option.map_some', Option.some.injEq,
                          Prod.mk.injEq] at hrun
                        exact hrun.1.symm
                    · split at hrun
                      · cases hp : processCreateSession stanza c with
                        | none => simp [hp] at hrun
                        | some c3 =>
                          simp only [hp, Option.map_some', Option.some.injEq,
                            Prod.mk.injEq] at hrun
                          exact hrun.1.symm
                      · exfalso
                        unfold isControl at hctl
                        simp only [Bool.or_eq_true, Bool.and_eq_true, beq_iff_eq] at hctl
                        rcases hctl with
                          (((hn | ⟨hn | hn, ha⟩) | ⟨hn | hn, ha⟩) | ⟨(hn | hn) | hn, ha⟩)
                            | ⟨hn, ha | ha⟩
                        all_goals simp_all

theorem filter_noncontrol (b : Build) (stanza : Stanza) (c : Client)
    (hempty : stanza.empty = false) (h : isControl stanza = false) :
    filter b NodeType.NODE_STREAM_CHILD stanza c = some (dispatch stanza c) := by
  unfold filter
  simp [hempty, handleNormalNode_noncontrol b stanza c h]

theorem filter_control (b : Build) (stanza : Stanza) (c c2 : Client)
    (hempty : stanza.empty = false) (hrun : handleNormalNode b stanza c = some (true, c2)) :
    filter b NodeType.NODE_STREAM_CHILD stanza c = some c2 := by
  unfold filter
  simp [hempty, hrun]

/-- An error reply to the bind request is reported to the connection listeners,
whatever it holds; there is no null pointer to run into. -/
theorem processResourceBind_error_any (stanza : Stanza) (c : Client)
    (hkind : stanza.m_subtype = StanzaSubType.STANZA_IQ_ERROR) :
    ∃ error, processResourceBind stanza c = some (notifyOnResourceBindError error c) := by
  unfold processResourceBind processResourceBindCancel
  simp only [hkind]
  obtain herr | ⟨error, herr⟩ :
      stanza.findChild "error" = none ∨ ∃ e, stanza.findChild "error" = some e := by
    cases stanza.findChild "error" <;> simp
  · have hno : ∀ value, stanza.hasChild "error" "type" value = false := by
      intro value
      cases h : stanza.hasChild "error" "type" value
      · rfl
      · obtain ⟨e, he⟩ := findChild_of_hasChild _ _ _ _ h
        rw [herr] at he
        exact Option.noConfusion he
    simp only [hno]
    exact ⟨_, rfl⟩
  · simp only [herr]
    split_ifs <;> exact ⟨_, rfl⟩

/-- An error reply to the session request is reported to the connection listeners,
whatever it holds. -/
theorem processCreateSession_error_any (stanza : Stanza) (c : Client)
    (hkind : stanza.m_subtype = StanzaSubType.STANZA_IQ_ERROR) :
    ∃ error, processCreateSession stanza c = some (notifyOnSessionCreateError error c) := by
  unfold processCreateSession processCreateSessionAuth processCreateSessionCancel
  simp only [hkind]
  obtain herr | ⟨error, herr⟩ :
      stanza.findChild "error" = none ∨ ∃ e, stanza.findChild "error" = some e := by
    cases stanza.findChild "error" <;> simp
  · have hno : ∀ value, stanza.hasChild "error" "type" value = false := by
      intro value
      cases h : stanza.hasChild "error" "type" value
      · rfl
      · obtain ⟨e, he⟩ := findChild_of_hasChild _ _ _ _ h
        rw [herr] at he
        exact Option.noConfusion he
    simp only [hno]
    exact ⟨_, rfl⟩
  · simp only [herr]
    split_ifs <;> exact ⟨_, rfl⟩

theorem disconnectCalls_append (xs ys : List Event) :
    disconnectCalls (xs ++ ys) = disconnectCalls xs ++ disconnectCalls ys := by
  simp [disconnectCalls, List.filter_append]

theorem disconnectCalls_map_of_none {α : Type} (f : α → Event) (l : List α)
    (h : ∀ x, disconnectCalls [f x] = []) : disconnectCalls (l.map f) = [] := by
  induction l with
  | nil => rfl
  | cons x rest ih =>
    have hx := h x
    rw [List.map_cons, ← List.singleton_append, disconnectCalls_append, hx, ih]
    rfl

end Client

namespace StdMap

theorem filter_other_insertNew {V : Type} (m : List (String × V)) (key : String) (v : V) :
    (insertNew m key v).filter (fun e => e.1 != key) = m.filter (fun e => e.1 != key) := by
  induction m with
  | nil => simp [insertNew]
  | cons e rest ih =>
    unfold insertNew
    by_cases hlt : key < e.1
    · simp [hlt, List.filter_cons]
    · simp only [hlt, if_false, List.filter_cons, ih]

theorem filter_key_insertNew {V : Type} (m : List (String × V)) (key : String) (v : V)
    (h : m.any (fun e => e.1 == key) = false) :
    (insertNew m key v).filter (fun e => e.1 == key) = [(key, v)] := by
  induction m with
  | nil => simp [insertNew]
  | cons e rest ih =>
    rw [List.any_cons, Bool.or_eq_false_iff] at h
    unfold insertNew
    by_cases hlt : key < e.1
    · have hrest : (e :: rest).filter (fun e => e.1 == key) = [] := by
        rw [List.filter_eq_nil_iff]
        intro x hx
        rcases List.mem_cons.mp hx with hx | hx
        · rw [hx, h.1]
          decide
        · have := List.any_eq_false.mp h.2 x hx
          simpa using this
      simp only [hlt, if_true]
      rw [List.filter_cons]
      simp only [beq_self_eq_true, if_true, hrest]
    · simp only [hlt, if_false, List.filter_cons, h.1, Bool.false_eq_true, ih h.2]

theorem filter_other_map {V : Type} (m : List (String × V)) (key : String) (v : V) :
    (m.map (fun e => if e.1 == key then (key, v) else e)).filter (fun e => e.1 != key)
      = m.filter (fun e => e.1 != key) := by
  induction m with
  | nil => rfl
  | cons e rest ih =>
    by_cases he : e.1 = key
    · simpa [List.filter_cons, he] using ih
    · simpa [List.filter_cons, he] using ih

theorem filter_key_nil_of_not_mem {V : Type} (m : List (String × V)) (key : String)
    (h : key ∉ m.map Prod.fst) : m.filter (fun e => e.1 == key) = [] := by
  rw [List.filter_eq_nil_iff]
  intro x hx hk
  apply h
  have : x.1 = key := by simpa using hk
  rw [← this]
  exact List.mem_map_of_mem Prod.fst hx

theorem filter_key_map {V : Type} (m : List (String × V)) (key : String) (v : V)
    (hwf : WF m) (h : m.any (fun e => e.1 == key) = true) :
    (m.map (fun e => if e.1 == key then (key, v) else e)).filter (fun e => e.1 == key)
      = [(key, v)] := by
  induction m with
  | nil => simp at h
  | cons e rest ih =>
    have hnd : (e.1 :: rest.map Prod.fst).Nodup := hwf
    rw [List.nodup_cons] at hnd
    by_cases he : e.1 == key
    · have hk : e.1 = key := by simpa using he
      have hnot : key ∉ rest.map Prod.fst := by
        rw [← hk]
        exact hnd.1
      have hrest : (rest.map (fun e => if e.1 == key then (key, v) else e)).filter
          (fun e => e.1 == key) = [] := by
        rw [List.filter_eq_nil_iff]
        intro x hx hxk
        obtain ⟨y, hy, hyx⟩ := List.mem_map.mp hx
        by_cases hyk : y.1 == key
        · apply hnot
          have : y.1 = key := by simpa using hyk
          rw [← this]
          exact List.mem_map_of_mem Prod.fst hy
        · rw [if_neg hyk] at hyx
          rw [← hyx] at hxk
          exact hyk hxk
      simpa [List.filter_cons, hk] using hrest
    · have hany : rest.any (fun e => e.1 == key) = true := by
        simpa [List.any_cons, he] using h
      simp only [List.map_cons, he, Bool.false_eq_true, if_false, List.filter_cons]
      exact ih hnd.2 hany

/-- After the assignment `m[key] = v` the map holds one entry under the key, with the
value assigned. -/
theorem filter_key_insert {V : Type} (m : List (String × V)) (key : String) (v : V)
    (hwf : WF m) : (insert m key v).filter (fun e => e.1 == key) = [(key, v)] := by
  unfold insert
  cases h : m.any (fun e => e.1 == key)
  · simp only [Bool.false_eq_true, if_false]
    exact filter_key_insertNew m key v h
  · simp only [if_true]
    exact filter_key_map m key v hwf h

/-- The assignment `m[key] = v` leaves the entries under the other keys as they are, in
their order. -/
theorem filter_other_insert {V : Type} (m : List (String × V)) (key : String) (v : V) :
    (insert m key v).filter (fun e => e.1 != key) = m.filter (fun e => e.1 != key) := by
  unfold insert
  cases h : m.any (fun e => e.1 == key)
  · simp only [Bool.false_eq_true, if_false]
    exact filter_other_insertNew m key v
  · simp only [if_true]
    exact filter_other_map m key v

/-- The removal of a key leaves the entries under the other keys as they are, in their
order. -/
theorem filter_other_erase {V : Type} (m : List (String × V)) (key : String) :
    (erase m key).filter (fun e => e.1 != key) = m.filter (fun e => e.1 != key) := by
  unfold erase
  induction m with
  | nil => rfl
  | cons e rest ih =>
    by_cases he : e.1 == key
    · have hk : e.1 = key := by simpa using he
      simp [List.eraseP_cons, List.filter_cons, hk]
    · simp only [List.eraseP_cons, he, cond_false, List.filter_cons, ih]

/-- After the removal of a key the map holds no entry under it. -/
theorem filter_key_erase {V : Type} (m : List (String × V)) (key : String) (hwf : WF m) :
    (erase m key).filter (fun e => e.1 == key) = [] := by
  unfold erase
  induction m with
  | nil => rfl
  | cons e rest ih =>
    have hnd : (e.1 :: rest.map Prod.fst).Nodup := hwf
    rw [List.nodup_cons] at hnd
    by_cases he : e.1 == key
    · have hk : e.1 = key := by simpa using he
      simp only [List.eraseP_cons, he, cond_true]
      apply filter_key_nil_of_not_mem
      rw [← hk]
      exact hnd.1
    · simp only [List.eraseP_cons, he, cond_false, List.filter_cons, Bool.false_eq_true,
        if_false]
      exact ih hnd.2

/-- The removal of a key leaves what is found under every other key. -/
theorem find_erase_other {V : Type} (m : List (String × V)) (key other : String)
    (h : other ≠ key) : find (erase m key) other = find m other := by
  unfold erase
  induction m with
  | nil => rfl
  | cons e rest ih =>
    by_cases he : e.1 == key
    · have hk : e.1 = key := by simpa using he
      have hne : (e.1 == other) = false := by
        simp only [beq_eq_false_iff_ne, ne_eq, hk]
        exact fun h2 => h h2.symm
      simp only [List.eraseP_cons, he, cond_true]
      rw [find_cons, hne]
      simp
    · simp only [List.eraseP_cons, he, cond_false]
      rw [find_cons, find_cons, ih]

theorem mem_of_mem_filter_other {V : Type} (m m2 : List (String × V)) (key : String)
    (h : m2.filter (fun e => e.1 != key) = m.filter (fun e => e.1 != key))
    (e : String × V) (he : e ∈ m2) (hk : e.1 ≠ key) : e ∈ m := by
  have hin : e ∈ m2.filter (fun e => e.1 != key) :=
    List.mem_filter.mpr ⟨he, by simpa using hk⟩
  rw [h] at hin
  exact (List.mem_filter.mp hin).1

end StdMap

namespace Client

/-- The entries of a handler table a stanza matches, when it matches the namespace `ns`
and none of the other keys: those under `ns`. -/
theorem filter_matching_eq (stanza : Stanza) (table : List (String × IqHandler)) (ns : String)
    (hmatch : stanza.hasChildWithAttrib "xmlns" ns = true)
    (honly : ∀ e ∈ table, e.1 ≠ ns → stanza.hasChildWithAttrib "xmlns" e.1 = false) :
    table.filter (fun e => stanza.hasChildWithAttrib "xmlns" e.1)
      = table.filter (fun e => e.1 == ns) := by
  apply List.filter_congr
  intro e he
  by_cases hk : e.1 = ns
  · simp [hk, hmatch]
  · have hne : (e.1 == ns) = false := by simpa using hk
    rw [honly e he hk, hne]

theorem connect_eq (fresh : Connection) (c : Client) (h : c.m_jid.server ≠ "") :
    connect fresh c = (true,
      { c with
        hasParser := true,
        m_connection := some (c.m_connection.getD fresh),
        events := c.events ++ [Event.connect] ++
          (if (c.m_connection.getD fresh).connectResult = ConnectionState.STATE_CONNECTED then
            [Event.sendXml (streamHeader c), Event.receive] else []) }) := by
  unfold connect
  have hs : (c.m_jid.server == "") = false := by simpa using h
  simp only [hs, Bool.false_eq_true, if_false]
  cases hp : c.hasParser <;>
    cases hr : ((c.m_connection.getD fresh).connectResult == ConnectionState.STATE_CONNECTED)
  all_goals
    have hr2 := hr
    simp only [beq_eq_false_iff_ne, beq_iff_eq, ne_eq] at hr2
    simp [hr2, header_eq, sendXml, emit, streamHeader, hp]

/-- A result IQ with id bind that has no bind child, or whose bind child has no jid
child, makes processResourceBind dereference a null pointer. -/
theorem processResourceBind_null (stanza : Stanza) (c : Client)
    (hkind : stanza.m_subtype = StanzaSubType.STANZA_IQ_RESULT)
    (h : stanza.findChild "bind" = none
      ∨ ∃ bind, stanza.findChild "bind" = some bind ∧ bind.findChild "jid" = none) :
    processResourceBind stanza c = none := by
  unfold processResourceBind
  rcases h with h | ⟨bind, h1, h2⟩
  · simp [hkind, h]
  · simp [hkind, h1, h2]

theorem notifyOnConnect_replicate (cl : ConnectionListener) (n : Nat) (c : Client) :
    ((List.replicate n cl).foldl (fun acc h => registerConnectionListener h acc)
        c).m_connectionListeners
      = c.m_connectionListeners ++ List.replicate n cl := by
  induction n generalizing c with
  | zero => simp
  | succ k ih =>
    rw [List.replicate_succ, List.foldl_cons, ih]
    simp [registerConnectionListener, List.replicate_succ]

theorem messageHandlers_replicate (mh : MessageHandler) (n : Nat) (c : Client) :
    ((List.replicate n mh).foldl (fun acc h => registerMessageHandler h acc)
        c).m_messageHandlers
      = c.m_messageHandlers ++ List.replicate n mh := by
  induction n generalizing c with
  | zero => simp
  | succ k ih =>
    rw [List.replicate_succ, List.foldl_cons, ih]
    simp [registerMessageHandler, List.replicate_succ]

theorem presenceHandlers_replicate (ph : PresenceHandler) (n : Nat) (c : Client) :
    ((List.replicate n ph).foldl (fun acc h => registerPresenceHandler h acc)
        c).m_presenceHandlers
      = c.m_presenceHandlers ++ List.replicate n ph := by
  induction n generalizing c with
  | zero => simp
  | succ k ih =>
    rw [List.replicate_succ, List.foldl_cons, ih]
    simp [registerPresenceHandler, List.replicate_succ]

theorem subscriptionHandlers_replicate (sh : SubscriptionHandler) (n : Nat) (c : Client) :
    ((List.replicate n sh).foldl (fun acc h => registerSubscriptionHandler h acc)
        c).m_subscriptionHandlers
      = c.m_subscriptionHandlers ++ List.replicate n sh := by
  induction n generalizing c with
  | zero => simp
  | succ k ih =>
    rw [List.replicate_succ, List.foldl_cons, ih]
    simp [registerSubscriptionHandler, List.replicate_succ]

end Client

namespace DataFormFieldContainer

theorem fieldLoop_eq (field : String) (fields : List DataFormField) :
    fieldLoop field fields = fields.dropWhile (fun f => f.name != field) := by
  induction fields with
  | nil => rfl
  | cons f rest ih =>
    unfold fieldLoop
    by_cases h : (f.name != field) = true
    · simp [h, ih, List.dropWhile_cons]
    · simp [h, List.dropWhile_cons]

theorem field_eq_find (d : DataFormFieldContainer) (field : String) :
    d.field field = d.m_fields.find? (fun f => f.name == field) := by
  unfold DataFormFieldContainer.field
  induction d.m_fields with
  | nil => rfl
  | cons f rest ih =>
    unfold fieldLoop
    by_cases h : f.name = field
    · simp [h, List.find?_cons]
    · have hne : (f.name != field) = true := by simpa using h
      have hbeq : (f.name == field) = false := by simpa using h
      simp only [hne, if_true, List.find?_cons, hbeq]
      exact ih

end DataFormFieldContainer

namespace FlexibleOffline

theorem foldl_items (msgs : List String) (o : Tag) :
    msgs.foldl
        (fun o msg =>
          Tag.addChild o
            (Tag.addAttribute (Tag.addAttribute (Tag.new "item" "") "action" "view") "node" msg))
        o
      = { o with
          m_children := o.m_children ++
            msgs.map (fun msg =>
              { m_name := "item", m_attribs := [("action", "view"), ("node", msg)],
                m_children := [], m_cdata := "" }) } := by
  induction msgs generalizing o with
  | nil =>
    cases o
    simp
  | cons m rest ih =>
    rw [List.foldl_cons, ih]
    simp [Tag.addChild, Tag.addAttribute, Tag.new]

/-- The element fetchMessages builds next to the IQ. -/
theorem offline_eq (msgs : List String) :
    offline msgs =
      { m_name := "offline", m_attribs := [("xmlns", XMLNS_OFFLINE)],
        m_children :=
          if msgs = [] then [{ m_name := "fetch", m_attribs := [], m_children := [],
                               m_cdata := "" }]
          else msgs.map (fun msg =>
            { m_name := "item", m_attribs := [("action", "view"), ("node", msg)],
              m_children := [], m_cdata := "" }),
        m_cdata := "" } := by
  unfold offline
  cases msgs with
  | nil => simp [Tag.addChild, Tag.addAttribute, Tag.new]
  | cons m rest =>
    simp only [List.length_cons, Nat.add_one_ne_zero, beq_iff_eq, if_false]
    rw [foldl_items]
    simp [Tag.addAttribute, Tag.new]

/-- What fetchMessages does on a client with a connection: the id is tracked, then the
IQ is sent, and the IQ has no child. -/
theorem fetchMessages_eq (self : IqHandler) (msgs : List String) (c : Client)
    (conn : Connection) (hconn : c.m_connection = some conn) :
    fetchMessages self msgs c = (offline msgs,
      { c with
        m_idCount := c.m_idCount + 1,
        m_iqIDHandlers := StdMap.insert c.m_iqIDHandlers ("uid" ++ toString (c.m_idCount + 1))
          { ih := self, context := FO_REQUEST_MSGS },
        events := c.events ++
          [Event.send
            { m_name := "iq",
              m_attribs := [("type", "get"), ("id", "uid" ++ toString (c.m_idCount + 1))],
              m_children := [], m_cdata := "" }] }) := by
  simp [fetchMessages, Client.getID, Client.trackID, Client.send, Client.emit, hconn,
    Tag.addAttribute, Tag.new]

end FlexibleOffline

namespace Client

theorem messageHandlers_events (mh : MessageHandler) (n : Nat) (c : Client) :
    ((List.replicate n mh).foldl (fun acc h => registerMessageHandler h acc) c).events
      = c.events := by
  induction n generalizing c with
  | zero => rfl
  | succ j ih =>
    rw [List.replicate_succ, List.foldl_cons, ih]
    rfl

theorem presenceHandlers_events (ph : PresenceHandler) (n : Nat) (c : Client) :
    ((List.replicate n ph).foldl (fun acc h => registerPresenceHandler h acc) c).events
      = c.events := by
  induction n generalizing c with
  | zero => rfl
  | succ j ih =>
    rw [List.replicate_succ, List.foldl_cons, ih]
    rfl

theorem subscriptionHandlers_events (sh : SubscriptionHandler) (n : Nat) (c : Client) :
    ((List.replicate n sh).foldl (fun acc h => registerSubscriptionHandler h acc) c).events
      = c.events := by
  induction n generalizing c with
  | zero => rfl
  | succ j ih =>
    rw [List.replicate_succ, List.foldl_cons, ih]
    rfl

theorem connectionListeners_events (cl : ConnectionListener) (n : Nat) (c : Client) :
    ((List.replicate n cl).foldl (fun acc h => registerConnectionListener h acc) c).events
      = c.events := by
  induction n generalizing c with
  | zero => rfl
  | succ j ih =>
    rw [List.replicate_succ, List.foldl_cons, ih]
    rfl

end Client

namespace DataFormFieldContainer

/-- The field found first stands behind fields of other names only. -/
theorem find_split (fields : List DataFormField) (name : String) (f : DataFormField)
    (h : fields.find? (fun f => f.name == name) = some f) :
    ∃ before after, fields = before ++ f :: after ∧ ∀ g ∈ before, g.name ≠ name := by
  induction fields with
  | nil => simp at h
  | cons x rest ih =>
    by_cases hx : x.name = name
    · have hxf : x = f := by simpa [List.find?_cons, hx] using h
      exact ⟨[], rest, by simp [hxf], fun g hg => absurd hg (List.not_mem_nil g)⟩
    · have hrest : rest.find? (fun f => f.name == name) = some f := by
        simpa [List.find?_cons, hx] using h
      obtain ⟨before, after, hsplit, hbefore⟩ := ih hrest
      refine ⟨x :: before, after, by simp [hsplit], ?_⟩
      intro g hg
      rcases List.mem_cons.mp hg with hg | hg
      · rw [hg]
        exact hx
      · exact hbefore g hg

end DataFormFieldContainer

/-! ## Stream negotiation: claims -/

/-- C1: a stream:features element with a starttls child in the TLS namespace, received
while TLS is enabled and available and the connection is not secure, makes
handleNormalNode request STARTTLS and return true; nothing else is done for the
advertisement, whatever else it advertises: the client differs only in the stored
feature set and in the one recorded STARTTLS request. -/
theorem C1_starttls_first (b : Build) (stanza : Stanza) (c : Client) (conn : Connection)
    (hname : stanza.name = "stream:features")
    (hchild : stanza.hasChild "starttls" "xmlns" XMLNS_STREAM_TLS = true)
    (htls : c.tls = true) (hhas : Client.hasTls b = true)
    (hconn : c.m_connection = some conn) (hsec : conn.isSecure = false) :
    ∃ features, Client.getStreamFeatures stanza.toTag = some features ∧
      Client.handleNormalNode b stanza c = some (true,
        { c with m_streamFeatures := features, events := c.events ++ [Event.startTls] }) := by
  obtain ⟨f, hf, hbit⟩ := Client.getStreamFeatures_starttls stanza.toTag hname hchild
  refine ⟨f, hf, ?_⟩
  rw [Client.handleNormalNode_features b stanza c conn f hname hf hconn]
  have hb : b.HAVE_TLS = true := hhas
  simp [Client.startTlsApplies, Client.hasTls, hb, htls, hsec, hbit, Client.startTls, Client.emit]

/-- C1 at a sample advertisement of starttls, PLAIN and legacy auth. -/
theorem C1_starttls_first_witness :
    ∃ features, Client.getStreamFeatures
        (Sample.features [Sample.starttls, Sample.mechanisms ["PLAIN"], Sample.iqauth]).toTag
          = some features ∧
      Client.handleNormalNode Sample.build
        (Sample.features [Sample.starttls, Sample.mechanisms ["PLAIN"], Sample.iqauth])
        Sample.client = some (true,
        { Sample.client with m_streamFeatures := features,
                             events := Sample.client.events ++ [Event.startTls] }) :=
  C1_starttls_first Sample.build
    (Sample.features [Sample.starttls, Sample.mechanisms ["PLAIN"], Sample.iqauth])
    Sample.client Sample.conn rfl (by decide) rfl rfl rfl rfl

/-- C2, as stated, fails: an element whose only content is a mechanisms list with no
supported mechanism has no recognised feature, so its feature set is IqAuth, and the
client with SASL enabled and a username and password starts the legacy IQ login; it
does not disconnect. -/
theorem C2_counterexample :
    Client.getSaslMechs (Sample.mechanisms ["X-OAUTH2"]) = 0 ∧
    Client.rawFeatures (Sample.features [Sample.mechanisms ["X-OAUTH2"]]).toTag = 0 ∧
    Sample.client.sasl = true ∧ Sample.client.username = "u" ∧ Sample.client.password = "p" ∧
    Client.handleNormalNode Sample.build (Sample.features [Sample.mechanisms ["X-OAUTH2"]])
      Sample.client = some (true,
        { Sample.client with m_streamFeatures := STREAM_FEATURE_IQAUTH,
                             events := [Event.nonSaslLogin] }) :=
  ⟨by decide, by decide, rfl, rfl, rfl, rfl⟩

/-- C2, amended: an advertisement that reaches the authentication step and whose
feature set contains none of DIGEST-MD5, PLAIN, ANONYMOUS, EXTERNAL and not IqAuth,
received with SASL enabled, authentication requested, the client not authenticated,
legacy authentication not forced and a username and password configured, makes
handleNormalNode disconnect with ConnNoSupportedAuth; no stanza is sent and no
authentication is started. -/
theorem C2_no_supported_auth (b : Build) (stanza : Stanza) (c : Client) (conn : Connection)
    (features : Nat) (hname : stanza.name = "stream:features")
    (hf : Client.getStreamFeatures stanza.toTag = some features)
    (hconn : c.m_connection = some conn)
    (hreach : Client.reachesAuthStep b c conn features = true)
    (hsasl : c.sasl = true) (hauthed : c.m_authed = false) (hdo : c.m_doAuth = true)
    (hforce : c.m_forceNonSasl = false) (huser : c.username ≠ "") (hpass : c.password ≠ "")
    (hdigest : hasFeature features STREAM_FEATURE_SASL_DIGESTMD5 = false)
    (hplain : hasFeature features STREAM_FEATURE_SASL_PLAIN = false)
    (_hanon : hasFeature features STREAM_FEATURE_SASL_ANONYMOUS = false)
    (_hext : hasFeature features STREAM_FEATURE_SASL_EXTERNAL = false)
    (hiq : hasFeature features STREAM_FEATURE_IQAUTH = false) :
    Client.handleNormalNode b stanza c = some (true,
      { c with m_streamFeatures := features,
               events := c.events ++ Client.compressionProbe b features ++
                 [Event.setState ConnectionError.ConnNoSupportedAuth, Event.disconnect] }) := by
  rw [Client.handleNormalNode_authStep b stanza c conn features hname hf hconn hreach]
  simp only [Client.sasl, Client.username, Client.password] at hsasl huser hpass
  simp [Client.authStep, Client.sasl, Client.username, Client.password, Client.disconnect,
    Client.emit, hsasl, hauthed, hdo, hforce, huser, hpass, hdigest, hplain, hiq, hconn]

/-- C2, amended, at a sample advertisement of an unsupported mechanism and Bind. -/
theorem C2_no_supported_auth_witness :
    Client.handleNormalNode Sample.build
      (Sample.features [Sample.mechanisms ["X-OAUTH2"], Sample.bind]) Sample.client
      = some (true,
        { Sample.client with
            m_streamFeatures := STREAM_FEATURE_BIND,
            events := Sample.client.events ++
              Client.compressionProbe Sample.build STREAM_FEATURE_BIND ++
              [Event.setState ConnectionError.ConnNoSupportedAuth, Event.disconnect] }) :=
  C2_no_supported_auth Sample.build
    (Sample.features [Sample.mechanisms ["X-OAUTH2"], Sample.bind]) Sample.client Sample.conn
    STREAM_FEATURE_BIND rfl (by decide) rfl (by decide) rfl rfl rfl rfl (by decide) (by decide)
    (by decide) (by decide) (by decide) (by decide) (by decide)

/-- C3: with SASL disabled, an advertisement that reaches the authentication step
starts the legacy IQ login, and no SASL mechanism, when its feature set contains
IqAuth, whichever SASL mechanisms it also contains; when IqAuth is absent the client
disconnects with ConnNoSupportedAuth instead. -/
theorem C3_sasl_disabled (b : Build) (stanza : Stanza) (c : Client) (conn : Connection)
    (features : Nat) (hname : stanza.name = "stream:features")
    (hf : Client.getStreamFeatures stanza.toTag = some features)
    (hconn : c.m_connection = some conn)
    (hreach : Client.reachesAuthStep b c conn features = true)
    (hsasl : c.sasl = false) :
    Client.handleNormalNode b stanza c = some (true,
      { c with m_streamFeatures := features,
               events := c.events ++ Client.compressionProbe b features ++
                 (if hasFeature features STREAM_FEATURE_IQAUTH then [Event.nonSaslLogin]
                  else [Event.setState ConnectionError.ConnNoSupportedAuth,
                        Event.disconnect]) }) := by
  rw [Client.handleNormalNode_authStep b stanza c conn features hname hf hconn hreach]
  simp only [Client.sasl] at hsasl
  cases hiq : hasFeature features STREAM_FEATURE_IQAUTH <;>
    simp [Client.authStep, Client.sasl, Client.disconnect, Client.nonSaslLogin, Client.emit,
      hsasl, hiq, hconn]

/-- C3 at a sample advertisement of DIGEST-MD5, PLAIN and legacy auth. -/
theorem C3_sasl_disabled_witness :
    Client.handleNormalNode Sample.build
      (Sample.features [Sample.mechanisms ["DIGEST-MD5", "PLAIN"], Sample.iqauth])
      { Sample.client with m_sasl := false }
      = some (true,
        { Sample.client with
            m_sasl := false,
            m_streamFeatures := 134,
            events := Sample.client.events ++ Client.compressionProbe Sample.build 134 ++
              (if hasFeature 134 STREAM_FEATURE_IQAUTH then [Event.nonSaslLogin]
               else [Event.setState ConnectionError.ConnNoSupportedAuth,
                     Event.disconnect]) }) :=
  C3_sasl_disabled Sample.build
    (Sample.features [Sample.mechanisms ["DIGEST-MD5", "PLAIN"], Sample.iqauth])
    { Sample.client with m_sasl := false } Sample.conn 134 rfl (by decide) rfl (by decide) rfl

/-- C4, as stated, fails in its last sentence: for the client with SASL enabled,
authentication requested, not authenticated, a username and password and legacy
authentication not forced, an advertisement of ANONYMOUS alone starts no mechanism
at all; the client disconnects. -/
theorem C4_counterexample :
    Sample.client.sasl = true ∧ Sample.client.m_doAuth = true ∧
    Sample.client.m_authed = false ∧ Sample.client.m_forceNonSasl = false ∧
    Client.reachesAuthStep Sample.build Sample.client Sample.conn
      STREAM_FEATURE_SASL_ANONYMOUS = true ∧
    Client.handleNormalNode Sample.build (Sample.features [Sample.mechanisms ["ANONYMOUS"]])
      Sample.client = some (true,
        { Sample.client with
            m_streamFeatures := STREAM_FEATURE_SASL_ANONYMOUS,
            events := [Event.setState ConnectionError.ConnNoSupportedAuth,
                       Event.disconnect] }) ∧
    ([Event.setState ConnectionError.ConnNoSupportedAuth, Event.disconnect].filter
      Event.isAuthStart).length = 0 :=
  ⟨rfl, rfl, rfl, rfl, by decide, rfl, rfl⟩

/-- C4, amended: for an advertisement that reaches the authentication step with SASL
enabled, authentication requested, the client not authenticated, a non-empty username
and password and legacy authentication not forced, DIGEST-MD5 is started whenever it
is advertised, PLAIN exactly when it is advertised and DIGEST-MD5 is not, the legacy
IQ login exactly when neither is advertised and IqAuth is; at most one mechanism is
started, and none when none of the three is advertised: the client then disconnects
with ConnNoSupportedAuth. -/
theorem C4_mechanism_priority (b : Build) (stanza : Stanza) (c : Client) (conn : Connection)
    (features : Nat) (hname : stanza.name = "stream:features")
    (hf : Client.getStreamFeatures stanza.toTag = some features)
    (hconn : c.m_connection = some conn)
    (hreach : Client.reachesAuthStep b c conn features = true)
    (hsasl : c.sasl = true) (hauthed : c.m_authed = false) (hdo : c.m_doAuth = true)
    (hforce : c.m_forceNonSasl = false) (huser : c.username ≠ "") (hpass : c.password ≠ "") :
    Client.handleNormalNode b stanza c = some (true,
      { c with m_streamFeatures := features,
               events := c.events ++ Client.compressionProbe b features ++
                 (if hasFeature features STREAM_FEATURE_SASL_DIGESTMD5 then
                    [Event.startSASL SaslMechanisms.SaslDigestMd5]
                  else if hasFeature features STREAM_FEATURE_SASL_PLAIN then
                    [Event.startSASL SaslMechanisms.SaslPlain]
                  else if hasFeature features STREAM_FEATURE_IQAUTH then
                    [Event.nonSaslLogin]
                  else [Event.setState ConnectionError.ConnNoSupportedAuth,
                        Event.disconnect]) }) := by
  rw [Client.handleNormalNode_authStep b stanza c conn features hname hf hconn hreach]
  simp only [Client.sasl, Client.username, Client.password] at hsasl huser hpass
  cases hd : hasFeature features STREAM_FEATURE_SASL_DIGESTMD5 <;>
    cases hp : hasFeature features STREAM_FEATURE_SASL_PLAIN <;>
    cases hiq : hasFeature features STREAM_FEATURE_IQAUTH <;>
    simp [Client.authStep, Client.sasl, Client.username, Client.password, Client.disconnect,
      Client.startSASL, Client.nonSaslLogin, Client.emit, hsasl, hauthed, hdo, hforce, huser,
      hpass, hd, hp, hiq, hconn]

/-- C4, amended, at a sample advertisement of PLAIN and legacy auth. -/
theorem C4_mechanism_priority_witness :
    Client.handleNormalNode Sample.build
      (Sample.features [Sample.mechanisms ["PLAIN"], Sample.iqauth]) Sample.client
      = some (true,
        { Sample.client with
            m_streamFeatures := 132,
            events := Sample.client.events ++ Client.compressionProbe Sample.build 132 ++
              (if hasFeature 132 STREAM_FEATURE_SASL_DIGESTMD5 then
                 [Event.startSASL SaslMechanisms.SaslDigestMd5]
               else if hasFeature 132 STREAM_FEATURE_SASL_PLAIN then
                 [Event.startSASL SaslMechanisms.SaslPlain]
               else if hasFeature 132 STREAM_FEATURE_IQAUTH then
                 [Event.nonSaslLogin]
               else [Event.setState ConnectionError.ConnNoSupportedAuth,
                     Event.disconnect]) }) :=
  C4_mechanism_priority Sample.build
    (Sample.features [Sample.mechanisms ["PLAIN"], Sample.iqauth]) Sample.client Sample.conn
    132 rfl (by decide) rfl (by decide) rfl rfl rfl rfl (by decide) (by decide)

/-- C5, as stated, fails. With a username and password configured next to the client
certificate and key, an advertisement of EXTERNAL alone starts no SASL EXTERNAL: the
client disconnects. On a client that is already authenticated the same advertisement
starts nothing. -/
theorem C5_counterexample :
    (Sample.certClient.sasl = true ∧ Sample.certClient.m_doAuth = true ∧
      Sample.certClient.m_clientCerts = ["cert.pem"] ∧
      Sample.certClient.m_clientKey = "key.pem" ∧
      Client.reachesAuthStep Sample.build Sample.certClient Sample.conn
        STREAM_FEATURE_SASL_EXTERNAL = true ∧
      Client.handleNormalNode Sample.build (Sample.features [Sample.mechanisms ["EXTERNAL"]])
        Sample.certClient
        = some (true,
          { Sample.certClient with
              m_streamFeatures := STREAM_FEATURE_SASL_EXTERNAL,
              events := [Event.setState ConnectionError.ConnNoSupportedAuth,
                         Event.disconnect] })) ∧
    Client.handleNormalNode Sample.build (Sample.features [Sample.mechanisms ["EXTERNAL"]])
      { Sample.certClient with m_jid := { m_server := "d" }, m_password := "",
                               m_authed := true }
      = some (true,
        { Sample.certClient with
            m_jid := { m_server := "d" }, m_password := "", m_authed := true,
            m_streamFeatures := STREAM_FEATURE_SASL_EXTERNAL, events := [] }) :=
  ⟨⟨rfl, rfl, rfl, rfl, by decide, rfl⟩, rfl⟩

/-- C5, amended: for an advertisement that reaches the authentication step with SASL
enabled, authentication requested, the client not authenticated, a client certificate
and key configured, the username or the password empty, EXTERNAL advertised and
neither DIGEST-MD5 nor PLAIN advertised, handleNormalNode starts SASL EXTERNAL, also
when ANONYMOUS or IqAuth is advertised as well. -/
theorem C5_external (b : Build) (stanza : Stanza) (c : Client) (conn : Connection)
    (features : Nat) (hname : stanza.name = "stream:features")
    (hf : Client.getStreamFeatures stanza.toTag = some features)
    (hconn : c.m_connection = some conn)
    (hreach : Client.reachesAuthStep b c conn features = true)
    (hsasl : c.sasl = true) (hauthed : c.m_authed = false) (hdo : c.m_doAuth = true)
    (hcerts : c.m_clientCerts ≠ []) (hkey : c.m_clientKey ≠ "")
    (hcred : c.username = "" ∨ c.password = "")
    (hext : hasFeature features STREAM_FEATURE_SASL_EXTERNAL = true)
    (_hdigest : hasFeature features STREAM_FEATURE_SASL_DIGESTMD5 = false)
    (_hplain : hasFeature features STREAM_FEATURE_SASL_PLAIN = false) :
    Client.handleNormalNode b stanza c = some (true,
      { c with m_streamFeatures := features,
               events := c.events ++ Client.compressionProbe b features ++
                 [Event.startSASL SaslMechanisms.SaslExternal] }) := by
  rw [Client.handleNormalNode_authStep b stanza c conn features hname hf hconn hreach]
  simp only [Client.sasl, Client.username, Client.password] at hsasl hcred
  have hne : c.m_clientCerts.isEmpty = false := by
    cases hc : c.m_clientCerts with
    | nil => exact absurd hc hcerts
    | cons _ _ => rfl
  rcases hcred with hu | hp
  · simp [Client.authStep, Client.sasl, Client.username, Client.password, Client.startSASL,
      Client.emit, hsasl, hauthed, hdo, hu, hne, hkey, hext]
  · simp [Client.authStep, Client.sasl, Client.username, Client.password, Client.startSASL,
      Client.emit, hsasl, hauthed, hdo, hp, hne, hkey, hext]

/-- C5, amended, at a sample advertisement of EXTERNAL, ANONYMOUS and legacy auth, for
a client with a certificate and no password. -/
theorem C5_external_witness :
    Client.handleNormalNode Sample.build
      (Sample.features [Sample.mechanisms ["EXTERNAL", "ANONYMOUS"], Sample.iqauth])
      { Sample.certClient with m_password := "" }
      = some (true,
        { Sample.certClient with
            m_password := "",
            m_streamFeatures := 152,
            events := Sample.certClient.events ++ Client.compressionProbe Sample.build 152 ++
              [Event.startSASL SaslMechanisms.SaslExternal] }) :=
  C5_external Sample.build
    (Sample.features [Sample.mechanisms ["EXTERNAL", "ANONYMOUS"], Sample.iqauth])
    { Sample.certClient with m_password := "" }
    Sample.conn 152 rfl (by decide) rfl (by decide) rfl rfl rfl (by decide) (by decide)
    (Or.inr rfl) (by decide) (by decide) (by decide)

/-- C6, as stated, fails. With legacy authentication forced and authentication
requested, a not authenticated client without a password answers an advertisement of
ANONYMOUS by starting SASL ANONYMOUS; and with SASL disabled it answers an
advertisement without IqAuth by disconnecting. -/
theorem C6_counterexample :
    Client.handleNormalNode Sample.build (Sample.features [Sample.mechanisms ["ANONYMOUS"]])
      { Sample.client with m_forceNonSasl := true, m_password := "" }
      = some (true,
        { Sample.client with
            m_forceNonSasl := true, m_password := "",
            m_streamFeatures := STREAM_FEATURE_SASL_ANONYMOUS,
            events := [Event.startSASL SaslMechanisms.SaslAnonymous] }) ∧
    Client.handleNormalNode Sample.build (Sample.features [Sample.mechanisms ["PLAIN"]])
      { Sample.client with m_forceNonSasl := true, m_sasl := false }
      = some (true,
        { Sample.client with
            m_forceNonSasl := true, m_sasl := false,
            m_streamFeatures := STREAM_FEATURE_SASL_PLAIN,
            events := [Event.setState ConnectionError.ConnNoSupportedAuth,
                       Event.disconnect] }) :=
  ⟨rfl, rfl⟩

/-- C6, amended: whenever legacy authentication is forced and authentication is
requested, an advertisement that reaches the authentication step of a not
authenticated client starts the legacy IQ login and no SASL mechanism, whatever
mechanisms are advertised, provided SASL is enabled and the username and password are
non-empty, or SASL is disabled and IqAuth is advertised. -/
theorem C6_forced_legacy (b : Build) (stanza : Stanza) (c : Client) (conn : Connection)
    (features : Nat) (hname : stanza.name = "stream:features")
    (hf : Client.getStreamFeatures stanza.toTag = some features)
    (hconn : c.m_connection = some conn)
    (hreach : Client.reachesAuthStep b c conn features = true)
    (hforce : c.m_forceNonSasl = true) (hdo : c.m_doAuth = true) (hauthed : c.m_authed = false)
    (hcase : (c.sasl = true ∧ c.username ≠ "" ∧ c.password ≠ "") ∨
      (c.sasl = false ∧ hasFeature features STREAM_FEATURE_IQAUTH = true)) :
    Client.handleNormalNode b stanza c = some (true,
      { c with m_streamFeatures := features,
               events := c.events ++ Client.compressionProbe b features ++
                 [Event.nonSaslLogin] }) := by
  rw [Client.handleNormalNode_authStep b stanza c conn features hname hf hconn hreach]
  simp only [Client.sasl, Client.username, Client.password] at hcase
  rcases hcase with ⟨hsasl, huser, hpass⟩ | ⟨hsasl, hiq⟩
  · simp [Client.authStep, Client.sasl, Client.username, Client.password, Client.nonSaslLogin,
      Client.emit, hsasl, hauthed, hdo, hforce, huser, hpass]
  · simp [Client.authStep, Client.sasl, Client.nonSaslLogin, Client.emit, hsasl, hiq]

/-- C6, amended, at a sample advertisement of DIGEST-MD5 and PLAIN without IqAuth. -/
theorem C6_forced_legacy_witness :
    Client.handleNormalNode Sample.build
      (Sample.features [Sample.mechanisms ["DIGEST-MD5", "PLAIN"]])
      { Sample.client with m_forceNonSasl := true }
      = some (true,
        { Sample.client with
            m_forceNonSasl := true,
            m_streamFeatures := 6,
            events := Sample.client.events ++ Client.compressionProbe Sample.build 6 ++
              [Event.nonSaslLogin] }) :=
  C6_forced_legacy Sample.build (Sample.features [Sample.mechanisms ["DIGEST-MD5", "PLAIN"]])
    { Sample.client with m_forceNonSasl := true } Sample.conn 6 rfl (by decide) rfl (by decide)
    rfl rfl rfl (Or.inl ⟨rfl, by decide, by decide⟩)

/-! ## Stanza dispatch: claims -/

/-- C7: an id-tracked IQ handler is invoked at most once per trackID registration.
After trackID( ih, id, context ) on a client whose tracking table has unique keys, the
table holds the handler and context under the id; the dispatch of an IQ with that id
invokes the stored handler once, with the stanza and the stored context, and removes
the entry; the dispatch of a second IQ with the same id invokes no id-tracked
handler. Handlers are taken not to call back into the client. -/
theorem C7_tracked_handler_once (c : Client) (ih : IqHandler) (id : String) (context : Int)
    (first second : Stanza) (hwf : StdMap.WF c.m_iqIDHandlers)
    (hfirst : first.m_id = id) (hsecond : second.m_id = id) :
    StdMap.find (Client.trackID ih id context c).m_iqIDHandlers id
        = some { ih := ih, context := context } ∧
      idCalls (Client.notifyIqHandlers first (Client.trackID ih id context c)).events
        = idCalls c.events ++ [(ih.ptr, first, context)] ∧
      StdMap.find
        (Client.notifyIqHandlers first (Client.trackID ih id context c)).m_iqIDHandlers id
          = none ∧
      idCalls (Client.notifyIqHandlers second
          (Client.notifyIqHandlers first (Client.trackID ih id context c))).events
        = idCalls (Client.notifyIqHandlers first (Client.trackID ih id context c)).events := by
  have hwf2 : StdMap.WF (Client.trackID ih id context c).m_iqIDHandlers :=
    StdMap.WF_insert _ _ _ hwf
  have hfind : StdMap.find (Client.trackID ih id context c).m_iqIDHandlers first.m_id
      = some { ih := ih, context := context } := by
    rw [hfirst]
    exact StdMap.find_insert_self _ _ _
  have hgone : StdMap.find
      (Client.notifyIqHandlers first (Client.trackID ih id context c)).m_iqIDHandlers id
        = none := by
    rw [Client.notifyIqHandlers_eq]
    simp only [hfirst]
    exact StdMap.find_erase_self _ _ hwf2
  refine ⟨StdMap.find_insert_self _ _ _, ?_, hgone, ?_⟩
  · rw [Client.idCalls_notifyIqHandlers]
    simp only [idTrackCalls, hfind]
    rfl
  · rw [Client.idCalls_notifyIqHandlers second]
    simp only [idTrackCalls, hsecond, hgone]
    simp [idCalls]

/-- C7 at a sample client: an IQ result with id q1 is dispatched twice after one
registration. -/
theorem C7_tracked_handler_once_witness :
    StdMap.find (Client.trackID Sample.handler "q1" 3 Sample.client).m_iqIDHandlers "q1"
        = some { ih := Sample.handler, context := 3 } ∧
      idCalls (Client.notifyIqHandlers (Sample.iq StanzaSubType.STANZA_IQ_RESULT "result" "q1" {} [])
        (Client.trackID Sample.handler "q1" 3 Sample.client)).events
        = idCalls Sample.client.events ++
          [(Sample.handler.ptr, Sample.iq StanzaSubType.STANZA_IQ_RESULT "result" "q1" {} [], 3)] ∧
      StdMap.find
        (Client.notifyIqHandlers (Sample.iq StanzaSubType.STANZA_IQ_RESULT "result" "q1" {} [])
          (Client.trackID Sample.handler "q1" 3 Sample.client)).m_iqIDHandlers "q1" = none ∧
      idCalls (Client.notifyIqHandlers
          (Sample.iq StanzaSubType.STANZA_IQ_ERROR "error" "q1" {} [])
          (Client.notifyIqHandlers (Sample.iq StanzaSubType.STANZA_IQ_RESULT "result" "q1" {} [])
            (Client.trackID Sample.handler "q1" 3 Sample.client))).events
        = idCalls (Client.notifyIqHandlers
            (Sample.iq StanzaSubType.STANZA_IQ_RESULT "result" "q1" {} [])
            (Client.trackID Sample.handler "q1" 3 Sample.client)).events :=
  C7_tracked_handler_once Sample.client Sample.handler "q1" 3
    (Sample.iq StanzaSubType.STANZA_IQ_RESULT "result" "q1" {} [])
    (Sample.iq StanzaSubType.STANZA_IQ_ERROR "error" "q1" {} []) List.nodup_nil rfl rfl

/-- C8: the dispatch of an IQ of kind get or set with id X and sender Y, when no
registered namespace handler matches it and X is not tracked, sends exactly one stanza
over the existing connection: an iq element with type error, id X and to equal to the
full address of Y. Nothing else is recorded and no other state changes. -/
theorem C8_unhandled_iq_error_reply (stanza : Stanza) (c : Client) (conn : Connection)
    (hconn : c.m_connection = some conn)
    (htype : stanza.m_type = StanzaType.STANZA_IQ)
    (hkind : stanza.m_subtype = StanzaSubType.STANZA_IQ_GET ∨
      stanza.m_subtype = StanzaSubType.STANZA_IQ_SET)
    (hns : ∀ e ∈ c.m_iqNSHandlers, stanza.hasChildWithAttrib "xmlns" e.1 = false)
    (hid : StdMap.find c.m_iqIDHandlers stanza.m_id = none) :
    Client.notifyIqHandlers stanza c =
      { c with events := c.events ++
          [Event.send { m_name := "iq",
                        m_attribs := [("type", "error"), ("id", stanza.m_id),
                                      ("to", stanza.m_from.full)],
                        m_children := [], m_cdata := "" }] } := by
  rw [Client.notifyIqHandlers_eq]
  obtain ⟨h1, h2⟩ := Client.nsCalls_eq_nil stanza c.m_iqNSHandlers hns
  rcases hkind with hk | hk <;>
    simp [h1, h2, idTrackCalls, idHandled, hid, StdMap.erase_of_find_none _ _ hid,
      errorReplyDue, htype, hk, hconn, errorReply]

/-- C8 at a sample IQ get with id q2 from v@d/home. -/
theorem C8_unhandled_iq_error_reply_witness :
    Client.notifyIqHandlers
      (Sample.iq StanzaSubType.STANZA_IQ_GET "get" "q2"
        { m_username := "v", m_server := "d", m_resource := "home" } [])
      Sample.client =
      { Sample.client with events := Sample.client.events ++
          [Event.send { m_name := "iq",
                        m_attribs := [("type", "error"), ("id", "q2"), ("to", "v@d/home")],
                        m_children := [], m_cdata := "" }] } :=
  C8_unhandled_iq_error_reply
    (Sample.iq StanzaSubType.STANZA_IQ_GET "get" "q2"
      { m_username := "v", m_server := "d", m_resource := "home" } [])
    Sample.client Sample.conn rfl rfl (Or.inl rfl) (fun _ he => nomatch he) rfl

/-! ## Resource binding and session establishment: claims -/

/-- C9: the bind-then-session scenario. An authenticated client with SASL enabled and
no resource bound receives an advertisement that reaches the authentication step and
whose feature set contains Bind and Session: it sends the bind request. The result IQ
with id bind that carries a jid then makes it send exactly one IQ of type set with id
session and a session child, and notifies no listener. The result IQ with id session
that follows makes it call connected(): onConnect is notified once per registered
connection listener. -/
theorem C9_bind_then_session (b : Build) (advert bindResult sessionResult : Stanza)
    (c : Client) (conn : Connection) (features : Nat) (bind jid : Tag)
    (hname : advert.name = "stream:features")
    (hf : Client.getStreamFeatures advert.toTag = some features)
    (hbindF : hasFeature features STREAM_FEATURE_BIND = true)
    (hsessionF : hasFeature features STREAM_FEATURE_SESSION = true)
    (hconn : c.m_connection = some conn)
    (hreach : Client.reachesAuthStep b c conn features = true)
    (hsasl : c.sasl = true) (hauthed : c.m_authed = true) (hunbound : c.m_resourceBound = false)
    (hb1 : bindResult.name = "iq") (hb2 : bindResult.hasAttribute "id" "bind" = true)
    (hb3 : bindResult.m_subtype = StanzaSubType.STANZA_IQ_RESULT)
    (hb4 : bindResult.findChild "bind" = some bind) (hb5 : bind.findChild "jid" = some jid)
    (hs1 : sessionResult.name = "iq") (hs2 : sessionResult.hasAttribute "id" "session" = true)
    (hs3 : sessionResult.hasAttribute "id" "bind" = false)
    (hs4 : sessionResult.m_subtype = StanzaSubType.STANZA_IQ_RESULT) :
    let c1 : Client :=
      { c with
          m_streamFeatures := features,
          events := c.events ++ Client.compressionProbe b features ++
            [Event.send
              { m_name := "iq", m_attribs := [("type", "set"), ("id", "bind")],
                m_children := [{ m_name := "bind", m_attribs := [("xmlns", XMLNS_STREAM_BIND)],
                                 m_children := if c.resource ≠ "" then
                                   [Tag.new "resource" c.resource] else [],
                                 m_cdata := "" }],
                m_cdata := "" }] }
    let c2 : Client :=
      { c1 with
          m_jid := c.m_jid.setJID jid.cdata,
          m_resourceBound := true,
          events := c1.events ++
            [Event.send
              { m_name := "iq", m_attribs := [("type", "set"), ("id", "session")],
                m_children := [{ m_name := "session",
                                 m_attribs := [("xmlns", XMLNS_STREAM_SESSION)],
                                 m_children := [], m_cdata := "" }],
                m_cdata := "" }] }
    let c3 : Client :=
      { c2 with
          events := c2.events ++
            (if c.m_manageRoster then [Event.rosterFill] else []) ++
            (if c.m_autoPresence then
              [Event.send
                { m_name := "presence", m_attribs := [],
                  m_children := [{ m_name := "priority", m_attribs := [], m_children := [],
                                   m_cdata := toString c.m_priority }],
                  m_cdata := "" }]
             else []) ++
            c.m_connectionListeners.map (fun cl => Event.onConnect cl.ptr) }
    Client.handleNormalNode b advert c = some (true, c1) ∧
      Client.handleNormalNode b bindResult c1 = some (true, c2) ∧
      Client.handleNormalNode b sessionResult c2 = some (true, c3) := by
  intro c1 c2 c3
  refine ⟨?_, ?_, ?_⟩
  · rw [Client.handleNormalNode_authStep b advert c conn features hname hf hconn hreach]
    simp only [Client.sasl] at hsasl
    by_cases hr : c.resource = ""
    · simp only [Client.resource] at hr
      simp [c1, Client.authStep, Client.sasl, Client.bindResource, Client.send, Client.emit,
        Client.resource, Tag.new, Tag.addAttribute, Tag.addChild, hsasl, hauthed, hbindF,
        hunbound, hconn, hr]
    · simp only [Client.resource] at hr
      simp [c1, Client.authStep, Client.sasl, Client.bindResource, Client.send, Client.emit,
        Client.resource, Tag.new, Tag.addAttribute, Tag.addChild, hsasl, hauthed, hbindF,
        hunbound, hconn, hr]
  · rw [Client.handleNormalNode_iq b bindResult c1 hb1]
    unfold Client.handleIqReplies
    simp only [hb1, hb2, beq_self_eq_true, Bool.and_self, if_true]
    rw [Client.processResourceBind_result bindResult c1 conn bind jid hconn hb3 hb4 hb5]
    simp [c1, c2, hsessionF]
  · rw [Client.handleNormalNode_iq b sessionResult c2 hs1]
    unfold Client.handleIqReplies
    simp only [hs1, hs2, hs3, beq_self_eq_true, Bool.and_self, Bool.and_false,
      Bool.false_eq_true, if_true, if_false]
    unfold Client.processCreateSession
    simp only [hs4]
    rw [Client.connected_eq c2 conn hconn]
    simp [c2, c1, c3, hauthed]

/-- C9 at the sample client: Bind and Session are advertised, the server binds
u@d/r, the session is established and the one listener is notified once. -/
theorem C9_bind_then_session_witness :
    Client.handleNormalNode Sample.build (Sample.features [Sample.bind, Sample.session])
        Sample.authedClient
      = some (true, { Sample.authedClient with
          m_streamFeatures := 96, events := [Event.send Sample.bindRequest] }) ∧
    Client.handleNormalNode Sample.build Sample.bindResult
        { Sample.authedClient with
          m_streamFeatures := 96, events := [Event.send Sample.bindRequest] }
      = some (true, { Sample.authedClient with
          m_streamFeatures := 96,
          m_jid := { m_username := "u", m_server := "d", m_resource := "r" },
          m_resourceBound := true,
          events := [Event.send Sample.bindRequest, Event.send Sample.sessionRequest] }) ∧
    Client.handleNormalNode Sample.build Sample.sessionResult
        { Sample.authedClient with
          m_streamFeatures := 96,
          m_jid := { m_username := "u", m_server := "d", m_resource := "r" },
          m_resourceBound := true,
          events := [Event.send Sample.bindRequest, Event.send Sample.sessionRequest] }
      = some (true, { Sample.authedClient with
          m_streamFeatures := 96,
          m_jid := { m_username := "u", m_server := "d", m_resource := "r" },
          m_resourceBound := true,
          events := [Event.send Sample.bindRequest, Event.send Sample.sessionRequest,
                     Event.rosterFill, Event.onConnect 1] }) :=
  C9_bind_then_session Sample.build (Sample.features [Sample.bind, Sample.session])
    Sample.bindResult Sample.sessionResult Sample.authedClient Sample.conn 96
    { m_name := "bind", m_attribs := [("xmlns", XMLNS_STREAM_BIND)],
      m_children := [Sample.leaf "jid" [] "u@d/r"], m_cdata := "" }
    (Sample.leaf "jid" [] "u@d/r")
    rfl (by decide) (by decide) (by decide) rfl (by decide) rfl rfl rfl rfl (by decide) rfl rfl
    rfl rfl (by decide) (by decide) rfl

/-- C10: a successful bind result (an IQ of kind result whose bind child holds a jid
child) makes processResourceBind adopt the address and set the resource-bound flag;
when the current feature set contains Session it then sends the session IQ and
notifies no listener; when it does not, it sends no session IQ and calls connected():
onConnect is notified once per registered connection listener, after the roster
request and the initial presence that connected() issues for an authenticated
client. -/
theorem C10_bind_result (stanza : Stanza) (c : Client) (conn : Connection) (bind jid : Tag)
    (hconn : c.m_connection = some conn)
    (hkind : stanza.m_subtype = StanzaSubType.STANZA_IQ_RESULT)
    (hbind : stanza.findChild "bind" = some bind) (hjid : bind.findChild "jid" = some jid) :
    Client.processResourceBind stanza c = some
      { c with
          m_jid := c.m_jid.setJID jid.cdata,
          m_resourceBound := true,
          events := c.events ++
            (if hasFeature c.m_streamFeatures STREAM_FEATURE_SESSION then
              [Event.send
                { m_name := "iq", m_attribs := [("type", "set"), ("id", "session")],
                  m_children := [{ m_name := "session",
                                   m_attribs := [("xmlns", XMLNS_STREAM_SESSION)],
                                   m_children := [], m_cdata := "" }],
                  m_cdata := "" }]
             else
              (if c.m_authed && c.m_manageRoster then [Event.rosterFill] else []) ++
              (if c.m_authed && c.m_autoPresence then
                [Event.send
                  { m_name := "presence", m_attribs := [],
                    m_children := [{ m_name := "priority", m_attribs := [], m_children := [],
                                     m_cdata := toString c.m_priority }],
                    m_cdata := "" }]
               else []) ++
              c.m_connectionListeners.map (fun cl => Event.onConnect cl.ptr)) } :=
  Client.processResourceBind_result stanza c conn bind jid hconn hkind hbind hjid

/-- C10 at the sample client when only Bind was advertised: the bind result is
followed by the roster request and onConnect, and no session IQ is sent. -/
theorem C10_bind_result_witness :
    Client.processResourceBind Sample.bindResult
        { Sample.authedClient with m_streamFeatures := STREAM_FEATURE_BIND }
      = some { Sample.authedClient with
          m_streamFeatures := STREAM_FEATURE_BIND,
          m_jid := { m_username := "u", m_server := "d", m_resource := "r" },
          m_resourceBound := true,
          events := [Event.rosterFill, Event.onConnect 1] } :=
  C10_bind_result Sample.bindResult
    { Sample.authedClient with m_streamFeatures := STREAM_FEATURE_BIND } Sample.conn
    { m_name := "bind", m_attribs := [("xmlns", XMLNS_STREAM_BIND)],
      m_children := [Sample.leaf "jid" [] "u@d/r"], m_cdata := "" }
    (Sample.leaf "jid" [] "u@d/r") rfl rfl rfl rfl

/-! ## Bind and session replies: claims -/

/-- C13: a result IQ with id bind whose bind child holds a jid child with the
non-empty text J makes processResourceBind adopt J as the identity of the client,
whatever address and resource the client had before: the identity is J read as
node@domain/resource, written back it is J again, and for J = u@d/r the resource is r.
The resource-bound flag is set. -/
theorem C13_bound_identity (stanza : Stanza) (c : Client) (bind jid : Tag)
    (hkind : stanza.m_subtype = StanzaSubType.STANZA_IQ_RESULT)
    (hbind : stanza.findChild "bind" = some bind) (hjid : bind.findChild "jid" = some jid)
    (htext : jid.cdata ≠ "") :
    ∃ c2, Client.processResourceBind stanza c = some c2 ∧
      c2.m_jid = JID.setJID {} jid.cdata ∧
      (JID.isAddress jid.cdata = true → c2.m_jid.full = jid.cdata) ∧
      (jid.cdata = "u@d/r" →
        c2.m_jid.username = "u" ∧ c2.m_jid.server = "d" ∧ c2.m_jid.resource = "r") ∧
      c2.m_resourceBound = true := by
  obtain ⟨c2, hrun, hid, hflag⟩ :=
    Client.processResourceBind_identity stanza c bind jid hkind hbind hjid
  rw [Client.setJID_fresh _ _ htext] at hid
  refine ⟨c2, hrun, hid, ?_, ?_, hflag⟩
  · intro haddr
    rw [hid]
    exact JID.full_setJID _ _ haddr
  · intro hj
    rw [hid, hj]
    exact ⟨rfl, rfl, rfl⟩

/-- C13 at a client that had asked for the resource home and is bound to u@d/r. -/
theorem C13_bound_identity_witness :
    ∃ c2, Client.processResourceBind Sample.bindResult
        { Sample.authedClient with
            m_jid := { m_username := "u", m_server := "d", m_resource := "home" } } = some c2 ∧
      c2.m_jid = JID.setJID {} "u@d/r" ∧
      (JID.isAddress "u@d/r" = true → c2.m_jid.full = "u@d/r") ∧
      ("u@d/r" = "u@d/r" →
        c2.m_jid.username = "u" ∧ c2.m_jid.server = "d" ∧ c2.m_jid.resource = "r") ∧
      c2.m_resourceBound = true :=
  C13_bound_identity Sample.bindResult
    { Sample.authedClient with
        m_jid := { m_username := "u", m_server := "d", m_resource := "home" } }
    { m_name := "bind", m_attribs := [("xmlns", XMLNS_STREAM_BIND)],
      m_children := [Sample.leaf "jid" [] "u@d/r"], m_cdata := "" }
    (Sample.leaf "jid" [] "u@d/r") rfl rfl rfl (by decide)


/-! ## Feature set: claims -/

/-- C14, as stated, fails, in two ways. A compression child outside the compression
feature namespace lists zlib, yet the zlib bit is not in the result, which is IqAuth
alone. And of two children named mechanisms, the first outside the SASL namespace
listing PLAIN and the second in the SASL namespace listing DIGEST-MD5, the result holds
the PLAIN bit alone: the namespace is tested on any child of the name, the list is read
from the first. -/
theorem C14_counterexample :
    (Client.getStreamFeatures (Sample.features [Sample.compression [] ["zlib"]]).toTag
        = some STREAM_FEATURE_IQAUTH ∧
      hasFeature STREAM_FEATURE_IQAUTH STREAM_FEATURE_COMPRESS_ZLIB = false) ∧
    (Client.getStreamFeatures
        (Sample.features
          [Sample.foreignMechanisms ["PLAIN"], Sample.mechanisms ["DIGEST-MD5"]]).toTag
        = some STREAM_FEATURE_SASL_PLAIN ∧
      listsMechanism
        (Sample.features
          [Sample.foreignMechanisms ["PLAIN"], Sample.mechanisms ["DIGEST-MD5"]]).toTag
        "DIGEST-MD5" = true ∧
      listsMechanism
        (Sample.features
          [Sample.foreignMechanisms ["PLAIN"], Sample.mechanisms ["DIGEST-MD5"]]).toTag
        "PLAIN" = false ∧
      hasFeature STREAM_FEATURE_SASL_PLAIN STREAM_FEATURE_SASL_DIGESTMD5 = false) := by
  decide

/-- C14, amended: getStreamFeatures computes the feature set from the stream:features
element alone. Each of StartTLS, Bind, Session, IqRegister and Ack is in the result iff
a child of that name in its namespace is present. When the element has at most one
child named mechanisms, each SASL mechanism bit is in the result iff a mechanisms child
in the SASL namespace lists the mechanism; when it has at most one child named
compression, each compression bit is in the result iff a compression child in the
compression feature namespace lists the method; when both hold, IqAuth is in the result
iff an auth child in the iq-auth namespace is present or no recognised feature is
present, and the result is exactly IqAuth when nothing is recognised. The result is
never empty, and on a client with a connection handleNormalNode returns true with this
value stored, whatever was stored before. -/
theorem C14_feature_set (stanza : Stanza) (hname : stanza.name = "stream:features") :
    ∃ features, Client.getStreamFeatures stanza.toTag = some features ∧
      hasFeature features STREAM_FEATURE_STARTTLS
        = stanza.hasChild "starttls" "xmlns" XMLNS_STREAM_TLS ∧
      hasFeature features STREAM_FEATURE_BIND
        = stanza.hasChild "bind" "xmlns" XMLNS_STREAM_BIND ∧
      hasFeature features STREAM_FEATURE_SESSION
        = stanza.hasChild "session" "xmlns" XMLNS_STREAM_SESSION ∧
      hasFeature features STREAM_FEATURE_IQREGISTER
        = stanza.hasChild "register" "xmlns" XMLNS_STREAM_IQREGISTER ∧
      hasFeature features STREAM_FEATURE_ACK
        = stanza.hasChild "ack" "xmlns" XMLNS_STREAM_ACK ∧
      (stanza.atMostOneChild "mechanisms" →
        hasFeature features STREAM_FEATURE_SASL_DIGESTMD5
            = listsMechanism stanza.toTag "DIGEST-MD5" ∧
          hasFeature features STREAM_FEATURE_SASL_PLAIN
            = listsMechanism stanza.toTag "PLAIN" ∧
          hasFeature features STREAM_FEATURE_SASL_ANONYMOUS
            = listsMechanism stanza.toTag "ANONYMOUS" ∧
          hasFeature features STREAM_FEATURE_SASL_EXTERNAL
            = listsMechanism stanza.toTag "EXTERNAL") ∧
      (stanza.atMostOneChild "compression" →
        hasFeature features STREAM_FEATURE_COMPRESS_ZLIB = listsMethod stanza.toTag "zlib" ∧
          hasFeature features STREAM_FEATURE_COMPRESS_DCLZ = listsMethod stanza.toTag "lzw") ∧
      (stanza.atMostOneChild "mechanisms" → stanza.atMostOneChild "compression" →
        hasFeature features STREAM_FEATURE_IQAUTH
            = (stanza.hasChild "auth" "xmlns" XMLNS_STREAM_IQAUTH
                || recognisesNothing stanza.toTag) ∧
          (recognisesNothing stanza.toTag = true → features = STREAM_FEATURE_IQAUTH)) ∧
      features ≠ 0 ∧
      (∀ (b : Build) (c : Client) (conn : Connection), c.m_connection = some conn →
        ∃ c2, Client.handleNormalNode b stanza c = some (true, c2)
          ∧ c2.m_streamFeatures = features) := by
  have hf := Client.getStreamFeatures_eq stanza.toTag hname
  obtain ⟨b1, b2, b3, b4, b5, b6⟩ := Client.rawFeatures_child_bits stanza.toTag
  refine ⟨_, hf, ?_, ?_, ?_, ?_, ?_, ?_, ?_, ?_, Client.fallback_ne_zero _, ?_⟩
  · rw [Client.hasFeature_fallback_eq _ _ (by decide), b1]
    simp [STREAM_FEATURE_STARTTLS, STREAM_FEATURE_IQAUTH]
  · rw [Client.hasFeature_fallback_eq _ _ (by decide), b2]
    simp [STREAM_FEATURE_BIND, STREAM_FEATURE_IQAUTH]
  · rw [Client.hasFeature_fallback_eq _ _ (by decide), b3]
    simp [STREAM_FEATURE_SESSION, STREAM_FEATURE_IQAUTH]
  · rw [Client.hasFeature_fallback_eq _ _ (by decide), b5]
    simp [STREAM_FEATURE_IQREGISTER, STREAM_FEATURE_IQAUTH]
  · rw [Client.hasFeature_fallback_eq _ _ (by decide), b6]
    simp [STREAM_FEATURE_ACK, STREAM_FEATURE_IQAUTH]
  · intro hm
    obtain ⟨m1, m2, m3, m4⟩ := Client.rawFeatures_mechanism_bits stanza.toTag hm
    refine ⟨?_, ?_, ?_, ?_⟩
    · rw [Client.hasFeature_fallback_eq _ _ (by decide), m1]
      simp [STREAM_FEATURE_SASL_DIGESTMD5, STREAM_FEATURE_IQAUTH]
    · rw [Client.hasFeature_fallback_eq _ _ (by decide), m2]
      simp [STREAM_FEATURE_SASL_PLAIN, STREAM_FEATURE_IQAUTH]
    · rw [Client.hasFeature_fallback_eq _ _ (by decide), m3]
      simp [STREAM_FEATURE_SASL_ANONYMOUS, STREAM_FEATURE_IQAUTH]
    · rw [Client.hasFeature_fallback_eq _ _ (by decide), m4]
      simp [STREAM_FEATURE_SASL_EXTERNAL, STREAM_FEATURE_IQAUTH]
  · intro hc
    obtain ⟨z1, z2⟩ := Client.rawFeatures_method_bits stanza.toTag hc
    refine ⟨?_, ?_⟩
    · rw [Client.hasFeature_fallback_eq _ _ (by decide), z1]
      simp [STREAM_FEATURE_COMPRESS_ZLIB, STREAM_FEATURE_IQAUTH]
    · rw [Client.hasFeature_fallback_eq _ _ (by decide), z2]
      simp [STREAM_FEATURE_COMPRESS_DCLZ, STREAM_FEATURE_IQAUTH]
  · intro hm hc
    have hz := Client.rawFeatures_eq_zero stanza.toTag hm hc
    refine ⟨?_, ?_⟩
    · rw [Client.hasFeature_fallback_eq _ _ (by decide), b4, hz]
      simp
    · intro hnone
      rw [← hz] at hnone
      simp [hnone]
  · intro b c conn hconn
    exact Client.handleNormalNode_stores b stanza c conn _ hname hf hconn

/-- C14 at an advertisement of StartTLS, the PLAIN mechanism and Bind. -/
theorem C14_feature_set_witness :
    ∃ features,
      Client.getStreamFeatures
        (Sample.features [Sample.starttls, Sample.mechanisms ["PLAIN"], Sample.bind]).toTag
        = some features ∧
      hasFeature features STREAM_FEATURE_STARTTLS = true ∧
      hasFeature features STREAM_FEATURE_BIND = true ∧
      hasFeature features STREAM_FEATURE_SESSION = false ∧
      hasFeature features STREAM_FEATURE_SASL_PLAIN = true ∧
      hasFeature features STREAM_FEATURE_SASL_DIGESTMD5 = false ∧
      hasFeature features STREAM_FEATURE_COMPRESS_ZLIB = false ∧
      hasFeature features STREAM_FEATURE_IQAUTH = false ∧
      features ≠ 0 ∧
      (∃ c2, Client.handleNormalNode Sample.build
          (Sample.features [Sample.starttls, Sample.mechanisms ["PLAIN"], Sample.bind])
          { Sample.client with m_streamFeatures := STREAM_FEATURE_IQAUTH } = some (true, c2)
        ∧ c2.m_streamFeatures = features) := by
  obtain ⟨features, hf, h1, h2, h3, _, _, hm, hc, hi, hne, hstore⟩ :=
    C14_feature_set
      (Sample.features [Sample.starttls, Sample.mechanisms ["PLAIN"], Sample.bind]) rfl
  have hone : (Sample.features
      [Sample.starttls, Sample.mechanisms ["PLAIN"], Sample.bind]).atMostOneChild
        "mechanisms" := by
    show _ ≤ 1
    decide
  have hnone : (Sample.features
      [Sample.starttls, Sample.mechanisms ["PLAIN"], Sample.bind]).atMostOneChild
        "compression" := by
    show _ ≤ 1
    decide
  obtain ⟨m1, m2, _, _⟩ := hm hone
  obtain ⟨z1, _⟩ := hc hnone
  obtain ⟨i1, _⟩ := hi hone hnone
  exact ⟨features, hf, h1.trans (by decide), h2.trans (by decide), h3.trans (by decide),
    m2.trans (by decide), m1.trans (by decide), z1.trans (by decide), i1.trans (by decide),
    hne, hstore Sample.build _ Sample.conn rfl⟩

/-! ## Negotiation outcomes: claims -/

/-- C15: on a proceed element in the TLS namespace, with TLS built in and a connection
present, handleNormalNode returns true after running the TLS handshake. When the
handshake succeeds the connection listeners are handed the peer certificate, and when
none rejects it the stream header is sent once and nothing else happens; when one
rejects it the client disconnects with ConnTlsFailed and no header is sent. When the
handshake fails the listeners are not consulted, the client disconnects with
ConnTlsFailed and no header is sent. -/
theorem C15_tls_proceed (b : Build) (stanza : Stanza) (c : Client) (conn : Connection)
    (hb : Client.hasTls b = true) (hname : stanza.name = "proceed")
    (hns : stanza.hasAttribute "xmlns" XMLNS_STREAM_TLS = true)
    (hconn : c.m_connection = some conn) :
    ∃ c2, Client.handleNormalNode b stanza c = some (true, c2) ∧
      c2.events = c.events ++ [Event.tlsHandshake] ++
        (if conn.tlsHandshakeResult then
          c.m_connectionListeners.map (fun cl => Event.onTLSConnect cl.ptr) ++
            (if (Client.notifyOnTLSConnect conn.m_certInfo c).1 then
              [Event.sendXml (Client.streamHeader c)]
             else [Event.setState ConnectionError.ConnTlsFailed, Event.disconnect])
         else [Event.setState ConnectionError.ConnTlsFailed, Event.disconnect]) := by
  rw [Client.handleNormalNode_proceed b stanza c hb hname hns]
  exact Client.handleProceed_events c conn hconn

/-- C15 at the sample client, whose listener accepts the certificate, on a transport
whose handshake succeeds. -/
theorem C15_tls_proceed_witness :
    ∃ c2, Client.handleNormalNode Sample.build (Sample.control "proceed" XMLNS_STREAM_TLS)
        Sample.tlsClient = some (true, c2) ∧
      c2.events = [Event.tlsHandshake, Event.onTLSConnect 1,
        Event.sendXml (Client.streamHeader Sample.tlsClient)] :=
  C15_tls_proceed Sample.build (Sample.control "proceed" XMLNS_STREAM_TLS) Sample.tlsClient
    Sample.tlsConn rfl rfl (by decide) rfl

/-- C16: on a failure element in the TLS namespace (with TLS built in) and on a failure
element in the compression namespace (with zlib built in), handleNormalNode of a client
with a connection returns true and records the disconnect with reason ConnTlsFailed and
nothing else: nothing is sent, and nothing but the record of calls changes. -/
theorem C16_negotiation_failure (b : Build) (stanza : Stanza) (c : Client) (conn : Connection)
    (hname : stanza.name = "failure")
    (hns : (Client.hasTls b = true ∧ stanza.hasAttribute "xmlns" XMLNS_STREAM_TLS = true) ∨
      (b.HAVE_ZLIB = true ∧ stanza.hasAttribute "xmlns" XMLNS_COMPRESSION = true))
    (hconn : c.m_connection = some conn) :
    Client.handleNormalNode b stanza c = some (true,
      { c with events := c.events ++
          [Event.setState ConnectionError.ConnTlsFailed, Event.disconnect] }) := by
  unfold Client.handleNormalNode
  rcases hns with ⟨hb, hx⟩ | ⟨hb, hx⟩
  · have hb2 : b.HAVE_TLS = true := hb
    simp [hname, hx, hb2, Client.disconnect, Client.emit, hconn]
  · cases h1 : b.HAVE_TLS <;> cases h2 : stanza.hasAttribute "xmlns" XMLNS_STREAM_TLS <;>
      simp [hname, hx, hb, Client.disconnect, Client.emit, hconn]

/-- C16 at the sample client, for the failure element of either namespace. -/
theorem C16_negotiation_failure_witness :
    Client.handleNormalNode Sample.build (Sample.control "failure" XMLNS_STREAM_TLS)
        Sample.client = some (true,
      { Sample.client with
          events := [Event.setState ConnectionError.ConnTlsFailed, Event.disconnect] }) ∧
    Client.handleNormalNode Sample.build (Sample.control "failure" XMLNS_COMPRESSION)
        Sample.client = some (true,
      { Sample.client with
          events := [Event.setState ConnectionError.ConnTlsFailed, Event.disconnect] }) :=
  ⟨C16_negotiation_failure Sample.build (Sample.control "failure" XMLNS_STREAM_TLS)
      Sample.client Sample.conn rfl (Or.inl ⟨rfl, by decide⟩) rfl,
    C16_negotiation_failure Sample.build (Sample.control "failure" XMLNS_COMPRESSION)
      Sample.client Sample.conn rfl (Or.inr ⟨rfl, by decide⟩) rfl⟩

/-- C17: for an element in the SASL namespace (with unique attribute names) received by
a client with a connection, handleNormalNode returns true and, when the element is
named success, marks the client authenticated and sends the stream header once,
without disconnecting; when it is named failure, hands the element to the SASL error
processing and disconnects with ConnAuthenticationFailed, the authenticated flag being
unchanged and no stream header sent. -/
theorem C17_sasl_outcome (b : Build) (stanza : Stanza) (c : Client) (conn : Connection)
    (hns : stanza.hasAttribute "xmlns" XMLNS_STREAM_SASL = true)
    (huniq : stanza.uniqueAttribs) (hconn : c.m_connection = some conn) :
    (stanza.name = "success" →
      Client.handleNormalNode b stanza c = some (true,
        { c with m_authed := true,
                 events := c.events ++ [Event.sendXml (Client.streamHeader c)] })) ∧
    (stanza.name = "failure" →
      Client.handleNormalNode b stanza c = some (true,
        { c with events := c.events ++
            [Event.processSASLError stanza,
             Event.setState ConnectionError.ConnAuthenticationFailed, Event.disconnect] })) := by
  have h1 : stanza.hasAttribute "xmlns" XMLNS_STREAM_TLS = false := by
    cases h : stanza.hasAttribute "xmlns" XMLNS_STREAM_TLS
    · rfl
    · exact absurd (Tag.hasAttribute_unique stanza.toTag "xmlns" _ _ huniq hns h) (by decide)
  have h2 : stanza.hasAttribute "xmlns" XMLNS_COMPRESSION = false := by
    cases h : stanza.hasAttribute "xmlns" XMLNS_COMPRESSION
    · rfl
    · exact absurd (Tag.hasAttribute_unique stanza.toTag "xmlns" _ _ huniq hns h) (by decide)
  constructor
  · intro hname
    unfold Client.handleNormalNode
    simp [hname, hns, Client.header_eq, Client.sendXml, Client.setAuthed, Client.emit, hconn,
      Client.streamHeader]
  · intro hname
    unfold Client.handleNormalNode
    simp [hname, hns, h1, h2, Client.disconnect, Client.processSASLError, Client.emit, hconn]

/-- C17 at the sample client, for the success and the failure element. -/
theorem C17_sasl_outcome_witness :
    Client.handleNormalNode Sample.build (Sample.control "success" XMLNS_STREAM_SASL)
        Sample.client = some (true,
      { Sample.client with
          m_authed := true,
          events := [Event.sendXml (Client.streamHeader Sample.client)] }) ∧
    Client.handleNormalNode Sample.build (Sample.control "failure" XMLNS_STREAM_SASL)
        Sample.client = some (true,
      { Sample.client with
          events := [Event.processSASLError (Sample.control "failure" XMLNS_STREAM_SASL),
                     Event.setState ConnectionError.ConnAuthenticationFailed,
                     Event.disconnect] }) :=
  ⟨(C17_sasl_outcome Sample.build (Sample.control "success" XMLNS_STREAM_SASL) Sample.client
      Sample.conn (by decide) (by show List.Nodup _; decide) rfl).1 rfl,
    (C17_sasl_outcome Sample.build (Sample.control "failure" XMLNS_STREAM_SASL) Sample.client
      Sample.conn (by decide) (by show List.Nodup _; decide) rfl).2 rfl⟩

/-- C18: with zlib built in, for a stream:features advertisement for which the STARTTLS
step does not apply, whose feature set contains zlib and whose transport accepts
compression, handleNormalNode returns true, stores the feature set and, after the
initCompression call, sends one element and nothing else: a compress element in the
compression namespace with the single child method of text zlib. No authentication is
started, no bind request sent and onConnect not notified. A later compressed element in
the compression namespace makes it switch compression on at the transport and send the
stream header once. -/
theorem C18_compression (b : Build) (advert compressed : Stanza) (c : Client)
    (conn : Connection) (features : Nat) (hzlib : b.HAVE_ZLIB = true)
    (hname : advert.name = "stream:features")
    (hf : Client.getStreamFeatures advert.toTag = some features)
    (hconn : c.m_connection = some conn)
    (hnotls : Client.startTlsApplies b c conn features = false)
    (hadv : hasFeature features STREAM_FEATURE_COMPRESS_ZLIB = true)
    (hinit : conn.initCompressionResult = true)
    (hname2 : compressed.name = "compressed")
    (hns2 : compressed.hasAttribute "xmlns" XMLNS_COMPRESSION = true) :
    Client.handleNormalNode b advert c = some (true,
      { c with
          m_streamFeatures := features,
          events := c.events ++
            [Event.initCompression true,
             Event.send
              { m_name := "compress", m_attribs := [("xmlns", XMLNS_COMPRESSION)],
                m_children := [{ m_name := "method", m_attribs := [], m_children := [],
                                 m_cdata := "zlib" }],
                m_cdata := "" }] }) ∧
    (∀ (c2 : Client) (conn2 : Connection), c2.m_connection = some conn2 →
      Client.handleNormalNode b compressed c2 = some (true,
        { c2 with
            m_connection := some { conn2 with m_compression := true },
            events := c2.events ++
              [Event.setCompression true, Event.sendXml (Client.streamHeader c2)] })) := by
  constructor
  · rw [Client.handleNormalNode_features b advert c conn features hname hf hconn]
    have hadv2 : hasFeature features 1024 = true := hadv
    simp [hnotls, Client.compressionApplies, Client.compressionProbe, hzlib, hadv2, hinit,
      Client.negotiateCompression, Client.send, Client.emit, hconn, Tag.new, Tag.addAttribute,
      Tag.addChild, STREAM_FEATURE_COMPRESS_ZLIB, STREAM_FEATURE_COMPRESS_DCLZ]
  · intro c2 conn2 hconn2
    unfold Client.handleNormalNode
    simp [hname2, hns2, hzlib, Client.handleCompressed, hconn2, Client.header_eq,
      Client.sendXml, Client.emit, Client.streamHeader]

/-- C18 at the sample client on a transport that accepts compression, for an
advertisement of zlib and the PLAIN mechanism, followed by the compressed element. -/
theorem C18_compression_witness :
    Client.handleNormalNode Sample.build
        (Sample.features
          [Sample.compression [("xmlns", XMLNS_STREAM_COMPRESS)] ["zlib"],
           Sample.mechanisms ["PLAIN"]])
        Sample.zlibClient = some (true,
      { Sample.zlibClient with
          m_streamFeatures := 1028,
          events := [Event.initCompression true, Event.send Sample.compressRequest] }) ∧
    Client.handleNormalNode Sample.build (Sample.control "compressed" XMLNS_COMPRESSION)
        { Sample.zlibClient with
            m_streamFeatures := 1028,
            events := [Event.initCompression true, Event.send Sample.compressRequest] }
      = some (true,
      { Sample.zlibClient with
          m_streamFeatures := 1028,
          m_connection := some { Sample.zlibConn with m_compression := true },
          events := [Event.initCompression true, Event.send Sample.compressRequest,
                     Event.setCompression true,
                     Event.sendXml (Client.streamHeader Sample.zlibClient)] }) := by
  have h := C18_compression Sample.build
    (Sample.features
      [Sample.compression [("xmlns", XMLNS_STREAM_COMPRESS)] ["zlib"],
       Sample.mechanisms ["PLAIN"]])
    (Sample.control "compressed" XMLNS_COMPRESSION) Sample.zlibClient Sample.zlibConn 1028
    rfl rfl (by decide) rfl (by decide) (by decide) rfl rfl (by decide)
  exact ⟨h.1, h.2 _ Sample.zlibConn rfl⟩

/-- C19: for an advertisement that reaches the authentication step of a client with a
connection, SASL enabled, already authenticated, its resource not yet bound, whose
feature set contains Bind, handleNormalNode returns true, stores the feature set,
starts no authentication and sends exactly one stanza: an iq of type set with id bind
and a bind child in the bind namespace, which holds a resource child with the
configured resource iff that resource is not empty. -/
theorem C19_bind_request (b : Build) (stanza : Stanza) (c : Client) (conn : Connection)
    (features : Nat) (hname : stanza.name = "stream:features")
    (hf : Client.getStreamFeatures stanza.toTag = some features)
    (hconn : c.m_connection = some conn)
    (hreach : Client.reachesAuthStep b c conn features = true)
    (hsasl : c.sasl = true) (hauthed : c.m_authed = true) (hunbound : c.m_resourceBound = false)
    (hbind : hasFeature features STREAM_FEATURE_BIND = true) :
    Client.handleNormalNode b stanza c = some (true,
      { c with
          m_streamFeatures := features,
          events := c.events ++ Client.compressionProbe b features ++
            [Event.send
              { m_name := "iq", m_attribs := [("type", "set"), ("id", "bind")],
                m_children := [{ m_name := "bind", m_attribs := [("xmlns", XMLNS_STREAM_BIND)],
                                 m_children := if c.resource ≠ "" then
                                   [{ m_name := "resource", m_attribs := [], m_children := [],
                                      m_cdata := c.resource }] else [],
                                 m_cdata := "" }],
                m_cdata := "" }] }) := by
  rw [Client.handleNormalNode_authStep b stanza c conn features hname hf hconn hreach]
  simp only [Client.sasl] at hsasl
  by_cases hr : c.resource = ""
  · simp only [Client.resource] at hr
    simp [Client.authStep, Client.sasl, Client.bindResource, Client.send, Client.emit,
      Client.resource, Tag.new, Tag.addAttribute, Tag.addChild, hsasl, hauthed, hbind,
      hunbound, hconn, hr]
  · simp only [Client.resource] at hr
    simp [Client.authStep, Client.sasl, Client.bindResource, Client.send, Client.emit,
      Client.resource, Tag.new, Tag.addAttribute, Tag.addChild, hsasl, hauthed, hbind,
      hunbound, hconn, hr]

/-- C19 at the authenticated sample client that asks for the resource home. -/
theorem C19_bind_request_witness :
    Client.handleNormalNode Sample.build (Sample.features [Sample.bind]) Sample.homeClient
      = some (true,
        { Sample.homeClient with
            m_streamFeatures := 32,
            events :=
              [Event.send
                { m_name := "iq", m_attribs := [("type", "set"), ("id", "bind")],
                  m_children := [{ m_name := "bind",
                                   m_attribs := [("xmlns", XMLNS_STREAM_BIND)],
                                   m_children := [Sample.leaf "resource" [] "home"],
                                   m_cdata := "" }],
                  m_cdata := "" }] }) :=
  C19_bind_request Sample.build (Sample.features [Sample.bind]) Sample.homeClient Sample.conn
    32 rfl (by decide) rfl (by decide) rfl rfl rfl (by decide)

/-! ## Namespace handlers: claims -/

/-- C20: for every incoming IQ, notifyIqHandlers adds to the record of handleIq calls
exactly one call, with the stanza, for every entry of the table of namespace handlers
whose namespace is the xmlns of the stanza or of a child of it, in the order of the
table, and no other handleIq call: handlers whose namespace does not appear are not
called, and when several registered namespaces match all of their handlers are
called. -/
theorem C20_namespace_handlers (stanza : Stanza) (c : Client) :
    iqCalls (Client.notifyIqHandlers stanza c).events
      = iqCalls c.events ++
        (c.m_iqNSHandlers.filter (fun e => stanza.hasChildWithAttrib "xmlns" e.1)).map
          (fun e => (e.2.ptr, stanza)) :=
  Client.iqCalls_notifyIqHandlers stanza c

/-- C20 at a client with handlers for three namespaces and an IQ with children in two
of them: the two handlers are called once each, the third is not. -/
theorem C20_namespace_handlers_witness :
    iqCalls (Client.notifyIqHandlers Sample.twoQueries Sample.nsClient).events
      = [(7, Sample.twoQueries), (8, Sample.twoQueries)] :=
  C20_namespace_handlers Sample.twoQueries Sample.nsClient


/-! ## Dispatch of IQ stanzas: claims -/

/-- C21, as stated, fails: for the roster query with the tracked id q1, the handler is
invoked through handleIq first and through handleIqID second. -/
theorem C21_counterexample :
    StdMap.find Sample.rosterClient.m_iqIDHandlers Sample.rosterGet.m_id
      = some { ih := Sample.handler, context := 3 } ∧
    Sample.rosterGet.hasChildWithAttrib "xmlns" "jabber:iq:roster" = true ∧
    (Client.notifyIqHandlers Sample.rosterGet Sample.rosterClient).events
      = [Event.handleIq 7 Sample.rosterGet, Event.handleIqID 7 Sample.rosterGet 3] :=
  ⟨rfl, by decide, rfl⟩

/-- C21, amended: for every incoming IQ whose id is tracked and which matches at least
one registered namespace handler, notifyIqHandlers invokes every matching namespace
handler (handleIq), in the order of the handler table, before the id-tracked handler
(handleIqID); after the id-tracked handler no handler is invoked. -/
theorem C21_namespace_before_id (stanza : Stanza) (c : Client) (track : TrackStruct)
    (hid : StdMap.find c.m_iqIDHandlers stanza.m_id = some track)
    (hns : ∃ e ∈ c.m_iqNSHandlers, stanza.hasChildWithAttrib "xmlns" e.1 = true) :
    ∃ after,
      (Client.notifyIqHandlers stanza c).events
        = c.events ++ nsCalls stanza c.m_iqNSHandlers
          ++ [Event.handleIqID track.ih.ptr stanza track.context] ++ after ∧
      nsCalls stanza c.m_iqNSHandlers
        = (c.m_iqNSHandlers.filter (fun e => stanza.hasChildWithAttrib "xmlns" e.1)).map
            (fun e => Event.handleIq e.2.ptr stanza) ∧
      nsCalls stanza c.m_iqNSHandlers ≠ [] ∧
      iqCalls after = [] ∧ idCalls after = [] := by
  refine ⟨if errorReplyDue stanza c && c.m_connection.isSome then
      [Event.send (errorReply stanza)] else [], ?_, Client.nsCalls_eq_map stanza _, ?_,
    Client.iqCalls_reply _ _, Client.idCalls_reply _ _⟩
  · rw [Client.notifyIqHandlers_eq]
    simp [idTrackCalls, hid]
  · obtain ⟨e, hmem, hmatch⟩ := hns
    rw [Client.nsCalls_eq_map]
    intro hnil
    have hin : e ∈ c.m_iqNSHandlers.filter
        (fun e => stanza.hasChildWithAttrib "xmlns" e.1) :=
      List.mem_filter.mpr ⟨hmem, hmatch⟩
    have hmap := List.mem_map_of_mem (fun e => Event.handleIq e.2.ptr stanza) hin
    rw [hnil] at hmap
    exact absurd hmap (List.not_mem_nil _)

/-- C21 at the sample roster query on the client that tracks its id. -/
theorem C21_namespace_before_id_witness :
    ∃ after,
      (Client.notifyIqHandlers Sample.rosterGet Sample.rosterClient).events
        = Sample.rosterClient.events
          ++ nsCalls Sample.rosterGet Sample.rosterClient.m_iqNSHandlers
          ++ [Event.handleIqID Sample.handler.ptr Sample.rosterGet 3] ++ after ∧
      nsCalls Sample.rosterGet Sample.rosterClient.m_iqNSHandlers
        = (Sample.rosterClient.m_iqNSHandlers.filter
            (fun e => Sample.rosterGet.hasChildWithAttrib "xmlns" e.1)).map
            (fun e => Event.handleIq e.2.ptr Sample.rosterGet) ∧
      nsCalls Sample.rosterGet Sample.rosterClient.m_iqNSHandlers ≠ [] ∧
      iqCalls after = [] ∧ idCalls after = [] :=
  C21_namespace_before_id Sample.rosterGet Sample.rosterClient
    { ih := Sample.handler, context := 3 } rfl
    ⟨("jabber:iq:roster", Sample.handler), List.mem_singleton.mpr rfl, by decide⟩

/-- C22, as stated, fails: the roster query matches a registered namespace handler,
which is invoked and reports the stanza not handled, and the error reply is sent all
the same. -/
theorem C22_counterexample :
    Sample.rosterGet.hasChildWithAttrib "xmlns" "jabber:iq:roster" = true ∧
    (Client.notifyIqHandlers Sample.rosterGet Sample.idleClient).events
      = [Event.handleIq 9 Sample.rosterGet, Event.send Sample.rosterError] :=
  ⟨by decide, rfl⟩

/-- C22, amended: for every incoming IQ on a client with a connection, notifyIqHandlers
sends the error reply if and only if the IQ is of kind get or set and no invoked
handler, namespace or id-tracked, reported having handled it, whether or not one
matched. It sends nothing for an IQ of kind result or error, nothing when some invoked
handler returned true, and never more than one element per stanza. -/
theorem C22_error_reply (stanza : Stanza) (c : Client) (conn : Connection)
    (hconn : c.m_connection = some conn) (htype : stanza.m_type = StanzaType.STANZA_IQ) :
    sentTags (Client.notifyIqHandlers stanza c).events
        = sentTags c.events ++ (if errorReplyDue stanza c then [errorReply stanza] else []) ∧
      (errorReplyDue stanza c = true ↔
        (stanza.m_subtype = StanzaSubType.STANZA_IQ_GET
            ∨ stanza.m_subtype = StanzaSubType.STANZA_IQ_SET) ∧
          nsHandled stanza c.m_iqNSHandlers = false ∧
          idHandled stanza c.m_iqIDHandlers = false) ∧
      (stanza.m_subtype = StanzaSubType.STANZA_IQ_RESULT
          ∨ stanza.m_subtype = StanzaSubType.STANZA_IQ_ERROR →
        sentTags (Client.notifyIqHandlers stanza c).events = sentTags c.events) ∧
      (nsHandled stanza c.m_iqNSHandlers = true ∨ idHandled stanza c.m_iqIDHandlers = true →
        sentTags (Client.notifyIqHandlers stanza c).events = sentTags c.events) ∧
      (sentTags (Client.notifyIqHandlers stanza c).events).length
        ≤ (sentTags c.events).length + 1 := by
  have hsent : sentTags (Client.notifyIqHandlers stanza c).events
      = sentTags c.events ++ (if errorReplyDue stanza c then [errorReply stanza] else []) := by
    rw [Client.sentTags_notifyIqHandlers]
    simp [hconn]
  have hiff : errorReplyDue stanza c = true ↔
      (stanza.m_subtype = StanzaSubType.STANZA_IQ_GET
          ∨ stanza.m_subtype = StanzaSubType.STANZA_IQ_SET) ∧
        nsHandled stanza c.m_iqNSHandlers = false ∧
        idHandled stanza c.m_iqIDHandlers = false := by
    unfold errorReplyDue
    simp only [htype, beq_self_eq_true, Bool.and_true, Bool.and_eq_true, Bool.not_eq_true',
      Bool.or_eq_false_iff, Bool.or_eq_true, beq_iff_eq]
    tauto
  refine ⟨hsent, hiff, ?_, ?_, ?_⟩
  · intro hkind
    have hno : errorReplyDue stanza c = false := by
      cases hdue : errorReplyDue stanza c
      · rfl
      · obtain ⟨hk, _, _⟩ := hiff.mp hdue
        rcases hkind with h | h <;> rcases hk with h2 | h2 <;> rw [h] at h2 <;>
          exact absurd h2 (by decide)
    rw [hsent, hno]
    simp
  · intro hhandled
    have hno : errorReplyDue stanza c = false := by
      cases hdue : errorReplyDue stanza c
      · rfl
      · obtain ⟨_, h1, h2⟩ := hiff.mp hdue
        rcases hhandled with h | h
        · rw [h1] at h
          exact absurd h (by decide)
        · rw [h2] at h
          exact absurd h (by decide)
    rw [hsent, hno]
    simp
  · rw [hsent]
    cases errorReplyDue stanza c <;> simp

/-- C22 at the sample roster query on the client whose namespace handler reports it
not handled. -/
theorem C22_error_reply_witness :
    sentTags (Client.notifyIqHandlers Sample.rosterGet Sample.idleClient).events
      = [Sample.rosterError] ∧
    sentTags (Client.notifyIqHandlers Sample.rosterGet Sample.rosterClient).events = [] := by
  have h := C22_error_reply Sample.rosterGet Sample.idleClient Sample.conn rfl rfl
  have h2 := C22_error_reply Sample.rosterGet Sample.rosterClient Sample.conn rfl rfl
  exact ⟨h.1, h2.2.2.2.1 (Or.inl (by decide))⟩

/-- C23, as stated, fails: the error reply to the sample roster query, which no handler
is registered for, has the three attributes and no child at all, so no error child. -/
theorem C23_counterexample :
    Client.notifyIqHandlers Sample.rosterGet Sample.client
      = { Sample.client with events := [Event.send Sample.rosterError] } ∧
    Sample.rosterError.m_children = [] ∧
    Sample.rosterError.findChild "error" = none :=
  ⟨rfl, rfl, rfl⟩

/-- C23, amended: the error reply notifyIqHandlers sends for an unhandled get or set IQ
is an iq element that carries the three attributes type error, the copied id and, as
to, the full address of the sender, and nothing else: it has no child element, so no
error child and no error condition. -/
theorem C23_error_reply_shape (stanza : Stanza) (c : Client) (conn : Connection)
    (hconn : c.m_connection = some conn) (hdue : errorReplyDue stanza c = true) :
    ∃ reply,
      sentTags (Client.notifyIqHandlers stanza c).events = sentTags c.events ++ [reply] ∧
      reply.name = "iq" ∧
      reply.m_attribs = [("type", "error"), ("id", stanza.m_id), ("to", stanza.m_from.full)] ∧
      reply.hasAttribute "type" "error" = true ∧
      reply.findAttribute "id" = stanza.m_id ∧
      reply.findAttribute "to" = stanza.m_from.full ∧
      reply.m_children = [] ∧ reply.m_cdata = "" ∧
      reply.findChild "error" = none := by
  refine ⟨errorReply stanza, ?_, rfl, rfl, ?_, ?_, ?_, rfl, rfl, rfl⟩
  · rw [Client.sentTags_notifyIqHandlers]
    simp [hconn, hdue]
  · simp [errorReply, Tag.hasAttribute]
  · simp [errorReply, Tag.findAttribute, List.find?]
  · simp [errorReply, Tag.findAttribute, List.find?]

/-- C23 at the sample roster query on the client without handlers. -/
theorem C23_error_reply_shape_witness :
    ∃ reply,
      sentTags (Client.notifyIqHandlers Sample.rosterGet Sample.client).events
        = sentTags Sample.client.events ++ [reply] ∧
      reply.name = "iq" ∧
      reply.m_attribs = [("type", "error"), ("id", Sample.rosterGet.m_id),
        ("to", Sample.rosterGet.m_from.full)] ∧
      reply.hasAttribute "type" "error" = true ∧
      reply.findAttribute "id" = Sample.rosterGet.m_id ∧
      reply.findAttribute "to" = Sample.rosterGet.m_from.full ∧
      reply.m_children = [] ∧ reply.m_cdata = "" ∧
      reply.findChild "error" = none :=
  C23_error_reply_shape Sample.rosterGet Sample.client Sample.conn rfl (by decide)

/-! ## Dispatch of messages, presence and subscriptions: claims -/

/-- C24: for every stanza, each of notifyMessageHandlers, notifyPresenceHandlers and
notifySubscriptionHandlers invokes the handlers of its list, one call per entry in the
order of the list, and does nothing else: no handler of another kind is invoked and
nothing is sent. The list holds the handlers in registration order, one entry per
registration. -/
theorem C24_stanza_handlers (stanza : Stanza) (c : Client) :
    (Client.notifyMessageHandlers stanza c =
        { c with
          events := c.events ++
            c.m_messageHandlers.map (fun mh => Event.handleMessage mh.ptr stanza) } ∧
      Client.notifyPresenceHandlers stanza c =
        { c with
          events := c.events ++
            c.m_presenceHandlers.map (fun ph => Event.handlePresence ph.ptr stanza) } ∧
      Client.notifySubscriptionHandlers stanza c =
        { c with
          events := c.events ++
            c.m_subscriptionHandlers.map
              (fun sh => Event.handleSubscription sh.ptr stanza) }) ∧
    (sentTags (Client.notifyMessageHandlers stanza c).events = sentTags c.events ∧
      sentTags (Client.notifyPresenceHandlers stanza c).events = sentTags c.events ∧
      sentTags (Client.notifySubscriptionHandlers stanza c).events = sentTags c.events) ∧
    ((∀ mhs : List MessageHandler,
        (mhs.foldl (fun acc mh => Client.registerMessageHandler mh acc) c).m_messageHandlers
          = c.m_messageHandlers ++ mhs) ∧
      (∀ phs : List PresenceHandler,
        (phs.foldl (fun acc ph => Client.registerPresenceHandler ph acc) c).m_presenceHandlers
          = c.m_presenceHandlers ++ phs) ∧
      (∀ shs : List SubscriptionHandler,
        (shs.foldl (fun acc sh => Client.registerSubscriptionHandler sh acc)
            c).m_subscriptionHandlers
          = c.m_subscriptionHandlers ++ shs)) := by
  refine ⟨⟨Client.notifyMessageHandlers_eq stanza c, Client.notifyPresenceHandlers_eq stanza c,
    Client.notifySubscriptionHandlers_eq stanza c⟩, ⟨?_, ?_, ?_⟩, ⟨?_, ?_, ?_⟩⟩
  · rw [Client.notifyMessageHandlers_eq]
    have hnone := Client.sentTags_map_of_none
      (fun mh : MessageHandler => Event.handleMessage mh.ptr stanza) c.m_messageHandlers (fun _ => rfl)
    simp [Client.sentTags_append, hnone]
  · rw [Client.notifyPresenceHandlers_eq]
    have hnone := Client.sentTags_map_of_none
      (fun ph : PresenceHandler => Event.handlePresence ph.ptr stanza) c.m_presenceHandlers (fun _ => rfl)
    simp [Client.sentTags_append, hnone]
  · rw [Client.notifySubscriptionHandlers_eq]
    have hnone := Client.sentTags_map_of_none
      (fun sh : SubscriptionHandler => Event.handleSubscription sh.ptr stanza) c.m_subscriptionHandlers (fun _ => rfl)
    simp [Client.sentTags_append, hnone]
  · intro mhs
    induction mhs generalizing c with
    | nil => simp
    | cons mh rest ih =>
      rw [List.foldl_cons, ih]
      simp [Client.registerMessageHandler]
  · intro phs
    induction phs generalizing c with
    | nil => simp
    | cons ph rest ih =>
      rw [List.foldl_cons, ih]
      simp [Client.registerPresenceHandler]
  · intro shs
    induction shs generalizing c with
    | nil => simp
    | cons sh rest ih =>
      rw [List.foldl_cons, ih]
      simp [Client.registerSubscriptionHandler]

/-- C24 at a client on which the message handler 4 was registered twice, around the
message handler 5, next to a presence handler: the message is handed to 4, 5 and 4. -/
theorem C24_stanza_handlers_witness :
    Client.notifyMessageHandlers Sample.message Sample.chatClient
      = { Sample.chatClient with
          events := [Event.handleMessage 4 Sample.message, Event.handleMessage 5 Sample.message,
            Event.handleMessage 4 Sample.message] } :=
  (C24_stanza_handlers Sample.message Sample.chatClient).1.1

/-! ## Both paths of the IQ dispatch: claims -/

/-- C25: the two IQ matching paths are independent and unguarded. For every IQ whose id
is tracked to a handler H and which matches a namespace under which the same H is
registered, notifyIqHandlers invokes H through handleIq once for every matching
namespace under which H is registered, at least once, and then once through
handleIqID, for that one stanza; when H is registered under one matching namespace,
these are exactly two invocations. -/
theorem C25_both_paths (stanza : Stanza) (c : Client) (track : TrackStruct)
    (hid : StdMap.find c.m_iqIDHandlers stanza.m_id = some track)
    (hns : ∃ e ∈ c.m_iqNSHandlers,
      stanza.hasChildWithAttrib "xmlns" e.1 = true ∧ e.2.ptr = track.ih.ptr) :
    ∃ added,
      (Client.notifyIqHandlers stanza c).events = c.events ++ added ∧
      handlerCalls track.ih.ptr added
        = (c.m_iqNSHandlers.filter
            (fun e => stanza.hasChildWithAttrib "xmlns" e.1 && e.2.ptr == track.ih.ptr)).map
            (fun _ => Event.handleIq track.ih.ptr stanza)
          ++ [Event.handleIqID track.ih.ptr stanza track.context] ∧
      1 ≤ (c.m_iqNSHandlers.filter
            (fun e => stanza.hasChildWithAttrib "xmlns" e.1
              && e.2.ptr == track.ih.ptr)).length ∧
      ((c.m_iqNSHandlers.filter
            (fun e => stanza.hasChildWithAttrib "xmlns" e.1
              && e.2.ptr == track.ih.ptr)).length = 1 →
        handlerCalls track.ih.ptr added
          = [Event.handleIq track.ih.ptr stanza,
             Event.handleIqID track.ih.ptr stanza track.context]) := by
  have hcalls : handlerCalls track.ih.ptr
      (nsCalls stanza c.m_iqNSHandlers ++ idTrackCalls stanza c.m_iqIDHandlers ++
        (if errorReplyDue stanza c && c.m_connection.isSome then
          [Event.send (errorReply stanza)] else []))
      = (c.m_iqNSHandlers.filter
          (fun e => stanza.hasChildWithAttrib "xmlns" e.1 && e.2.ptr == track.ih.ptr)).map
          (fun _ => Event.handleIq track.ih.ptr stanza)
        ++ [Event.handleIqID track.ih.ptr stanza track.context] := by
    rw [Client.handlerCalls_append, Client.handlerCalls_append, Client.handlerCalls_nsCalls,
      Client.handlerCalls_reply]
    simp [idTrackCalls, hid, handlerCalls]
  refine ⟨_, ?_, hcalls, ?_, ?_⟩
  · rw [Client.notifyIqHandlers_eq]
    simp [List.append_assoc]
  · obtain ⟨e, hmem, hmatch, hptr⟩ := hns
    have hin : e ∈ c.m_iqNSHandlers.filter
        (fun e => stanza.hasChildWithAttrib "xmlns" e.1 && e.2.ptr == track.ih.ptr) :=
      List.mem_filter.mpr ⟨hmem, by simp [hmatch, hptr]⟩
    exact List.length_pos_of_mem hin
  · intro hone
    rw [hcalls]
    obtain ⟨x, hx⟩ := List.length_eq_one.mp hone
    rw [hx]
    rfl

/-- C25 at the sample roster query on the client that tracks its id with the handler
registered for the roster namespace: the handler is invoked twice. -/
theorem C25_both_paths_witness :
    ∃ added,
      (Client.notifyIqHandlers Sample.rosterGet Sample.rosterClient).events
        = Sample.rosterClient.events ++ added ∧
      handlerCalls 7 added
        = [Event.handleIq 7 Sample.rosterGet, Event.handleIqID 7 Sample.rosterGet 3] := by
  obtain ⟨added, h1, _, _, h4⟩ := C25_both_paths Sample.rosterGet Sample.rosterClient
    { ih := Sample.handler, context := 3 } rfl
    ⟨("jabber:iq:roster", Sample.handler), List.mem_singleton.mpr rfl, by decide, rfl⟩
  exact ⟨added, h1, h4 (by decide)⟩

/-! ## The connected notification: claims -/

/-- C26, as stated, fails: a session result that is replayed notifies the one
connection listener of the sample client a second time. -/
theorem C26_counterexample :
    Client.handleNormalNode Sample.build Sample.sessionResult Sample.authedClient
      = some (true, Sample.readyClient) ∧
    Client.handleNormalNode Sample.build Sample.sessionResult Sample.readyClient
      = some (true,
        { Sample.authedClient with
            events := [Event.rosterFill, Event.onConnect 1, Event.rosterFill,
              Event.onConnect 1] }) ∧
    connectCalls [Event.rosterFill, Event.onConnect 1, Event.rosterFill, Event.onConnect 1]
      = [1, 1] :=
  ⟨rfl, rfl, rfl⟩

/-- C26, amended: the connected notification is delivered at most once per incoming
element. Whatever element handleNormalNode is handed, and whatever came before, the
calls it adds notify of the connection either nobody or every registered connection
listener, once for each of its registrations; the list of listeners is unchanged.
Nothing keeps a later element from delivering the notification again. -/
theorem C26_connect_once_per_element (b : Build) (stanza : Stanza) (c c2 : Client) (r : Bool)
    (hrun : Client.handleNormalNode b stanza c = some (r, c2)) :
    c2.m_connectionListeners = c.m_connectionListeners ∧
      ∃ added, c2.events = c.events ++ added ∧
        (connectCalls added = [] ∨
          connectCalls added = c.m_connectionListeners.map (fun cl => cl.ptr)) := by
  obtain ⟨hl, added, he, _, hc⟩ := Client.connectsAtMostOnce_handleNormalNode b stanza r hrun
  exact ⟨hl, added, he, hc⟩

/-- C26 at the replayed session result on the sample client. -/
theorem C26_connect_once_per_element_witness :
    Sample.authedClient.m_connectionListeners = Sample.readyClient.m_connectionListeners ∧
      ∃ added,
        [Event.rosterFill, Event.onConnect 1, Event.rosterFill, Event.onConnect 1]
          = Sample.readyClient.events ++ added ∧
        (connectCalls added = [] ∨
          connectCalls added
            = Sample.readyClient.m_connectionListeners.map (fun cl => cl.ptr)) :=
  C26_connect_once_per_element Sample.build Sample.sessionResult Sample.readyClient
    { Sample.authedClient with
        events := [Event.rosterFill, Event.onConnect 1, Event.rosterFill, Event.onConnect 1] }
    true rfl

/-! ## Disconnect: claims -/

/-- C27, as stated, fails: on a client whose connection object reports the state
Disconnected, disconnect sets the state and calls the disconnect of the transport; a
second disconnect in a row does so again. -/
theorem C27_counterexample :
    Sample.closedClient.state = ConnectionState.STATE_DISCONNECTED ∧
    Client.disconnect ConnectionError.ConnUserDisconnected Sample.closedClient
      = { Sample.closedClient with
          events := [Event.setState ConnectionError.ConnUserDisconnected, Event.disconnect] } ∧
    (Client.disconnect ConnectionError.ConnUserDisconnected
      (Client.disconnect ConnectionError.ConnUserDisconnected Sample.client)).events
      = [Event.setState ConnectionError.ConnUserDisconnected, Event.disconnect,
         Event.setState ConnectionError.ConnUserDisconnected, Event.disconnect] :=
  ⟨rfl, rfl, rfl⟩

/-- C27, amended: disconnect is a no-op on a client that has no connection object,
whose state is then reported as Disconnected: it changes no state, triggers no
transport disconnect and notifies nobody. On a client with a connection object it
sets the state of the transport to the reason and calls the disconnect of the
transport, whatever state the transport reports, and changes nothing else; it notifies
no connection listener itself. -/
theorem C27_disconnect (reason : ConnectionError) (c : Client) :
    (c.m_connection = none →
      c.state = ConnectionState.STATE_DISCONNECTED ∧ Client.disconnect reason c = c) ∧
    (∀ conn, c.m_connection = some conn →
      Client.disconnect reason c
        = { c with events := c.events ++ [Event.setState reason, Event.disconnect] }) := by
  constructor
  · intro hnone
    simp [Client.state, Client.disconnect, hnone]
  · intro conn hconn
    exact Client.disconnect_eq reason c conn hconn

/-- C27 at a client without a connection object and at the sample client whose
transport reports Disconnected. -/
theorem C27_disconnect_witness :
    (({} : Client).state = ConnectionState.STATE_DISCONNECTED ∧
      Client.disconnect ConnectionError.ConnUserDisconnected {} = {}) ∧
    Client.disconnect ConnectionError.ConnUserDisconnected Sample.closedClient
      = { Sample.closedClient with
          events := Sample.closedClient.events ++
            [Event.setState ConnectionError.ConnUserDisconnected, Event.disconnect] } :=
  ⟨(C27_disconnect ConnectionError.ConnUserDisconnected {}).1 rfl,
    (C27_disconnect ConnectionError.ConnUserDisconnected Sample.closedClient).2 _ rfl⟩

/-- C28, as stated, fails: after disconnect the id q1 is still tracked, and the roster
query that arrives then invokes the tracked handler. -/
theorem C28_counterexample :
    StdMap.find
        (Client.disconnect ConnectionError.ConnUserDisconnected
          Sample.rosterClient).m_iqIDHandlers "q1"
      = some { ih := Sample.handler, context := 3 } ∧
    idCalls (Client.notifyIqHandlers Sample.rosterGet
        (Client.disconnect ConnectionError.ConnUserDisconnected Sample.rosterClient)).events
      = [(7, Sample.rosterGet, 3)] :=
  ⟨rfl, rfl⟩

/-- C28, amended: disconnect leaves the id-tracking table as it is and invokes none of
the tracked handlers; an IQ that arrives later with a tracked id invokes its
id-tracked handler, once, with the stored context, and only then is the entry
removed. -/
theorem C28_table_survives (reason : ConnectionError) (c : Client) :
    (Client.disconnect reason c).m_iqIDHandlers = c.m_iqIDHandlers ∧
    idCalls (Client.disconnect reason c).events = idCalls c.events ∧
    (∀ (stanza : Stanza) (track : TrackStruct),
      StdMap.find c.m_iqIDHandlers stanza.m_id = some track →
      idCalls (Client.notifyIqHandlers stanza (Client.disconnect reason c)).events
          = idCalls c.events ++ [(track.ih.ptr, stanza, track.context)] ∧
        (Client.notifyIqHandlers stanza (Client.disconnect reason c)).m_iqIDHandlers
          = StdMap.erase c.m_iqIDHandlers stanza.m_id) := by
  refine ⟨Client.disconnect_table reason c, Client.disconnect_idCalls reason c, ?_⟩
  intro stanza track hfind
  constructor
  · rw [Client.idCalls_notifyIqHandlers, Client.disconnect_idCalls, Client.disconnect_table]
    simp [idTrackCalls, hfind, idCalls]
  · rw [Client.notifyIqHandlers_eq, Client.disconnect_table]

/-- C28 at the client that tracks the id q1, disconnected before the roster query with
that id arrives. -/
theorem C28_table_survives_witness :
    idCalls (Client.notifyIqHandlers Sample.rosterGet
        (Client.disconnect ConnectionError.ConnUserDisconnected Sample.rosterClient)).events
      = idCalls Sample.rosterClient.events ++ [(Sample.handler.ptr, Sample.rosterGet, 3)] ∧
    (Client.notifyIqHandlers Sample.rosterGet
        (Client.disconnect ConnectionError.ConnUserDisconnected
          Sample.rosterClient)).m_iqIDHandlers
      = StdMap.erase Sample.rosterClient.m_iqIDHandlers Sample.rosterGet.m_id :=
  (C28_table_survives ConnectionError.ConnUserDisconnected Sample.rosterClient).2.2
    Sample.rosterGet { ih := Sample.handler, context := 3 } rfl

/-! ## Errors of the negotiation steps: claims -/

/-- C29, as stated, fails: after the bind error of type cancel with a conflict
condition, and after the session error of type auth with a forbidden condition, the
listener is notified and nothing else happens; the client does not disconnect. -/
theorem C29_counterexample :
    Client.handleNormalNode Sample.build (Sample.errorReplyTo "bind" "cancel" "conflict")
        Sample.authedClient
      = some (true,
        { Sample.authedClient with
            events := [Event.onResourceBindError 1 ResourceBindError.RbErrorConflict] }) ∧
    Client.handleNormalNode Sample.build (Sample.errorReplyTo "session" "auth" "forbidden")
        Sample.authedClient
      = some (true,
        { Sample.authedClient with
            events := [Event.onSessionCreateError 1 SessionCreateError.ScErrorForbidden] }) ∧
    disconnectCalls [Event.onResourceBindError 1 ResourceBindError.RbErrorConflict] = [] ∧
    disconnectCalls [Event.onSessionCreateError 1 SessionCreateError.ScErrorForbidden] = [] :=
  ⟨rfl, rfl, rfl, rfl⟩

/-- C29, amended: a bind or session error is reported and not followed by a
disconnection. For every error IQ with id bind or id session, handleNormalNode
returns true after notifying every connection listener of one bind error
(onResourceBindError) or of one session error (onSessionCreateError); these
notifications are the only calls it makes, and it neither sets the state of the
transport nor disconnects it. -/
theorem C29_error_without_disconnect (b : Build) (stanza : Stanza) (c : Client)
    (hname : stanza.name = "iq")
    (hkind : stanza.m_subtype = StanzaSubType.STANZA_IQ_ERROR)
    (hid : stanza.hasAttribute "id" "bind" = true ∨ stanza.hasAttribute "id" "session" = true) :
    ∃ c2, Client.handleNormalNode b stanza c = some (true, c2) ∧
      ((stanza.hasAttribute "id" "bind" = true ∧
          ∃ error, c2 =
            { c with
              events := c.events ++
                c.m_connectionListeners.map
                  (fun cl => Event.onResourceBindError cl.ptr error) }) ∨
        (stanza.hasAttribute "id" "bind" = false ∧
          ∃ error, c2 =
            { c with
              events := c.events ++
                c.m_connectionListeners.map
                  (fun cl => Event.onSessionCreateError cl.ptr error) })) ∧
      disconnectCalls c2.events = disconnectCalls c.events := by
  rw [Client.handleNormalNode_iq b stanza c hname]
  unfold Client.handleIqReplies
  cases hb : stanza.hasAttribute "id" "bind"
  · have hs : stanza.hasAttribute "id" "session" = true := by
      rcases hid with h | h
      · rw [hb] at h
        exact absurd h (by decide)
      · exact h
    obtain ⟨error, herr⟩ := Client.processCreateSession_error_any stanza c hkind
    have hnone := Client.disconnectCalls_map_of_none
      (fun cl : ConnectionListener => Event.onSessionCreateError cl.ptr error)
      c.m_connectionListeners (fun _ => rfl)
    refine ⟨Client.notifyOnSessionCreateError error c, by simp [hname, hs, herr],
      Or.inr ⟨rfl, error, ?_⟩, ?_⟩
    · exact Client.notifyOnSessionCreateError_eq error c
    · rw [Client.notifyOnSessionCreateError_eq]
      simp [Client.disconnectCalls_append, hnone]
  · obtain ⟨error, herr⟩ := Client.processResourceBind_error_any stanza c hkind
    have hnone := Client.disconnectCalls_map_of_none
      (fun cl : ConnectionListener => Event.onResourceBindError cl.ptr error)
      c.m_connectionListeners (fun _ => rfl)
    refine ⟨Client.notifyOnResourceBindError error c, by simp [hname, herr],
      Or.inl ⟨rfl, error, ?_⟩, ?_⟩
    · exact Client.notifyOnResourceBindError_eq error c
    · rw [Client.notifyOnResourceBindError_eq]
      simp [Client.disconnectCalls_append, hnone]

/-- C29 at the bind error of type cancel with a conflict condition on the sample
client. -/
theorem C29_error_without_disconnect_witness :
    ∃ c2, Client.handleNormalNode Sample.build (Sample.errorReplyTo "bind" "cancel" "conflict")
        Sample.authedClient = some (true, c2) ∧
      disconnectCalls c2.events = disconnectCalls Sample.authedClient.events := by
  obtain ⟨c2, h1, _, h3⟩ := C29_error_without_disconnect Sample.build
    (Sample.errorReplyTo "bind" "cancel" "conflict") Sample.authedClient rfl rfl
    (Or.inl (by decide))
  exact ⟨c2, h1, h3⟩

/-! ## Control elements and stanzas: claims -/

/-- C30, as stated, fails: an element that is no control element and whose stanza type
is undefined is handed to none of the notify functions, on a client that has an IQ
handler for its namespace, message handlers and a presence handler. -/
theorem C30_counterexample :
    isControl Sample.unknown = false ∧
    Sample.unknown.m_type = StanzaType.STANZA_UNDEFINED ∧
    Client.handleNormalNode Sample.build Sample.unknown Sample.busyClient
      = some (false, Sample.busyClient) ∧
    Client.filter Sample.build NodeType.NODE_STREAM_CHILD Sample.unknown Sample.busyClient
      = some Sample.busyClient ∧
    Sample.busyClient.events = [] :=
  ⟨by decide, rfl, rfl, rfl, rfl⟩

/-- C30, amended: in a build with TLS and zlib, handleNormalNode returns false exactly
when the element is none of stream:features, proceed or failure in the TLS namespace,
failure or compressed in the compression namespace, challenge, failure or success in
the SASL namespace, or an iq with id bind or session; when it returns false it has
sent nothing and changed no client state, and filter then dispatches the element
according to its stanza type: to exactly one of the IQ, presence, subscription or
message notify functions when the type is one of these, and to none when the type is
undefined. When it returns true, it has invoked no stanza handler and sent no element
of type error, and filter does nothing more. -/
theorem C30_partition (b : Build) (stanza : Stanza) (c : Client)
    (htls : b.HAVE_TLS = true) (hzlib : b.HAVE_ZLIB = true) :
    (isControl stanza = false →
      Client.handleNormalNode b stanza c = some (false, c) ∧
        (stanza.empty = false →
          Client.filter b NodeType.NODE_STREAM_CHILD stanza c
            = some (Client.dispatch stanza c))) ∧
    (∀ (r : Bool) (c2 : Client),
      Client.handleNormalNode b stanza c = some (r, c2) → r = isControl stanza) ∧
    ((stanza.m_type = StanzaType.STANZA_IQ →
        Client.dispatch stanza c = Client.notifyIqHandlers stanza c) ∧
      (stanza.m_type = StanzaType.STANZA_PRESENCE →
        Client.dispatch stanza c = Client.notifyPresenceHandlers stanza c) ∧
      (stanza.m_type = StanzaType.STANZA_S10N →
        Client.dispatch stanza c = Client.notifySubscriptionHandlers stanza c) ∧
      (stanza.m_type = StanzaType.STANZA_MESSAGE →
        Client.dispatch stanza c = Client.notifyMessageHandlers stanza c) ∧
      (stanza.m_type = StanzaType.STANZA_UNDEFINED → Client.dispatch stanza c = c)) ∧
    (∀ c2 : Client, Client.handleNormalNode b stanza c = some (true, c2) →
      (∃ added, c2.events = c.events ++ added ∧
        ∀ e ∈ added, e.isDispatch = false ∧ e.isErrorReply = false) ∧
      (stanza.empty = false →
        Client.filter b NodeType.NODE_STREAM_CHILD stanza c = some c2)) := by
  refine ⟨?_, ?_, ⟨?_, ?_, ?_, ?_, ?_⟩, ?_⟩
  · intro hctl
    exact ⟨Client.handleNormalNode_noncontrol b stanza c hctl,
      fun hempty => Client.filter_noncontrol b stanza c hempty hctl⟩
  · intro r c2 hrun
    exact Client.handleNormalNode_flag b stanza htls hzlib hrun
  · intro h
    simp [Client.dispatch, h]
  · intro h
    simp [Client.dispatch, h]
  · intro h
    simp [Client.dispatch, h]
  · intro h
    simp [Client.dispatch, h]
  · intro h
    simp [Client.dispatch, h]
  · intro c2 hrun
    obtain ⟨_, added, he, hq, _⟩ :=
      Client.connectsAtMostOnce_handleNormalNode b stanza true hrun
    exact ⟨⟨added, he, hq⟩, fun hempty => Client.filter_control b stanza c c2 hempty hrun⟩

/-- C30 at a message on the client with message and presence handlers: it is no control
element, handleNormalNode leaves it alone and filter hands it to the message
handlers. -/
theorem C30_partition_witness :
    Client.handleNormalNode Sample.build Sample.message Sample.chatClient
      = some (false, Sample.chatClient) ∧
    Client.filter Sample.build NodeType.NODE_STREAM_CHILD Sample.message Sample.chatClient
      = some (Client.notifyMessageHandlers Sample.message Sample.chatClient) := by
  have h := C30_partition Sample.build Sample.message Sample.chatClient rfl rfl
  obtain ⟨h1, h2⟩ := h.1 (by decide)
  have h3 := h.2.2.1.2.2.2.1 rfl
  rw [h3] at h2
  exact ⟨h1, h2 rfl⟩


/-! ## Connecting: claims -/

/-- C31: connect returns false if and only if the server part of the address of the
client is empty, and then it changes nothing: no parser and no connection is created
and nothing is sent. Otherwise it returns true, the parser and the connection exist
afterwards, the connect of the transport is called, and the stream header is sent,
once, followed by the receive loop, exactly when that connect reports the connected
state. -/
theorem C31_connect (fresh : Connection) (c : Client) :
    ((Client.connect fresh c).1 = false ↔ c.m_jid.server = "") ∧
    (c.m_jid.server = "" → Client.connect fresh c = (false, c)) ∧
    (c.m_jid.server ≠ "" →
      Client.connect fresh c = (true,
        { c with
          hasParser := true,
          m_connection := some (c.m_connection.getD fresh),
          events := c.events ++ [Event.connect] ++
            (if (c.m_connection.getD fresh).connectResult
                = ConnectionState.STATE_CONNECTED then
              [Event.sendXml (Client.streamHeader c), Event.receive] else []) })) := by
  have hempty : c.m_jid.server = "" → Client.connect fresh c = (false, c) := by
    intro h
    simp [Client.connect, h]
  refine ⟨?_, hempty, Client.connect_eq fresh c⟩
  constructor
  · intro hfalse
    by_contra hne
    rw [Client.connect_eq fresh c hne] at hfalse
    simp at hfalse
  · intro h
    rw [hempty h]

/-- C31 at a client without a server, at the sample client whose transport connects,
and at a client that has no connection yet and whose new transport does not connect. -/
theorem C31_connect_witness :
    Client.connect Sample.conn {} = (false, {}) ∧
    (Client.connect Sample.deadConn Sample.client).2.events
      = [Event.connect, Event.sendXml (Client.streamHeader Sample.client), Event.receive] ∧
    (Client.connect Sample.deadConn { Sample.client with m_connection := none }).2.events
      = [Event.connect] :=
  ⟨(C31_connect Sample.conn {}).2.1 rfl,
    congrArg (fun r => r.2.events)
      ((C31_connect Sample.deadConn Sample.client).2.2 (by decide)),
    congrArg (fun r => r.2.events)
      ((C31_connect Sample.deadConn { Sample.client with m_connection := none }).2.2
        (by decide))⟩

/-! ## Registration of IQ handlers: claims -/

/-- C32: only one IQ handler per namespace is possible. On a client whose handler table
has unique keys, after registerIqHandler( h1, ns ) followed by registerIqHandler( h2,
ns ) the table holds one entry under ns, with h2, and the entries under the other
namespaces are as before; an IQ that matches ns and no other registered namespace
invokes h2 once and no other handler. After removeIqHandler( ns ) the table holds no
entry under ns, the entries under the other namespaces are still as before, and such an
IQ invokes no handler. -/
theorem C32_one_handler_per_namespace (c : Client) (h1 h2 : IqHandler) (ns : String)
    (hwf : StdMap.WF c.m_iqNSHandlers) :
    ((Client.registerIqHandler h2 ns (Client.registerIqHandler h1 ns c)).m_iqNSHandlers.filter
        (fun e => e.1 == ns) = [(ns, h2)] ∧
      (Client.registerIqHandler h2 ns (Client.registerIqHandler h1 ns c)).m_iqNSHandlers.filter
        (fun e => e.1 != ns) = c.m_iqNSHandlers.filter (fun e => e.1 != ns)) ∧
    ((Client.removeIqHandler ns
        (Client.registerIqHandler h2 ns (Client.registerIqHandler h1 ns c))).m_iqNSHandlers.filter
        (fun e => e.1 == ns) = [] ∧
      (Client.removeIqHandler ns
        (Client.registerIqHandler h2 ns (Client.registerIqHandler h1 ns c))).m_iqNSHandlers.filter
        (fun e => e.1 != ns) = c.m_iqNSHandlers.filter (fun e => e.1 != ns)) ∧
    (∀ stanza : Stanza, stanza.hasChildWithAttrib "xmlns" ns = true →
      (∀ e ∈ c.m_iqNSHandlers, e.1 ≠ ns → stanza.hasChildWithAttrib "xmlns" e.1 = false) →
      iqCalls (Client.notifyIqHandlers stanza
          (Client.registerIqHandler h2 ns (Client.registerIqHandler h1 ns c))).events
        = iqCalls c.events ++ [(h2.ptr, stanza)] ∧
      iqCalls (Client.notifyIqHandlers stanza
          (Client.removeIqHandler ns
            (Client.registerIqHandler h2 ns (Client.registerIqHandler h1 ns c)))).events
        = iqCalls c.events) := by
  have hwf1 : StdMap.WF (StdMap.insert c.m_iqNSHandlers ns h1) :=
    StdMap.WF_insert _ _ _ hwf
  have hwf2 : StdMap.WF (StdMap.insert (StdMap.insert c.m_iqNSHandlers ns h1) ns h2) :=
    StdMap.WF_insert _ _ _ hwf1
  have hkey : (StdMap.insert (StdMap.insert c.m_iqNSHandlers ns h1) ns h2).filter
      (fun e => e.1 == ns) = [(ns, h2)] := StdMap.filter_key_insert _ _ _ hwf1
  have hother : (StdMap.insert (StdMap.insert c.m_iqNSHandlers ns h1) ns h2).filter
      (fun e => e.1 != ns) = c.m_iqNSHandlers.filter (fun e => e.1 != ns) := by
    rw [StdMap.filter_other_insert, StdMap.filter_other_insert]
  have hkey2 : (StdMap.erase (StdMap.insert (StdMap.insert c.m_iqNSHandlers ns h1) ns h2)
      ns).filter (fun e => e.1 == ns) = [] := StdMap.filter_key_erase _ _ hwf2
  have hother2 : (StdMap.erase (StdMap.insert (StdMap.insert c.m_iqNSHandlers ns h1) ns h2)
      ns).filter (fun e => e.1 != ns) = c.m_iqNSHandlers.filter (fun e => e.1 != ns) := by
    rw [StdMap.filter_other_erase, hother]
  refine ⟨⟨hkey, hother⟩, ⟨hkey2, hother2⟩, ?_⟩
  intro stanza hmatch honly
  constructor
  · rw [Client.iqCalls_notifyIqHandlers]
    have hm := Client.filter_matching_eq stanza
      (StdMap.insert (StdMap.insert c.m_iqNSHandlers ns h1) ns h2) ns hmatch
      (fun e he hk => honly e (StdMap.mem_of_mem_filter_other _ _ ns hother e he hk) hk)
    show iqCalls c.events ++
      ((StdMap.insert (StdMap.insert c.m_iqNSHandlers ns h1) ns h2).filter
        (fun e => stanza.hasChildWithAttrib "xmlns" e.1)).map (fun e => (e.2.ptr, stanza)) = _
    rw [hm, hkey]
    rfl
  · rw [Client.iqCalls_notifyIqHandlers]
    have hm := Client.filter_matching_eq stanza
      (StdMap.erase (StdMap.insert (StdMap.insert c.m_iqNSHandlers ns h1) ns h2) ns) ns hmatch
      (fun e he hk => honly e (StdMap.mem_of_mem_filter_other _ _ ns hother2 e he hk) hk)
    show iqCalls c.events ++
      ((StdMap.erase (StdMap.insert (StdMap.insert c.m_iqNSHandlers ns h1) ns h2) ns).filter
        (fun e => stanza.hasChildWithAttrib "xmlns" e.1)).map (fun e => (e.2.ptr, stanza)) = _
    rw [hm, hkey2]
    simp

/-- C32 at the sample client and the roster namespace, with an idle handler registered
first and the sample handler second. -/
theorem C32_one_handler_per_namespace_witness :
    iqCalls (Client.notifyIqHandlers Sample.rosterGet
        (Client.registerIqHandler Sample.handler "jabber:iq:roster"
          (Client.registerIqHandler (Sample.idleHandler 9) "jabber:iq:roster"
            Sample.client))).events
      = iqCalls Sample.client.events ++ [(Sample.handler.ptr, Sample.rosterGet)] ∧
    iqCalls (Client.notifyIqHandlers Sample.rosterGet
        (Client.removeIqHandler "jabber:iq:roster"
          (Client.registerIqHandler Sample.handler "jabber:iq:roster"
            (Client.registerIqHandler (Sample.idleHandler 9) "jabber:iq:roster"
              Sample.client)))).events
      = iqCalls Sample.client.events :=
  (C32_one_handler_per_namespace Sample.client (Sample.idleHandler 9) Sample.handler
    "jabber:iq:roster" List.nodup_nil).2.2 Sample.rosterGet (by decide)
    (fun e he => absurd he (List.not_mem_nil e))

/-! ## What a dispatch leaves alone: claims -/

/-- C33: the dispatch of an IQ through notifyIqHandlers, with handlers that do not call
back into the client, leaves the table of namespace handlers, the lists of connection
listeners and of message, presence and subscription handlers, the connection and the
connection state unchanged. From the id-tracking table it removes the entry under the
id of the stanza, if there is one, and nothing else: the entries under every other id
are preserved, in their order, with their handler and context. -/
theorem C33_dispatch_frame (stanza : Stanza) (c : Client) :
    (Client.notifyIqHandlers stanza c).m_iqNSHandlers = c.m_iqNSHandlers ∧
    (Client.notifyIqHandlers stanza c).m_connectionListeners = c.m_connectionListeners ∧
    (Client.notifyIqHandlers stanza c).m_messageHandlers = c.m_messageHandlers ∧
    (Client.notifyIqHandlers stanza c).m_presenceHandlers = c.m_presenceHandlers ∧
    (Client.notifyIqHandlers stanza c).m_subscriptionHandlers = c.m_subscriptionHandlers ∧
    (Client.notifyIqHandlers stanza c).m_connection = c.m_connection ∧
    (Client.notifyIqHandlers stanza c).state = c.state ∧
    (Client.notifyIqHandlers stanza c).m_iqIDHandlers
      = StdMap.erase c.m_iqIDHandlers stanza.m_id ∧
    (Client.notifyIqHandlers stanza c).m_iqIDHandlers.filter (fun e => e.1 != stanza.m_id)
      = c.m_iqIDHandlers.filter (fun e => e.1 != stanza.m_id) ∧
    (∀ id : String, id ≠ stanza.m_id →
      StdMap.find (Client.notifyIqHandlers stanza c).m_iqIDHandlers id
        = StdMap.find c.m_iqIDHandlers id) ∧
    (StdMap.find c.m_iqIDHandlers stanza.m_id = none →
      (Client.notifyIqHandlers stanza c).m_iqIDHandlers = c.m_iqIDHandlers) := by
  rw [Client.notifyIqHandlers_eq]
  refine ⟨rfl, rfl, rfl, rfl, rfl, rfl, rfl, rfl, ?_, ?_, ?_⟩
  · exact StdMap.filter_other_erase _ _
  · intro id hne
    exact StdMap.find_erase_other _ _ _ hne
  · intro hnone
    exact StdMap.erase_of_find_none _ _ hnone

/-- C33 at the sample roster query on the client that tracks its id: what is tracked
under another id stays. -/
theorem C33_dispatch_frame_witness :
    StdMap.find (Client.notifyIqHandlers Sample.rosterGet
        (Client.trackID Sample.handler "q7" 5 Sample.rosterClient)).m_iqIDHandlers "q7"
      = StdMap.find (Client.trackID Sample.handler "q7" 5 Sample.rosterClient).m_iqIDHandlers
          "q7" :=
  (C33_dispatch_frame Sample.rosterGet
    (Client.trackID Sample.handler "q7" 5 Sample.rosterClient)).2.2.2.2.2.2.2.2.2.1 "q7"
    (by decide)

/-! ## Malformed bind replies: claims -/

/-- C34 fails on the code: a result IQ with id bind that has no bind child, and one
whose bind child has no jid child, make processResourceBind dereference the null
pointer the lookup returned; handleNormalNode does not return for either. -/
theorem C34_null_dereference :
    Sample.emptyBindResult.findChild "bind" = none ∧
    Client.processResourceBind Sample.emptyBindResult Sample.authedClient = none ∧
    Client.handleNormalNode Sample.build Sample.emptyBindResult Sample.authedClient = none ∧
    (∃ bind, Sample.bindResultNoJid.findChild "bind" = some bind ∧
      bind.findChild "jid" = none) ∧
    Client.processResourceBind Sample.bindResultNoJid Sample.authedClient = none ∧
    Client.handleNormalNode Sample.build Sample.bindResultNoJid Sample.authedClient = none :=
  ⟨rfl, rfl, rfl, ⟨_, rfl, rfl⟩, rfl, rfl⟩

/-! ## Removal of handlers: claims -/

/-- C35: for each of the four kinds of listener (message, presence, subscription,
connection) the remove function takes every occurrence of the handler out of the list
of its kind and keeps the other entries in their order, so that the notification that
follows calls exactly the other entries, in their order, and the removed handler not at
all; and after n registrations of one handler the notification calls it n times, after
the entries that were there before. -/
theorem C35_remove_and_repeat (stanza : Stanza) (c : Client) (mh : MessageHandler)
    (ph : PresenceHandler) (sh : SubscriptionHandler) (cl : ConnectionListener) (n : Nat) :
    ((Client.notifyMessageHandlers stanza (Client.removeMessageHandler mh c)).events
        = c.events ++ (c.m_messageHandlers.filter (fun h => h.ptr != mh.ptr)).map
            (fun h => Event.handleMessage h.ptr stanza) ∧
      (Client.notifyMessageHandlers stanza
          ((List.replicate n mh).foldl (fun acc h => Client.registerMessageHandler h acc)
            c)).events
        = c.events ++ c.m_messageHandlers.map (fun h => Event.handleMessage h.ptr stanza)
          ++ List.replicate n (Event.handleMessage mh.ptr stanza)) ∧
    ((Client.notifyPresenceHandlers stanza (Client.removePresenceHandler ph c)).events
        = c.events ++ (c.m_presenceHandlers.filter (fun h => h.ptr != ph.ptr)).map
            (fun h => Event.handlePresence h.ptr stanza) ∧
      (Client.notifyPresenceHandlers stanza
          ((List.replicate n ph).foldl (fun acc h => Client.registerPresenceHandler h acc)
            c)).events
        = c.events ++ c.m_presenceHandlers.map (fun h => Event.handlePresence h.ptr stanza)
          ++ List.replicate n (Event.handlePresence ph.ptr stanza)) ∧
    ((Client.notifySubscriptionHandlers stanza (Client.removeSubscriptionHandler sh c)).events
        = c.events ++ (c.m_subscriptionHandlers.filter (fun h => h.ptr != sh.ptr)).map
            (fun h => Event.handleSubscription h.ptr stanza) ∧
      (Client.notifySubscriptionHandlers stanza
          ((List.replicate n sh).foldl
            (fun acc h => Client.registerSubscriptionHandler h acc) c)).events
        = c.events
          ++ c.m_subscriptionHandlers.map (fun h => Event.handleSubscription h.ptr stanza)
          ++ List.replicate n (Event.handleSubscription sh.ptr stanza)) ∧
    ((Client.notifyOnConnect (Client.removeConnectionListener cl c)).events
        = c.events ++ (c.m_connectionListeners.filter (fun h => h.ptr != cl.ptr)).map
            (fun h => Event.onConnect h.ptr) ∧
      (Client.notifyOnConnect
          ((List.replicate n cl).foldl (fun acc h => Client.registerConnectionListener h acc)
            c)).events
        = c.events ++ c.m_connectionListeners.map (fun h => Event.onConnect h.ptr)
          ++ List.replicate n (Event.onConnect cl.ptr)) ∧
    ((∀ h ∈ (Client.removeMessageHandler mh c).m_messageHandlers, h.ptr ≠ mh.ptr) ∧
      (∀ h ∈ (Client.removePresenceHandler ph c).m_presenceHandlers, h.ptr ≠ ph.ptr) ∧
      (∀ h ∈ (Client.removeSubscriptionHandler sh c).m_subscriptionHandlers,
        h.ptr ≠ sh.ptr) ∧
      (∀ h ∈ (Client.removeConnectionListener cl c).m_connectionListeners,
        h.ptr ≠ cl.ptr)) := by
  have hm := Client.messageHandlers_events mh n c
  have hp := Client.presenceHandlers_events ph n c
  have hs := Client.subscriptionHandlers_events sh n c
  have hc := Client.connectionListeners_events cl n c
  refine ⟨⟨?_, ?_⟩, ⟨?_, ?_⟩, ⟨?_, ?_⟩, ⟨?_, ?_⟩, ⟨?_, ?_, ?_, ?_⟩⟩
  · rw [Client.notifyMessageHandlers_eq]
    rfl
  · rw [Client.notifyMessageHandlers_eq]
    simp only [Client.messageHandlers_replicate, hm, List.map_append, List.map_replicate,
      List.append_assoc]
  · rw [Client.notifyPresenceHandlers_eq]
    rfl
  · rw [Client.notifyPresenceHandlers_eq]
    simp only [Client.presenceHandlers_replicate, hp, List.map_append, List.map_replicate,
      List.append_assoc]
  · rw [Client.notifySubscriptionHandlers_eq]
    rfl
  · rw [Client.notifySubscriptionHandlers_eq]
    simp only [Client.subscriptionHandlers_replicate, hs, List.map_append, List.map_replicate,
      List.append_assoc]
  · rw [Client.notifyOnConnect_eq]
    rfl
  · rw [Client.notifyOnConnect_eq]
    simp only [Client.notifyOnConnect_replicate, hc, List.map_append, List.map_replicate,
      List.append_assoc]
  · intro h hmem
    have := (List.mem_filter.mp hmem).2
    simpa using this
  · intro h hmem
    have := (List.mem_filter.mp hmem).2
    simpa using this
  · intro h hmem
    have := (List.mem_filter.mp hmem).2
    simpa using this
  · intro h hmem
    have := (List.mem_filter.mp hmem).2
    simpa using this

/-- C35 at the client on which the message handler 4 was registered twice around the
message handler 5: after its removal the message is handed to 5 alone. -/
theorem C35_remove_and_repeat_witness :
    (Client.notifyMessageHandlers Sample.message
        (Client.removeMessageHandler { ptr := 4 } Sample.chatClient)).events
      = [Event.handleMessage 5 Sample.message] ∧
    (Client.notifyMessageHandlers Sample.message
        ((List.replicate 3 { ptr := 8 }).foldl
          (fun acc h => Client.registerMessageHandler h acc) Sample.client)).events
      = [Event.handleMessage 8 Sample.message, Event.handleMessage 8 Sample.message,
         Event.handleMessage 8 Sample.message] :=
  ⟨(C35_remove_and_repeat Sample.message Sample.chatClient { ptr := 4 } { ptr := 0 }
      { ptr := 0 } { ptr := 0 } 0).1.1,
    (C35_remove_and_repeat Sample.message Sample.client { ptr := 8 } { ptr := 0 }
      { ptr := 0 } { ptr := 0 } 3).1.2⟩

/-! ## Clients that do not authenticate: claims -/

/-- C36: with SASL enabled, on a client with a connection for which authentication is
not requested and which is not authenticated, every advertisement that reaches the
authentication step makes handleNormalNode return true after notifying onConnect once
on every connection listener. No authentication is started, no roster request and no
initial presence is sent and the client does not disconnect, whatever the server
advertises: besides the notifications only the initCompression probe of the
compression step is recorded, when zlib was advertised and refused. -/
theorem C36_no_authentication_requested (b : Build) (stanza : Stanza) (c : Client)
    (conn : Connection) (features : Nat) (hname : stanza.name = "stream:features")
    (hf : Client.getStreamFeatures stanza.toTag = some features)
    (hconn : c.m_connection = some conn)
    (hreach : Client.reachesAuthStep b c conn features = true)
    (hsasl : c.sasl = true) (hdo : c.m_doAuth = false) (hauthed : c.m_authed = false) :
    Client.handleNormalNode b stanza c = some (true,
      { c with
        m_streamFeatures := features,
        events := c.events ++ Client.compressionProbe b features ++
          c.m_connectionListeners.map (fun cl => Event.onConnect cl.ptr) }) := by
  rw [Client.handleNormalNode_authStep b stanza c conn features hname hf hconn hreach]
  simp only [Client.sasl] at hsasl
  simp [Client.authStep, Client.sasl, hsasl, hdo, hauthed, Client.connected,
    Client.notifyOnConnect_eq]

/-- C36 at a client constructed from a server name, for an advertisement that lists no
mechanism the client knows. -/
theorem C36_no_authentication_requested_witness :
    Client.handleNormalNode Sample.build (Sample.features [Sample.mechanisms ["X-OAUTH2"]])
        Sample.serverClient = some (true,
      { Sample.serverClient with
        m_streamFeatures := 128,
        events := [Event.onConnect 1] }) :=
  C36_no_authentication_requested Sample.build
    (Sample.features [Sample.mechanisms ["X-OAUTH2"]]) Sample.serverClient Sample.conn 128 rfl
    (by decide) rfl (by decide) rfl rfl rfl

/-! ## The bind request after binding: claims -/

/-- C38: setInitialPriority clamps its argument to the range of the presence priority.
For every integer p the stored priority is max(-128, min(127, p)); it lies between -128
and 127, it is p when p is in that range, and setting the stored priority again changes
nothing. No other member of the client changes. -/
theorem C38_priority_clamped (p : Int) (c : Client) :
    Client.setInitialPriority p c = { c with m_priority := max (-128) (min 127 p) } ∧
    -128 ≤ (Client.setInitialPriority p c).m_priority ∧
    (Client.setInitialPriority p c).m_priority ≤ 127 ∧
    (-128 ≤ p → p ≤ 127 → (Client.setInitialPriority p c).m_priority = p) ∧
    Client.setInitialPriority (Client.setInitialPriority p c).m_priority
        (Client.setInitialPriority p c)
      = Client.setInitialPriority p c := by
  have hval : ∀ q : Int,
      (if (if q < -128 then -128 else q) > 127 then 127 else (if q < -128 then -128 else q))
        = max (-128) (min 127 q) := by
    intro q
    split_ifs <;> omega
  have hset : ∀ (q : Int) (d : Client),
      Client.setInitialPriority q d = { d with m_priority := max (-128) (min 127 q) } := by
    intro q d
    unfold Client.setInitialPriority
    simp only [hval]
  refine ⟨hset p c, ?_, ?_, ?_, ?_⟩
  · rw [hset]
    show -128 ≤ max (-128) (min 127 p)
    omega
  · rw [hset]
    show max (-128) (min 127 p) ≤ 127
    omega
  · intro h1 h2
    rw [hset]
    show max (-128) (min 127 p) = p
    omega
  · rw [hset p c, hset]
    have : max (-128) (min 127 (max (-128) (min 127 p))) = max (-128) (min 127 p) := by
      omega
    simp only [this]

/-- C38 at the priorities 300, -300 and 5 of the sample client. -/
theorem C38_priority_clamped_witness :
    (Client.setInitialPriority 300 Sample.client).m_priority = 127 ∧
    (Client.setInitialPriority (-300) Sample.client).m_priority = -128 ∧
    (Client.setInitialPriority 5 Sample.client).m_priority = 5 :=
  ⟨by decide, by decide,
    (C38_priority_clamped 5 Sample.client).2.2.2.1 (by decide) (by decide)⟩

/-! ## Data forms: claims -/

/-- C39: field( name ) returns the first field in list order whose name is the
argument: the fields before it have other names. It returns the null pointer if and
only if no field of the container has that name. It is a const member and only reads
the list. -/
theorem C39_first_field (d : DataFormFieldContainer) (name : String) :
    d.field name = d.m_fields.find? (fun f => f.name == name) ∧
    (∀ f, d.field name = some f →
      f.name = name ∧
        ∃ before after, d.m_fields = before ++ f :: after ∧ ∀ g ∈ before, g.name ≠ name) ∧
    (d.field name = none ↔ ∀ g ∈ d.m_fields, g.name ≠ name) := by
  have heq := DataFormFieldContainer.field_eq_find d name
  refine ⟨heq, ?_, ?_⟩
  · intro f hf
    rw [heq] at hf
    have hname : f.name = name := by
      have := List.find?_some hf
      simpa using this
    refine ⟨hname, ?_⟩
    exact DataFormFieldContainer.find_split d.m_fields name f hf
  · rw [heq, List.find?_eq_none]
    constructor
    · intro h g hg
      have := h g hg
      simpa using this
    · intro h g hg
      have := h g hg
      simpa using this

/-- C39 at a container of three fields, two of them called b: the first of the two is
returned, and nothing for a name no field has. -/
theorem C39_first_field_witness :
    Sample.form.field "b" = some { ptr := 2, m_name := "b" } ∧
    Sample.form.field "z" = none :=
  ⟨rfl, (C39_first_field Sample.form "z").2.2.mpr (by decide)⟩

/-! ## Flexible offline message retrieval: claims -/

/-- C40 fails on the code: fetchMessages builds the offline element, with one item per
message node, and attaches it to nothing. The IQ sent for the nodes n1 and n2 is of type
get with the new id, tracked before it is sent with the context of the message request,
and it has no child at all, so no offline child. -/
theorem C40_offline_not_attached :
    FlexibleOffline.fetchMessages Sample.handler ["n1", "n2"] Sample.client
      = ({ m_name := "offline", m_attribs := [("xmlns", XMLNS_OFFLINE)],
           m_children := [Sample.leaf "item" [("action", "view"), ("node", "n1")] "",
             Sample.leaf "item" [("action", "view"), ("node", "n2")] ""],
           m_cdata := "" },
         { Sample.client with
           m_idCount := 1,
           m_iqIDHandlers := [("uid1", { ih := Sample.handler, context := FO_REQUEST_MSGS })],
           events := [Event.send Sample.fetchRequest] }) ∧
    Sample.fetchRequest.m_children = [] ∧
    Sample.fetchRequest.findChild "offline" = none ∧
    (FlexibleOffline.fetchMessages Sample.handler [] Sample.client).2.events
      = [Event.send Sample.fetchRequest] :=
  ⟨rfl, rfl, rfl, rfl⟩

end gloox
